import Mathlib

/-!
# R503 fingerprint sensor driver: packet framing, exchange and data transfer

A shallow embedding of `src/R503_Fingerprint.cpp` / `src/R503_Fingerprint.h`.

* Bytes, 16-bit and 32-bit machine integers are natural numbers; every place where
  the C++ code truncates (an assignment to `uint16_t`, a `+=` on a `uint16_t`) carries
  an explicit `% 65536`, and the shifts and masks of the source are kept as they are.
* The byte transport (`HardwareSerial`) and the board clock (`millis`, `delay`) are the
  external collaborators of the driver. They are modelled by one record: the bytes
  already received and not yet read, the bytes still in flight with their arrival
  times, the bytes written so far, and the clock.
* Busy-wait loops are unrolled with a fuel argument; `none` means that the fuel ran
  out before the loop left (the code would still be polling).
* `int` is taken to be at least 32 bits wide, as on the ESP32 and ARM boards the library
  is written for, so that `offset + chunkSize` and `length + 2` do not wrap; `unsigned long`
  (the type of `millis()`) is 32 bits wide.
* A caller-owned buffer is represented by the bytes stored into it, in index order; the
  model does not bound it, so a store past the end of a C++ array shows up as a longer list.
-/

namespace R503

/-! ## Constants of `R503_Fingerprint.h` -/

def R503_COMMAND_PACKET : Nat := 0x01
def R503_DATA_PACKET : Nat := 0x02
def R503_ACK_PACKET : Nat := 0x07
def R503_END_DATA_PACKET : Nat := 0x08

def R503_GENIMG : Nat := 0x01
def R503_IMG2TZ : Nat := 0x02
def R503_REGMODEL : Nat := 0x05
def R503_STORE : Nat := 0x06
def R503_DOWNCHAR : Nat := 0x09
def R503_DOWNIMAGE : Nat := 0x0B
def R503_CANCEL : Nat := 0x30
def R503_CHECKSENSOR : Nat := 0x36
def R503_HANDSHAKE : Nat := 0x40

def R503_SEARCH : Nat := 0x04
def R503_READSYSPARA : Nat := 0x0F
def R503_VFYPWD : Nat := 0x13
def R503_SETPWD : Nat := 0x12
def R503_SETADDER : Nat := 0x15

def R503_OK : Nat := 0x00
def R503_PACKETRECIEVEERR : Nat := 0x01
def R503_NOFINGER : Nat := 0x02
def R503_IMAGEFAIL : Nat := 0x03
def R503_IMAGEMESS : Nat := 0x06
def R503_FEATUREFAIL : Nat := 0x07
def R503_NOMATCH : Nat := 0x08
def R503_NOTFOUND : Nat := 0x09
def R503_ENROLLMISMATCH : Nat := 0x0A
def R503_BADLOCATION : Nat := 0x0B
def R503_DBRANGEFAIL : Nat := 0x0C
def R503_UPLOADFEATUREFAIL : Nat := 0x0D
def R503_PACKETRESPONSEFAIL : Nat := 0x0E
def R503_UPLOADFAIL : Nat := 0x0F
def R503_DELETEFAIL : Nat := 0x10
def R503_DBCLEARFAIL : Nat := 0x11
def R503_WRONGPASSWORD : Nat := 0x13
def R503_INVALIDIMAGE : Nat := 0x15
def R503_FLASHERR : Nat := 0x18
def R503_UNDEFINEDERROR : Nat := 0x19
def R503_INVALIDREG : Nat := 0x1A
def R503_REGCONFFAIL : Nat := 0x1B
def R503_WRONGNOTEPAGE : Nat := 0x1C
def R503_PORTOPFAIL : Nat := 0x1D
def R503_IMAGEQUALITY : Nat := 0x07
def R503_ABNORMALSENSOR : Nat := 0x29

def R503_CHARBUFFER1 : Nat := 0x01
def R503_CHARBUFFER2 : Nat := 0x02

def R503_RESET_DELAY : Nat := 200

def R503_DEFAULT_PASSWORD : Nat := 0x00000000
def R503_DEFAULT_ADDRESS : Nat := 0xFFFFFFFF
def R503_STARTCODE : Nat := 0xEF01
def R503_DEFAULT_TIMEOUT : Nat := 2000

/-! ## The byte transport and the clock -/

/-- The serial port as the driver sees it, together with the board clock.
`rx` holds the bytes that have arrived and were not read yet (oldest first),
`incoming` the bytes still in flight as pairs (arrival time in ms, byte) in stream
order, `tx` every byte written so far, `clock` the time in ms. -/
structure HardwareSerial where
  rx : List Nat
  incoming : List (Nat × Nat)
  tx : List Nat
  clock : Nat
deriving DecidableEq, Repr

namespace HardwareSerial

/-- The call `serial->available()`. -/
def available (ser : HardwareSerial) : Nat := ser.rx.length

/-- The call `serial->read()`: removes and returns the oldest received byte. On an empty
receive buffer nothing is removed and the value is `0xFF`, the low byte of the `-1`
that Arduino returns; the driver reads only after `available()` said enough. -/
def read (ser : HardwareSerial) : Nat × HardwareSerial :=
  match ser.rx with
  | [] => (0xFF, ser)
  | b :: rest => (b, { ser with rx := rest })

/-- The call `serial->peek()`: the oldest received byte, left in place. -/
def peek (ser : HardwareSerial) : Nat :=
  match ser.rx with
  | [] => 0xFF
  | b :: _ => b

/-- The call `serial->write(b)` for one byte. -/
def write (ser : HardwareSerial) (b : Nat) : HardwareSerial :=
  { ser with tx := ser.tx ++ [b] }

/-- The call `millis()`: the clock, as an unsigned 32-bit value. -/
def millis (ser : HardwareSerial) : Nat := ser.clock % 2 ^ 32

/-- The call `delay(ms)`: the clock advances, and the bytes in flight whose arrival
time has come move, in order, to the receive buffer. -/
def delay (ser : HardwareSerial) (ms : Nat) : HardwareSerial :=
  let t := ser.clock + ms
  { ser with
    clock := t
    rx := ser.rx ++ (ser.incoming.takeWhile (fun p => decide (p.1 ≤ t))).map Prod.snd
    incoming := ser.incoming.dropWhile (fun p => decide (p.1 ≤ t)) }

/-- Every byte the transport still holds for the driver, read or in flight, in order. -/
def stream (ser : HardwareSerial) : List Nat := ser.rx ++ ser.incoming.map Prod.snd

end HardwareSerial

/-! ## The device session -/

/-- The private members of `class R503_Fingerprint`. -/
structure R503_Fingerprint where
  serial : HardwareSerial
  password : Nat
  address : Nat
  timeout : Nat
  lastConfirmCode : Nat
deriving DecidableEq, Repr

/-- The constructor `R503_Fingerprint::R503_Fingerprint(HardwareSerial *serial)`. -/
def R503_Fingerprint.new (serial : HardwareSerial) : R503_Fingerprint :=
  { serial := serial
    password := R503_DEFAULT_PASSWORD
    address := R503_DEFAULT_ADDRESS
    timeout := R503_DEFAULT_TIMEOUT
    lastConfirmCode := 0xFF }

/-! ## Utility: big-endian writes and reads -/

/-- The method `writeU16`. -/
def writeU16 (ser : HardwareSerial) (value : Nat) : HardwareSerial :=
  (ser.write ((value >>> 8) &&& 0xFF)).write (value &&& 0xFF)

/-- The method `writeU32`. -/
def writeU32 (ser : HardwareSerial) (value : Nat) : HardwareSerial :=
  (((ser.write ((value >>> 24) &&& 0xFF)).write ((value >>> 16) &&& 0xFF)).write
    ((value >>> 8) &&& 0xFF)).write (value &&& 0xFF)

/-- The method `readU16`: `uint16_t value = serial->read() << 8; value |= serial->read();`. -/
def readU16 (ser : HardwareSerial) : Nat × HardwareSerial :=
  let r0 := ser.read
  let value := (r0.1 <<< 8) % 65536
  let r1 := r0.2.read
  ((value ||| r1.1) % 65536, r1.2)

/-- The method `readU32`. -/
def readU32 (ser : HardwareSerial) : Nat × HardwareSerial :=
  let r0 := ser.read
  let value := (r0.1 <<< 24) % 2 ^ 32
  let r1 := r0.2.read
  let value := (value ||| (r1.1 <<< 16) % 2 ^ 32) % 2 ^ 32
  let r2 := r1.2.read
  let value := (value ||| (r2.1 <<< 8) % 2 ^ 32) % 2 ^ 32
  let r3 := r2.2.read
  ((value ||| r3.1) % 2 ^ 32, r3.2)

/-- The method `writePacketHeader`; it always returns `true`. -/
def writePacketHeader (self : R503_Fingerprint) (packetType length : Nat) :
    Bool × R503_Fingerprint :=
  let ser := writeU16 self.serial R503_STARTCODE
  let ser := writeU32 ser self.address
  let ser := ser.write packetType
  let ser := writeU16 ser length
  (true, { self with serial := ser })

/-! ## Packet handling -/

/-- The payload loop of `sendPacket`:
`for (uint16_t i = 0; i < dataLen; i++) { serial->write(data[i]); checksum += data[i]; }`.
The first argument counts the passes still to run, `i` is the loop index. A read past
the end of `data` (undefined in C++) yields 0. -/
def sendPayload (data : List Nat) : Nat → Nat → HardwareSerial → Nat → HardwareSerial × Nat
  | 0, _, ser, checksum => (ser, checksum)
  | n + 1, i, ser, checksum =>
    sendPayload data n (i + 1) (ser.write (data.getD i 0)) ((checksum + data.getD i 0) % 65536)

/-- The method `sendPacket(packetType, data, dataLen)`. -/
def sendPacket (self : R503_Fingerprint) (packetType : Nat) (data : List Nat) (dataLen : Nat) :
    Bool × R503_Fingerprint :=
  let length := (dataLen + 2) % 65536
  let h := writePacketHeader self packetType length
  if h.1 = false then (false, h.2) else
  let self := h.2
  let checksum := (packetType + ((length >>> 8) &&& 0xFF) + (length &&& 0xFF)) % 65536
  let p := sendPayload data dataLen 0 self.serial checksum
  let ser := writeU16 p.1 p.2
  (true, { self with serial := ser })

/-- The polling loop
`while (serial->available() < need) { if (millis() - startTime > limit) <leave>; delay(1); }`.
The result is `true` when the loop condition became false and `false` when the
deadline test fired; `none` when the fuel is used up. -/
def waitAvailable : Nat → HardwareSerial → Nat → Nat → Nat → Option (Bool × HardwareSerial)
  | 0, _, _, _, _ => none
  | fuel + 1, ser, startTime, need, limit =>
    if ser.available < need then
      if (ser.millis + 2 ^ 32 - startTime) % 2 ^ 32 > limit then some (false, ser)
      else waitAvailable fuel (ser.delay 1) startTime need limit
    else some (true, ser)

/-- The payload loop of `receivePacket`:
`for (uint16_t i = 0; i < length; i++) { buffer[i] = serial->read(); calcChecksum += buffer[i]; }`.
The bytes stored at `buffer[0]`, `buffer[1]`, ... are collected in order. -/
def readPayload : Nat → HardwareSerial → Nat → List Nat → List Nat × Nat × HardwareSerial
  | 0, ser, calcChecksum, buffer => (buffer, calcChecksum, ser)
  | n + 1, ser, calcChecksum, buffer =>
    let r := ser.read
    readPayload n r.2 ((calcChecksum + r.1) % 65536) (buffer ++ [r.1])

/-- What `receivePacket` leaves behind: its return value, the bytes it stored at
`buffer[0]`, `buffer[1]`, ... (in order), the value of the out-parameter `length`
(0 on the paths that return before it is assigned; no caller reads it there), and the
session. -/
structure Received where
  ok : Bool
  buffer : List Nat
  length : Nat
  self : R503_Fingerprint
deriving DecidableEq, Repr

/-- The method `receivePacket(buffer, length, expectedType)`. -/
def receivePacket (fuel : Nat) (self : R503_Fingerprint) (expectedType : Nat) :
    Option Received :=
  let startTime := self.serial.millis
  match waitAvailable fuel self.serial startTime 9 self.timeout with
  | none => none
  | some (false, ser) => some ⟨false, [], 0, { self with serial := ser }⟩
  | some (true, ser) =>
    let h := readU16 ser
    if h.1 ≠ R503_STARTCODE then some ⟨false, [], 0, { self with serial := h.2 }⟩ else
    let a := readU32 h.2
    if a.1 ≠ self.address then some ⟨false, [], 0, { self with serial := a.2 }⟩ else
    let p := a.2.read
    let pid := p.1
    if pid ≠ expectedType then some ⟨false, [], 0, { self with serial := p.2 }⟩ else
    let l := readU16 p.2
    let len := l.1
    if len < 2 then some ⟨false, [], 0, { self with serial := l.2 }⟩ else
    let length := len - 2
    let startTime := l.2.millis
    match waitAvailable fuel l.2 startTime (length + 2) self.timeout with
    | none => none
    | some (false, ser) => some ⟨false, [], length, { self with serial := ser }⟩
    | some (true, ser) =>
      let calcChecksum := (pid + ((len >>> 8) &&& 0xFF) + (len &&& 0xFF)) % 65536
      let r := readPayload length ser calcChecksum []
      let c := readU16 r.2.2
      some ⟨decide (c.1 = r.2.1), r.1, length, { self with serial := c.2 }⟩

/-- The method `receiveAck(buffer, length)`. -/
def receiveAck (fuel : Nat) (self : R503_Fingerprint) : Option Received :=
  match receivePacket fuel self R503_ACK_PACKET with
  | none => none
  | some r =>
    if r.ok = false then some { r with ok := false } else
    let self := if r.length > 0 then { r.self with lastConfirmCode := r.buffer.getD 0 0 } else r.self
    some { r with ok := true, self := self }

/-! ## Simple commands: one command packet, one acknowledgement -/

/-- The method `handshake()`. -/
def handshake (fuel : Nat) (self : R503_Fingerprint) : Option (Bool × R503_Fingerprint) :=
  let packet := [R503_HANDSHAKE]
  let s := sendPacket self R503_COMMAND_PACKET packet 1
  if s.1 = false then some (false, s.2) else
  match receiveAck fuel s.2 with
  | none => none
  | some r =>
    if r.ok = false then some (false, r.self) else
    some (decide (r.self.lastConfirmCode = R503_OK), r.self)

/-- The method `checkSensor()`. -/
def checkSensor (fuel : Nat) (self : R503_Fingerprint) : Option (Bool × R503_Fingerprint) :=
  let packet := [R503_CHECKSENSOR]
  let s := sendPacket self R503_COMMAND_PACKET packet 1
  if s.1 = false then some (false, s.2) else
  match receiveAck fuel s.2 with
  | none => none
  | some r =>
    if r.ok = false then some (false, r.self) else
    some (decide (r.self.lastConfirmCode = R503_OK), r.self)

/-- The method `getImage()`. -/
def getImage (fuel : Nat) (self : R503_Fingerprint) : Option (Bool × R503_Fingerprint) :=
  let packet := [R503_GENIMG]
  let s := sendPacket self R503_COMMAND_PACKET packet 1
  if s.1 = false then some (false, s.2) else
  match receiveAck fuel s.2 with
  | none => none
  | some r =>
    if r.ok = false then some (false, r.self) else
    some (decide (r.self.lastConfirmCode = R503_OK), r.self)

/-- The method `image2Tz(slot)`. -/
def image2Tz (fuel : Nat) (self : R503_Fingerprint) (slot : Nat) :
    Option (Bool × R503_Fingerprint) :=
  let packet := [R503_IMG2TZ, slot]
  let s := sendPacket self R503_COMMAND_PACKET packet 2
  if s.1 = false then some (false, s.2) else
  match receiveAck fuel s.2 with
  | none => none
  | some r =>
    if r.ok = false then some (false, r.self) else
    some (decide (r.self.lastConfirmCode = R503_OK), r.self)

/-- The method `createModel()`. -/
def createModel (fuel : Nat) (self : R503_Fingerprint) : Option (Bool × R503_Fingerprint) :=
  let packet := [R503_REGMODEL]
  let s := sendPacket self R503_COMMAND_PACKET packet 1
  if s.1 = false then some (false, s.2) else
  match receiveAck fuel s.2 with
  | none => none
  | some r =>
    if r.ok = false then some (false, r.self) else
    some (decide (r.self.lastConfirmCode = R503_OK), r.self)

/-- The method `storeModel(slot, pageID)`. -/
def storeModel (fuel : Nat) (self : R503_Fingerprint) (slot pageID : Nat) :
    Option (Bool × R503_Fingerprint) :=
  let packet := [R503_STORE, slot, (pageID >>> 8) &&& 0xFF, pageID &&& 0xFF]
  let s := sendPacket self R503_COMMAND_PACKET packet 4
  if s.1 = false then some (false, s.2) else
  match receiveAck fuel s.2 with
  | none => none
  | some r =>
    if r.ok = false then some (false, r.self) else
    some (decide (r.self.lastConfirmCode = R503_OK), r.self)

/-- The method `cancel()`. -/
def cancel (fuel : Nat) (self : R503_Fingerprint) : Option (Bool × R503_Fingerprint) :=
  let packet := [R503_CANCEL]
  let s := sendPacket self R503_COMMAND_PACKET packet 1
  if s.1 = false then some (false, s.2) else
  match receiveAck fuel s.2 with
  | none => none
  | some r =>
    if r.ok = false then some (false, r.self) else
    some (decide (r.self.lastConfirmCode = R503_OK), r.self)

/-! ## Outbound data transfer -/

/-- The chunk loop of `downloadCharacteristics`, from the current `offset`:
`while (offset < length) { ... sendPacket(packetType, buffer + offset, chunkSize) ...;
offset += chunkSize; }` with `uint16_t` offset, chunk size and length. The first argument
bounds the number of passes and makes the recursion structural. -/
def downloadCharacteristicsLoop :
    Nat → R503_Fingerprint → List Nat → Nat → Nat → Option (Bool × R503_Fingerprint)
  | 0, _, _, _, _ => none
  | n + 1, self, buffer, length, offset =>
    if offset < length then
      let packetSize := 128
      let chunkSize := min ((length - offset) % 65536) packetSize
      let isLastPacket := decide (offset + chunkSize ≥ length)
      let packetType := if isLastPacket then R503_END_DATA_PACKET else R503_DATA_PACKET
      let s := sendPacket self packetType (buffer.drop offset) chunkSize
      if s.1 = false then some (false, s.2) else
      downloadCharacteristicsLoop n s.2 buffer length ((offset + chunkSize) % 65536)
    else some (true, self)

/-- The method `downloadCharacteristics(slot, buffer, length)`. Every pass of the chunk
loop moves `offset` forward by at least one, so `length + 1` passes are always enough. -/
def downloadCharacteristics (fuel : Nat) (self : R503_Fingerprint) (slot : Nat)
    (buffer : List Nat) (length : Nat) : Option (Bool × R503_Fingerprint) :=
  let packet := [R503_DOWNCHAR, slot]
  let s := sendPacket self R503_COMMAND_PACKET packet 2
  if s.1 = false then some (false, s.2) else
  match receiveAck fuel s.2 with
  | none => none
  | some r =>
    if r.ok = false then some (false, r.self) else
    if r.self.lastConfirmCode ≠ R503_OK then some (false, r.self) else
    downloadCharacteristicsLoop (length + 1) r.self buffer length 0

/-- The chunk loop of `downloadImage`: as for characteristics, with a `uint32_t` offset
and length and a `uint16_t` chunk size. -/
def downloadImageLoop :
    Nat → R503_Fingerprint → List Nat → Nat → Nat → Option (Bool × R503_Fingerprint)
  | 0, _, _, _, _ => none
  | n + 1, self, buffer, length, offset =>
    if offset < length then
      let packetSize := 128
      let chunkSize := (min ((length - offset) % 2 ^ 32) packetSize) % 65536
      let isLastPacket := decide ((offset + chunkSize) % 2 ^ 32 ≥ length)
      let packetType := if isLastPacket then R503_END_DATA_PACKET else R503_DATA_PACKET
      let s := sendPacket self packetType (buffer.drop offset) chunkSize
      if s.1 = false then some (false, s.2) else
      downloadImageLoop n s.2 buffer length ((offset + chunkSize) % 2 ^ 32)
    else some (true, self)

/-- The method `downloadImage(buffer, length)`. -/
def downloadImage (fuel : Nat) (self : R503_Fingerprint) (buffer : List Nat) (length : Nat) :
    Option (Bool × R503_Fingerprint) :=
  let packet := [R503_DOWNIMAGE]
  let s := sendPacket self R503_COMMAND_PACKET packet 1
  if s.1 = false then some (false, s.2) else
  match receiveAck fuel s.2 with
  | none => none
  | some r =>
    if r.ok = false then some (false, r.self) else
    if r.self.lastConfirmCode ≠ R503_OK then some (false, r.self) else
    downloadImageLoop (length + 1) r.self buffer length 0

/-! ## Inbound data transfer -/

/-- The bytes of the caller's buffer after `chunk` was stored from offset `off` on.
The list is the part of the buffer written so far; the offsets `receiveData` uses never
lie beyond it. -/
def storeAt (buffer : List Nat) (off : Nat) (chunk : List Nat) : List Nat :=
  buffer.take off ++ chunk ++ buffer.drop (off + chunk.length)

/-- The loop `for (int i = 0; i < 9; i++) { temp[i] = serial->read(); }` of `receiveData`,
for a count of bytes. -/
def readTemp : Nat → HardwareSerial → List Nat → List Nat × HardwareSerial
  | 0, ser, temp => (temp, ser)
  | n + 1, ser, temp =>
    let r := ser.read
    readTemp n r.2 (temp ++ [r.1])

/-- What `receiveData` leaves behind: its return value, the part of the caller's buffer
it has written, the out-parameter `actualLength`, and the session. -/
structure DataReceived where
  ok : Bool
  buffer : List Nat
  actualLength : Nat
  self : R503_Fingerprint
deriving DecidableEq, Repr

/-- The look-ahead of `receiveData` after a chunk: decides the packet type the next pass
expects. The nine header bytes it reads are not put back (the loops that follow the
reads in the source have no effect on the transport). -/
def receiveDataPeek (ser : HardwareSerial) : Nat × HardwareSerial :=
  if ser.available ≥ 9 then
    if ser.peek = 0xEF then
      let t := readTemp 9 ser []
      let temp := t.1
      if temp.getD 0 0 = 0xEF ∧ temp.getD 1 0 = 0x01 then
        let pid := temp.getD 8 0
        if pid = R503_DATA_PACKET then (R503_DATA_PACKET, t.2)
        else (R503_END_DATA_PACKET, t.2)
      else (R503_END_DATA_PACKET, t.2)
    else (R503_END_DATA_PACKET, ser)
  else (R503_END_DATA_PACKET, ser)

/-- The loop `while (packetType != R503_END_DATA_PACKET) { ... }` of `receiveData`.
The second argument bounds the number of passes. -/
def receiveDataLoop (fuel : Nat) :
    Nat → R503_Fingerprint → List Nat → Nat → Nat → Nat → Option DataReceived
  | 0, _, _, _, _, _ => none
  | n + 1, self, buffer, maxLength, actualLength, packetType =>
    if packetType ≠ R503_END_DATA_PACKET then
      match receivePacket fuel self packetType with
      | none => none
      | some r =>
        let buffer := storeAt buffer actualLength r.buffer
        if r.ok = false then some ⟨false, buffer, actualLength, r.self⟩ else
        let chunkLen := r.length
        let actualLength := (actualLength + chunkLen) % 65536
        if actualLength ≥ maxLength then some ⟨false, buffer, actualLength, r.self⟩ else
        let startTime := r.self.serial.millis
        match waitAvailable fuel r.self.serial startTime 9 100 with
        | none => none
        | some w =>
          let k := receiveDataPeek w.2
          receiveDataLoop fuel n { r.self with serial := k.2 } buffer maxLength actualLength k.1
    else some ⟨true, buffer, actualLength, self⟩

/-- The method `receiveData(buffer, maxLength, actualLength)`. -/
def receiveData (fuel : Nat) (self : R503_Fingerprint) (maxLength : Nat) :
    Option DataReceived :=
  receiveDataLoop fuel fuel self [] maxLength 0 R503_DATA_PACKET

/-! ## Initialization -/

/-- The loop of `clearSerialBuffer`, `while (serial->available()) { serial->read(); }`.
Reading takes no time in the model, so the loop makes at most `available()` passes; the
first argument is that bound. -/
def clearSerialBufferLoop : Nat → HardwareSerial → HardwareSerial
  | 0, ser => ser
  | n + 1, ser => if ser.available ≠ 0 then clearSerialBufferLoop n ser.read.2 else ser

/-- The method `clearSerialBuffer()`. -/
def clearSerialBuffer (self : R503_Fingerprint) : R503_Fingerprint :=
  { self with serial := clearSerialBufferLoop self.serial.available self.serial }

/-- The method `verifyPassword(password)`. -/
def verifyPassword (fuel : Nat) (self : R503_Fingerprint) (password : Nat) :
    Option (Bool × R503_Fingerprint) :=
  let packet := [R503_VFYPWD, (password >>> 24) &&& 0xFF, (password >>> 16) &&& 0xFF,
    (password >>> 8) &&& 0xFF, password &&& 0xFF]
  let s := sendPacket self R503_COMMAND_PACKET packet 5
  if s.1 = false then some (false, s.2) else
  match receiveAck fuel s.2 with
  | none => none
  | some r =>
    if r.ok = false then some (false, r.self) else
    some (decide (r.self.lastConfirmCode = R503_OK), r.self)

/-- The method `setTimeout(timeout)`. -/
def setTimeout (self : R503_Fingerprint) (timeout : Nat) : R503_Fingerprint :=
  { self with timeout := timeout }

/-- The method `setPassword(password)`. -/
def setPassword (fuel : Nat) (self : R503_Fingerprint) (password : Nat) :
    Option (Bool × R503_Fingerprint) :=
  let packet := [R503_SETPWD, (password >>> 24) &&& 0xFF, (password >>> 16) &&& 0xFF,
    (password >>> 8) &&& 0xFF, password &&& 0xFF]
  let s := sendPacket self R503_COMMAND_PACKET packet 5
  if s.1 = false then some (false, s.2) else
  match receiveAck fuel s.2 with
  | none => none
  | some r =>
    if r.ok = false then some (false, r.self) else
    if r.self.lastConfirmCode = R503_OK then some (true, { r.self with password := password })
    else some (false, r.self)

/-- The method `setAddress(address)`. -/
def setAddress (fuel : Nat) (self : R503_Fingerprint) (address : Nat) :
    Option (Bool × R503_Fingerprint) :=
  let packet := [R503_SETADDER, (address >>> 24) &&& 0xFF, (address >>> 16) &&& 0xFF,
    (address >>> 8) &&& 0xFF, address &&& 0xFF]
  let s := sendPacket self R503_COMMAND_PACKET packet 5
  if s.1 = false then some (false, s.2) else
  match receiveAck fuel s.2 with
  | none => none
  | some r =>
    if r.ok = false then some (false, r.self) else
    if r.self.lastConfirmCode = R503_OK then some (true, { r.self with address := address })
    else some (false, r.self)

/-- The wake-byte loop of `begin`:
`while (millis() - startTime < 1000) { if (serial->available() && serial->read() == 0x55)
break; delay(10); }`. Every pass that does not leave adds 10 ms, so the loop makes at most
101 tests of its condition; the first argument bounds the passes, `none` means the bound
was too small. -/
def beginWakeLoop : Nat → HardwareSerial → Nat → Option HardwareSerial
  | 0, _, _ => none
  | n + 1, ser, startTime =>
    if (ser.millis + 2 ^ 32 - startTime) % 2 ^ 32 < 1000 then
      if ser.available ≠ 0 then
        let r := ser.read
        if r.1 = 0x55 then some r.2
        else beginWakeLoop n (r.2.delay 10) startTime
      else beginWakeLoop n (ser.delay 10) startTime
    else some ser

/-- The method `begin(baud, password, address)`. Opening the port (`serial->begin(baud)`)
has no effect on the modelled transport. -/
def begin (fuel : Nat) (self : R503_Fingerprint) (_baud password address : Nat) :
    Option (Bool × R503_Fingerprint) :=
  let self := { self with password := password, address := address }
  let ser := self.serial.delay R503_RESET_DELAY
  let startTime := ser.millis
  match beginWakeLoop 101 ser startTime with
  | none => none
  | some ser =>
    let self := clearSerialBuffer { self with serial := ser }
    if password ≠ R503_DEFAULT_PASSWORD then verifyPassword fuel self password
    else handshake fuel self

/-! ## System parameters and search -/

/-- The structure `R503_SystemParams`. -/
structure R503_SystemParams where
  statusRegister : Nat
  systemID : Nat
  librarySize : Nat
  securityLevel : Nat
  deviceAddress : Nat
  dataPacketSize : Nat
  baudRate : Nat
deriving DecidableEq, Repr

/-- The method `readSystemParameters(params)`; `params` is the caller's structure, returned
unchanged when the method returns `false`. -/
def readSystemParameters (fuel : Nat) (self : R503_Fingerprint) (params : R503_SystemParams) :
    Option (Bool × R503_SystemParams × R503_Fingerprint) :=
  let packet := [R503_READSYSPARA]
  let s := sendPacket self R503_COMMAND_PACKET packet 1
  if s.1 = false then some (false, params, s.2) else
  match receiveAck fuel s.2 with
  | none => none
  | some r =>
    if r.ok = false then some (false, params, r.self) else
    let response := r.buffer
    let len := r.length
    if r.self.lastConfirmCode = R503_OK ∧ len ≥ 17 then
      some (true,
        { statusRegister := ((response.getD 1 0 <<< 8) ||| response.getD 2 0) % 65536
          systemID := ((response.getD 3 0 <<< 8) ||| response.getD 4 0) % 65536
          librarySize := ((response.getD 5 0 <<< 8) ||| response.getD 6 0) % 65536
          securityLevel := ((response.getD 7 0 <<< 8) ||| response.getD 8 0) % 65536
          deviceAddress := ((response.getD 9 0 <<< 24) ||| (response.getD 10 0 <<< 16) |||
            (response.getD 11 0 <<< 8) ||| response.getD 12 0) % 2 ^ 32
          dataPacketSize := ((response.getD 13 0 <<< 8) ||| response.getD 14 0) % 65536
          baudRate := ((response.getD 15 0 <<< 8) ||| response.getD 16 0) % 65536 },
        r.self)
    else some (false, params, r.self)

/-- The method `searchLibrary(slot, startPage, count, fingerID, score)`; `fingerID` and
`score` are the caller's variables, returned unchanged when the method returns `false`. -/
def searchLibrary (fuel : Nat) (self : R503_Fingerprint) (slot startPage count : Nat)
    (fingerID score : Nat) : Option (Bool × Nat × Nat × R503_Fingerprint) :=
  let packet := [R503_SEARCH, slot, (startPage >>> 8) &&& 0xFF, startPage &&& 0xFF,
    (count >>> 8) &&& 0xFF, count &&& 0xFF]
  let s := sendPacket self R503_COMMAND_PACKET packet 6
  if s.1 = false then some (false, fingerID, score, s.2) else
  match receiveAck fuel s.2 with
  | none => none
  | some r =>
    if r.ok = false then some (false, fingerID, score, r.self) else
    let response := r.buffer
    let len := r.length
    if r.self.lastConfirmCode = R503_OK ∧ len ≥ 5 then
      some (true, ((response.getD 1 0 <<< 8) ||| response.getD 2 0) % 65536,
        ((response.getD 3 0 <<< 8) ||| response.getD 4 0) % 65536, r.self)
    else some (false, fingerID, score, r.self)

/-! ## Enrollment and verification -/

/-- The method `verifyFingerprint(fingerID, confidence)`. The local `params` is not
initialised in the source; it is read only after `readSystemParameters` filled it. -/
def verifyFingerprint (fuel : Nat) (self : R503_Fingerprint) (fingerID confidence : Nat) :
    Option (Bool × Nat × Nat × R503_Fingerprint) :=
  match getImage fuel self with
  | none => none
  | some g =>
    if g.1 = false then some (false, fingerID, confidence, g.2) else
    match image2Tz fuel g.2 R503_CHARBUFFER1 with
    | none => none
    | some t =>
      if t.1 = false then some (false, fingerID, confidence, t.2) else
      match readSystemParameters fuel t.2 ⟨0, 0, 0, 0, 0, 0, 0⟩ with
      | none => none
      | some q =>
        if q.1 = false then some (false, fingerID, confidence, q.2.2) else
        searchLibrary fuel q.2.2 R503_CHARBUFFER1 0 q.2.1.librarySize fingerID confidence

/-- The loop `while (!getImage()) { delay(100); }` of `enrollFingerprint`. The second
argument bounds the number of passes; `none` means the loop was still running. -/
def enrollFingerprintCapture (fuel : Nat) : Nat → R503_Fingerprint → Option R503_Fingerprint
  | 0, _ => none
  | n + 1, self =>
    match getImage fuel self with
    | none => none
    | some g =>
      if g.1 = false then
        enrollFingerprintCapture fuel n { g.2 with serial := g.2.serial.delay 100 }
      else some g.2

/-- The loop `for (uint8_t i = 1; i < enrollCount; i++) { ... }` of `enrollFingerprint`,
from the current `i`. The second argument bounds the number of passes (the loop makes
fewer than `enrollCount`). The result is `false` when the body returned `false`, and `true`
when the loop ran to its end. Output on the console is not modelled. -/
def enrollFingerprintLoop (fuel : Nat) :
    Nat → Nat → Nat → R503_Fingerprint → Option (Bool × R503_Fingerprint)
  | 0, _, _, _ => none
  | m + 1, i, enrollCount, self =>
    if i < enrollCount then
      match enrollFingerprintCapture fuel fuel self with
      | none => none
      | some c =>
        match image2Tz fuel c R503_CHARBUFFER2 with
        | none => none
        | some t =>
          if t.1 = false then some (false, t.2) else
          match (if i = 1 then createModel fuel t.2 else some (true, t.2)) with
          | none => none
          | some f =>
            if f.1 = false then some (false, f.2) else
            let self := if i < enrollCount - 1
              then { f.2 with serial := f.2.serial.delay 1000 } else f.2
            enrollFingerprintLoop fuel m (i + 1) enrollCount self
    else some (true, self)

/-- The method `enrollFingerprint(pageID, enrollCount)`. The progress messages go to the
console `Serial`, not to the sensor port, and are not modelled. -/
def enrollFingerprint (fuel : Nat) (self : R503_Fingerprint) (pageID enrollCount : Nat) :
    Option (Bool × R503_Fingerprint) :=
  let enrollCount := if enrollCount < 2 ∨ enrollCount > 6 then 6 else enrollCount
  match enrollFingerprintCapture fuel fuel self with
  | none => none
  | some c =>
    match image2Tz fuel c R503_CHARBUFFER1 with
    | none => none
    | some t =>
      if t.1 = false then some (false, t.2) else
      let self := { t.2 with serial := t.2.serial.delay 1000 }
      match enrollFingerprintLoop fuel enrollCount 1 enrollCount self with
      | none => none
      | some l =>
        if l.1 = false then some (false, l.2) else
        match storeModel fuel l.2 R503_CHARBUFFER1 pageID with
        | none => none
        | some st => some (st.1, st.2)

/-! ## The wire format and the chunking rule in the words of the specification

These definitions restate the wire format (big-endian fields, checksum as the truncated sum
of type, length bytes and payload bytes) and the outbound chunking rule as the
specification words them. They are not taken from the code; the theorems compare the code
with them. -/

/-- Big-endian encoding of a 16-bit field: high byte, low byte. -/
def specBigEndian16 (v : Nat) : List Nat := [(v / 256) % 256, v % 256]

/-- Big-endian encoding of a 32-bit field. -/
def specBigEndian32 (v : Nat) : List Nat :=
  [(v / 16777216) % 256, (v / 65536) % 256, (v / 256) % 256, v % 256]

/-- Checksum of a frame: packet type, plus high and low byte of the length field
(payload length + 2), plus every payload byte, truncated to 16 bits. -/
def specChecksum (packetType : Nat) (payload : List Nat) : Nat :=
  (packetType + ((payload.length + 2) / 256) % 256 + (payload.length + 2) % 256
    + payload.sum) % 65536

/-- One frame on the wire: start marker, address, packet type, length, payload, checksum. -/
def specFrame (address packetType : Nat) (payload : List Nat) : List Nat :=
  [0xEF, 0x01] ++ specBigEndian32 address ++ [packetType] ++ specBigEndian16 (payload.length + 2)
    ++ payload ++ specBigEndian16 (specChecksum packetType payload)

/-- The length field that the header at the front of a byte stream declares: bytes 7 and 8,
big-endian. -/
def specDeclaredLength (stream : List Nat) : Nat := stream.getD 7 0 * 256 + stream.getD 8 0

/-- Number of chunks of size `S` that cover `L` bytes: the ceiling of `L / S`. -/
def specChunkCount (L S : Nat) : Nat := (L + S - 1) / S

/-- Chunk number `i` (from 0) of a payload cut into pieces of size `S`: the bytes at
positions `i * S` up to, not including, `min ((i + 1) * S) L`. -/
def specChunk (payload : List Nat) (S i : Nat) : List Nat := (payload.drop (i * S)).take S

/-- The frame that carries chunk `i` of a payload cut into chunks of size `S`: a Data frame
(0x02) for every chunk but the last, an EndOfData frame (0x08) for the last one. -/
def specChunkFrame (address : Nat) (payload : List Nat) (S i : Nat) : List Nat :=
  specFrame address (if i + 1 = specChunkCount payload.length S then 0x08 else 0x02)
    (specChunk payload S i)

/-- All the frames of a payload cut into chunks of size `S`, in order. -/
def specChunkFrames (address : Nat) (payload : List Nat) (S : Nat) : List Nat :=
  (List.range (specChunkCount payload.length S)).flatMap (specChunkFrame address payload S)

/-! ## Auxiliary definitions for the proofs -/

/-- The part of `receivePacket` that follows the test `len < 2`, as a function of the
transport state after the header, the packet type read and the length field read. -/
def receivePacketBody (fuel : Nat) (self : R503_Fingerprint) (ser : HardwareSerial)
    (pid len : Nat) : Option Received :=
  match waitAvailable fuel ser ser.millis (len - 2 + 2) self.timeout with
  | none => none
  | some (false, ser) => some ⟨false, [], len - 2, { self with serial := ser }⟩
  | some (true, ser) =>
    let calcChecksum := (pid + ((len >>> 8) &&& 0xFF) + (len &&& 0xFF)) % 65536
    let r := readPayload (len - 2) ser calcChecksum []
    let c := readU16 r.2.2
    some ⟨decide (c.1 = r.2.1), r.1, len - 2, { self with serial := c.2 }⟩

/-- The common body of the simple commands: send one command packet with the given
payload, receive the acknowledgement, return `lastConfirmCode == R503_OK`. -/
def simpleCommand (fuel : Nat) (self : R503_Fingerprint) (packet : List Nat) :
    Option (Bool × R503_Fingerprint) :=
  let s := sendPacket self R503_COMMAND_PACKET packet packet.length
  if s.1 = false then some (false, s.2) else
  match receiveAck fuel s.2 with
  | none => none
  | some r =>
    if r.ok = false then some (false, r.self) else
    some (decide (r.self.lastConfirmCode = R503_OK), r.self)

/-- One entry of a run log: the payload of a command packet that was sent, and what the
command function returned. -/
abbrev Exchange := List Nat × Bool

/-- The command code of a log entry: the first payload byte. -/
def commandCode (e : Exchange) : Nat := e.1.headD 0

/-- The capture loop of `enrollFingerprint` together with a log of the completed
`getImage` calls. The log is a record only; the second component is the loop itself. -/
def enrollFingerprintCaptureLog (fuel : Nat) :
    Nat → List Exchange → R503_Fingerprint → List Exchange × Option R503_Fingerprint
  | 0, log, _ => (log, none)
  | n + 1, log, self =>
    match getImage fuel self with
    | none => (log, none)
    | some g =>
      if g.1 = false then
        enrollFingerprintCaptureLog fuel n (log ++ [([R503_GENIMG], false)])
          { g.2 with serial := g.2.serial.delay 100 }
      else (log ++ [([R503_GENIMG], true)], some g.2)

/-- The sample loop of `enrollFingerprint` together with a log of the completed command
calls. -/
def enrollFingerprintLoopLog (fuel : Nat) :
    Nat → Nat → Nat → List Exchange → R503_Fingerprint →
      List Exchange × Option (Bool × R503_Fingerprint)
  | 0, _, _, log, _ => (log, none)
  | m + 1, i, enrollCount, log, self =>
    if i < enrollCount then
      match enrollFingerprintCaptureLog fuel fuel log self with
      | (log, none) => (log, none)
      | (log, some c) =>
        match image2Tz fuel c R503_CHARBUFFER2 with
        | none => (log, none)
        | some t =>
          let log := log ++ [([R503_IMG2TZ, R503_CHARBUFFER2], t.1)]
          if t.1 = false then (log, some (false, t.2)) else
          match (if i = 1 then createModel fuel t.2 else some (true, t.2)) with
          | none => (log, none)
          | some f =>
            let log := if i = 1 then log ++ [([R503_REGMODEL], f.1)] else log
            if f.1 = false then (log, some (false, f.2)) else
            let self := if i < enrollCount - 1
              then { f.2 with serial := f.2.serial.delay 1000 } else f.2
            enrollFingerprintLoopLog fuel m (i + 1) enrollCount log self
    else (log, some (true, self))

/-- The method `enrollFingerprint` together with a log of the completed command calls, in
order. The second component is `enrollFingerprint` itself (`enrollFingerprintLog_snd`). -/
def enrollFingerprintLog (fuel : Nat) (self : R503_Fingerprint) (pageID enrollCount : Nat) :
    List Exchange × Option (Bool × R503_Fingerprint) :=
  let enrollCount := if enrollCount < 2 ∨ enrollCount > 6 then 6 else enrollCount
  match enrollFingerprintCaptureLog fuel fuel [] self with
  | (log, none) => (log, none)
  | (log, some c) =>
    match image2Tz fuel c R503_CHARBUFFER1 with
    | none => (log, none)
    | some t =>
      let log := log ++ [([R503_IMG2TZ, R503_CHARBUFFER1], t.1)]
      if t.1 = false then (log, some (false, t.2)) else
      let self := { t.2 with serial := t.2.serial.delay 1000 }
      match enrollFingerprintLoopLog fuel enrollCount 1 enrollCount log self with
      | (log, none) => (log, none)
      | (log, some l) =>
        if l.1 = false then (log, some (false, l.2)) else
        match storeModel fuel l.2 R503_CHARBUFFER1 pageID with
        | none => (log, none)
        | some st =>
          (log ++ [([R503_STORE, R503_CHARBUFFER1, (pageID >>> 8) &&& 0xFF, pageID &&& 0xFF],
            st.1)], some (st.1, st.2))

/-- A session as the constructor leaves it, on a transport with nothing received, nothing
in flight and nothing written, at time 0. -/
def freshSession : R503_Fingerprint := R503_Fingerprint.new ⟨[], [], [], 0⟩

/-- The session `self` with `bytes` as the received, unread bytes of its transport. -/
def withRx (self : R503_Fingerprint) (bytes : List Nat) : R503_Fingerprint :=
  { self with serial := { self.serial with rx := bytes } }

/-- A payload of 65534 zero bytes: the longest but one that the `uint16_t dataLen` argument
of `sendPacket` can announce. -/
def longPayload : List Nat := List.replicate 65534 0

/-- An acknowledgement frame without payload (length field 2), addressed to the default
address: `EF 01 FF FF FF FF 07 00 02 00 09`. -/
def emptyAck : List Nat := [0xEF, 0x01, 0xFF, 0xFF, 0xFF, 0xFF, 0x07, 0x00, 0x02, 0x00, 0x09]

/-- A session whose previous command was acknowledged with confirmation code 0x00, and
whose transport now holds an acknowledgement without payload. -/
def staleSession : R503_Fingerprint :=
  withRx { freshSession with lastConfirmCode := 0x00 } emptyAck

/-- The bytes that the chunk loop of `downloadCharacteristics` writes for a payload, on a
fresh session. -/
def sentChunks (payload : List Nat) : List Nat :=
  match downloadCharacteristicsLoop (payload.length + 1) freshSession payload payload.length 0 with
  | some p => p.2.serial.tx
  | none => []

/-- A test payload of `L` bytes: 0, 1, 2, ... (modulo 256). -/
def bytesUpTo (L : Nat) : List Nat := (List.range L).map (fun i => i % 256)

/-- A well-formed inbound transfer of 5 bytes: a Data frame carrying `[1, 2, 3]` followed by
an EndOfData frame carrying `[4, 5]`, both for the default address. -/
def twoFrameTransfer : List Nat :=
  specFrame 0xFFFFFFFF 0x02 [1, 2, 3] ++ specFrame 0xFFFFFFFF 0x08 [4, 5]

/-- A well-formed inbound transfer of 5 bytes: a Data frame carrying `[1, 2, 3, 4, 5]`
followed by an EndOfData frame without payload. -/
def fullFrameTransfer : List Nat :=
  specFrame 0xFFFFFFFF 0x02 [1, 2, 3, 4, 5] ++ specFrame 0xFFFFFFFF 0x08 []

/-- A well-formed inbound transfer of 3 bytes in a single EndOfData frame. -/
def singleFrameTransfer : List Nat := specFrame 0xFFFFFFFF 0x08 [1, 2, 3]

/-- An acknowledgement frame with confirmation code 0x00 whose checksum bytes read 0x000B
instead of 0x000A. -/
def badChecksumAck : List Nat :=
  [0xEF, 0x01, 0xFF, 0xFF, 0xFF, 0xFF, 0x07, 0x00, 0x03, 0x00, 0x00, 0x0B]

/-- An acknowledgement frame with confirmation code 0x00, for the default address:
`EF 01 FF FF FF FF 07 00 03 00 00 0A`. -/
def okAck : List Nat := [0xEF, 0x01, 0xFF, 0xFF, 0xFF, 0xFF, 0x07, 0x00, 0x03, 0x00, 0x00, 0x0A]

/-- The handshake command frame `EF 01 FF FF FF FF 01 00 03 40 00 44`. -/
def handshakeFrame : List Nat :=
  [0xEF, 0x01, 0xFF, 0xFF, 0xFF, 0xFF, 0x01, 0x00, 0x03, 0x40, 0x00, 0x44]

/-- A fresh session whose transport holds the acknowledgement `okAck` followed by the two
bytes `AA BB`. -/
def ackThenTwo : R503_Fingerprint := withRx freshSession (okAck ++ [0xAA, 0xBB])

/-- What `receivePacket` returns on `ackThenTwo`: accepted, payload `[0x00]`, and the two
bytes that followed still unread. -/
def ackReceived : Received := ⟨true, [0x00], 1, withRx freshSession [0xAA, 0xBB]⟩

/-! ## Run logs of the enrollment workflow -/

/-- The bytes written by `s2` are those of `s1` followed by the frames of the logged
commands, and the address is the same. -/
def Sent (s1 : R503_Fingerprint) (new : List Exchange) (s2 : R503_Fingerprint) : Prop :=
  s2.serial.tx = s1.serial.tx ++ new.flatMap (fun e => specFrame s1.address 0x01 e.1) ∧
    s2.address = s1.address

/-- A log entry after which the enrollment goes on: a capture (whatever it returned), or an
extraction or fusion that returned `true`. -/
def Quiet (e : Exchange) : Prop :=
  commandCode e = R503_GENIMG ∨ (e.2 = true ∧ (commandCode e = R503_IMG2TZ ∨ commandCode e = R503_REGMODEL))

/-- A log entry that ends the enrollment with `false`: an extraction, a fusion or a store that
returned `false`. -/
def Failed (e : Exchange) : Prop :=
  e.2 = false ∧ (commandCode e = R503_IMG2TZ ∨ commandCode e = R503_REGMODEL ∨ commandCode e = R503_STORE)

/-- Number of log entries with a given command code. -/
def countCode (c : Nat) (log : List Exchange) : Nat := log.countP (fun e => commandCode e == c)

/-- What the sample loop of `enrollFingerprint` adds to the log, by outcome: still running,
ran to its end (with the number of extractions and fusions), or returned `false`. -/
def LoopOutcome (self : R503_Fingerprint) (new : List Exchange) (nT nR : Nat) :
    Option (Bool × R503_Fingerprint) → Prop
  | none => ∀ e ∈ new, Quiet e
  | some (true, s) => (∀ e ∈ new, Quiet e) ∧ countCode R503_IMG2TZ new = nT ∧
      countCode R503_REGMODEL new = nR ∧ Sent self new s
  | some (false, s) => ∃ init last, new = init ++ [last] ∧ (∀ e ∈ init, Quiet e) ∧
      Failed last ∧ Sent self new s

/-- The sample count `enrollFingerprint` works with: the requested count when it lies in
2..6, and 6 otherwise. -/
def specEffectiveCount (n : Nat) : Nat := if 2 ≤ n ∧ n ≤ 6 then n else 6

/-- The log of a whole `enrollFingerprint` run, by outcome: still running; returned `true`
(the log ends with the accepted store, before it come only captures and successful
extractions and fusions, `eff` extractions and one fusion); returned `false` (the log ends
with the extraction, fusion or store that returned `false`). -/
def EnrollResult (self : R503_Fingerprint) (log : List Exchange) (pageID eff : Nat) :
    Option (Bool × R503_Fingerprint) → Prop
  | none => ∀ e ∈ log, Quiet e
  | some (true, s) => ∃ init,
      log = init ++ [([R503_STORE, R503_CHARBUFFER1, (pageID >>> 8) &&& 0xFF, pageID &&& 0xFF],
        true)] ∧
      (∀ e ∈ init, Quiet e) ∧ countCode R503_IMG2TZ init = eff ∧
      countCode R503_REGMODEL init = 1 ∧ Sent self log s
  | some (false, s) => ∃ init last, log = init ++ [last] ∧ (∀ e ∈ init, Quiet e) ∧
      Failed last ∧ Sent self log s

/-! ## Further concrete inputs -/

/-- The confirmation-code constants of `R503_Fingerprint.h`, in the order of the header. -/
def confirmationCodes : List Nat :=
  [R503_OK, R503_PACKETRECIEVEERR, R503_NOFINGER, R503_IMAGEFAIL, R503_IMAGEMESS,
    R503_FEATUREFAIL, R503_NOMATCH, R503_NOTFOUND, R503_ENROLLMISMATCH, R503_BADLOCATION,
    R503_DBRANGEFAIL, R503_UPLOADFEATUREFAIL, R503_PACKETRESPONSEFAIL, R503_UPLOADFAIL,
    R503_DELETEFAIL, R503_DBCLEARFAIL, R503_WRONGPASSWORD, R503_INVALIDIMAGE, R503_FLASHERR,
    R503_UNDEFINEDERROR, R503_INVALIDREG, R503_REGCONFFAIL, R503_WRONGNOTEPAGE,
    R503_PORTOPFAIL, R503_IMAGEQUALITY, R503_ABNORMALSENSOR]

/-- The confirmation-code constants without `R503_IMAGEQUALITY`. -/
def confirmationCodesBase : List Nat :=
  [R503_OK, R503_PACKETRECIEVEERR, R503_NOFINGER, R503_IMAGEFAIL, R503_IMAGEMESS,
    R503_FEATUREFAIL, R503_NOMATCH, R503_NOTFOUND, R503_ENROLLMISMATCH, R503_BADLOCATION,
    R503_DBRANGEFAIL, R503_UPLOADFEATUREFAIL, R503_PACKETRESPONSEFAIL, R503_UPLOADFAIL,
    R503_DELETEFAIL, R503_DBCLEARFAIL, R503_WRONGPASSWORD, R503_INVALIDIMAGE, R503_FLASHERR,
    R503_UNDEFINEDERROR, R503_INVALIDREG, R503_REGCONFFAIL, R503_WRONGNOTEPAGE,
    R503_PORTOPFAIL, R503_ABNORMALSENSOR]

/-- The frames of a sequence of command packets, in order. -/
def specCommands (address : Nat) (cmds : List (List Nat)) : List Nat :=
  cmds.flatMap (specFrame address 0x01)

/-- A response stream of `n` acknowledgements with confirmation code 0x00. -/
def okAcks (n : Nat) : List Nat := (List.replicate n okAck).flatten

/-- A Data frame `[1, 2, 3]`, two stray zero bytes, an EndOfData frame `[4, 5]`. -/
def noisyTransfer : List Nat :=
  specFrame 0xFFFFFFFF 0x02 [1, 2, 3] ++ [0x00, 0x00] ++ specFrame 0xFFFFFFFF 0x08 [4, 5]

/-- A fresh session whose transport holds an acknowledgement 0x00 (for the capture) and an
acknowledgement 0x07 (for the extraction). -/
def failedExtraction : R503_Fingerprint :=
  withRx freshSession (okAck ++ specFrame 0xFFFFFFFF 0x07 [0x07])

/-- The session after `enrollFingerprint` ran on `failedExtraction`: two commands written,
last confirmation code 0x07. -/
def afterFailedExtraction : R503_Fingerprint :=
  { freshSession with
    serial := ⟨[], [], specCommands 0xFFFFFFFF [[0x01], [0x02, 0x01]], 0⟩,
    lastConfirmCode := 0x07 }

/-- A fresh session whose transport holds fourteen acknowledgements 0x00. -/
def sixSamples : R503_Fingerprint := withRx freshSession (okAcks 14)

/-- The session after `enrollFingerprint` ran on `sixSamples` with a sample count of 1:
fourteen commands written, five pauses of one second. -/
def afterSixSamples : R503_Fingerprint :=
  { freshSession with
    serial := ⟨[], [], specCommands 0xFFFFFFFF
      [[0x01], [0x02, 0x01], [0x01], [0x02, 0x02], [0x05], [0x01], [0x02, 0x02],
       [0x01], [0x02, 0x02], [0x01], [0x02, 0x02], [0x01], [0x02, 0x02],
       [0x06, 0x01, 0x00, 0x05]], 5000⟩,
    lastConfirmCode := 0x00 }

/-- A fresh session whose transport holds six acknowledgements 0x00. -/
def twoSamples : R503_Fingerprint := withRx freshSession (okAcks 6)

/-- The session after `enrollFingerprint` ran on `twoSamples` with a sample count of 2: six
commands written, one pause of one second. -/
def afterTwoSamples : R503_Fingerprint :=
  { freshSession with
    serial := ⟨[], [], specCommands 0xFFFFFFFF
      [[0x01], [0x02, 0x01], [0x01], [0x02, 0x02], [0x05], [0x06, 0x01, 0x00, 0x05]], 1000⟩,
    lastConfirmCode := 0x00 }

/-! ## Verification and initialization: specification side and concrete inputs -/

/-- The library size as the specification decodes it: big-endian from bytes 5..6 of the
ReadSysPara acknowledgement payload. -/
def specLibrarySize (payload : List Nat) : Nat := payload.getD 5 0 * 256 + payload.getD 6 0

/-- The Search command payload of the specification for a library of `L` templates. -/
def specSearchPayload (L : Nat) : List Nat := [0x04, 0x01, 0x00, 0x00, L >>> 8, L &&& 0xFF]

/-- The matched identifier as the specification decodes it: big-endian from bytes 1..2 of
the Search acknowledgement payload. -/
def specFingerID (payload : List Nat) : Nat := payload.getD 1 0 * 256 + payload.getD 2 0

/-- The confidence as the specification decodes it: big-endian from bytes 3..4 of the Search
acknowledgement payload. -/
def specConfidence (payload : List Nat) : Nat := payload.getD 3 0 * 256 + payload.getD 4 0

/-- The state in which a command function waits for its acknowledgement: `self` after the
command packet with the given payload was written. -/
def commandSent (self : R503_Fingerprint) (packet : List Nat) : R503_Fingerprint :=
  (sendPacket self R503_COMMAND_PACKET packet packet.length).2

/-- An acknowledgement that carries confirmation code 0x00: accepted, with a payload whose
first byte is 0x00. -/
def AcknowledgedOk (a : Received) : Prop :=
  a.ok = true ∧ 0 < a.length ∧ a.buffer.getD 0 0 = 0x00

instance (a : Received) : Decidable (AcknowledgedOk a) := by
  unfold AcknowledgedOk; infer_instance

/-- A ReadSysPara acknowledgement payload: confirmation code 0x00 and the 16 parameter
bytes, with a library size of 200. -/
def parametersPayload : List Nat :=
  [0x00, 0x00, 0x00, 0x00, 0x00, 0x00, 0xC8, 0x00, 0x03, 0xFF, 0xFF, 0xFF, 0xFF, 0x00, 0x02,
    0x00, 0x06]

/-- A Search acknowledgement payload: confirmation code 0x00, identifier 5, score 100. -/
def foundPayload : List Nat := [0x00, 0x00, 0x05, 0x00, 0x64]

/-- A fresh session whose transport holds the acknowledgements of a verification: 0x00 for
the capture, 0x00 for the extraction, `parameters` as the ReadSysPara acknowledgement
payload, and then the bytes `last`. -/
def verifyInput (parameters last : List Nat) : R503_Fingerprint :=
  withRx freshSession (okAck ++ okAck ++ specFrame 0xFFFFFFFF 0x07 parameters ++ last)

/-- What `receiveAck` returns during a verification on a fresh session: accepted, with the
given payload, the bytes `rest` still unread, the commands `cmds` written so far and the
given last confirmation code. -/
def verifyStep (payload rest : List Nat) (cmds : List (List Nat)) (code : Nat) : Received :=
  ⟨true, payload, payload.length,
    { freshSession with
      serial := ⟨rest, [], specCommands 0xFFFFFFFF cmds, 0⟩, lastConfirmCode := code }⟩

/-- A transport on which the wake byte arrives at time `tw` and the twelve bytes of the
acknowledgement `okAck` arrive together at time `t`. -/
def handshakeTransport (tw t : Nat) : HardwareSerial :=
  ⟨[], (tw, 0x55) :: okAck.map (fun b => (t, b)), [], 0⟩

/-- A transport that already holds the wake byte and the acknowledgement `okAck` when `begin`
is called. -/
def bufferedTransport : HardwareSerial := ⟨0x55 :: okAck, [], [], 0⟩

/-- The session after a successful or failed `begin` with the default password and address:
the handshake command written, nothing left to read. -/
def afterBegin (clock code : Nat) : R503_Fingerprint :=
  { serial := ⟨[], [], handshakeFrame, clock⟩, password := R503_DEFAULT_PASSWORD,
    address := R503_DEFAULT_ADDRESS, timeout := R503_DEFAULT_TIMEOUT, lastConfirmCode := code }


/-- The session of `begin` on `handshakeTransport` once the wake byte was read: nothing
received, the acknowledgement still in flight, time 200. -/
def wakeState (t : Nat) : R503_Fingerprint :=
  { serial := ⟨[], okAck.map (fun b => (t, b)), [], 200⟩, password := R503_DEFAULT_PASSWORD,
    address := R503_DEFAULT_ADDRESS, timeout := R503_DEFAULT_TIMEOUT, lastConfirmCode := 0xFF }

/-! ## Timeouts, capacity and credentials: auxiliary states and inputs -/

/-- The transport `ser` after `d` polls of one millisecond during which nothing arrived. -/
def afterPolls (ser : HardwareSerial) (d : Nat) : HardwareSerial :=
  { ser with clock := ser.clock + d }

/-- The session after a wait of `receivePacket` that ran into the timeout: the clock stands
`timeout + 1` ms after the start of the wait, nothing else has changed. -/
def timedOut (self : R503_Fingerprint) : R503_Fingerprint :=
  { self with serial := afterPolls self.serial (self.timeout + 1) }

/-- A fresh session whose transport holds the acknowledgement `okAck`. -/
def ackedSession : R503_Fingerprint := withRx freshSession okAck

/-- The session `ackedSession` after a command with the given payload was written and
acknowledged with 0x00. -/
def afterAck (packet : List Nat) : R503_Fingerprint :=
  { freshSession with
    serial := ⟨[], [], specFrame 0xFFFFFFFF 0x01 packet, 0⟩, lastConfirmCode := 0x00 }

/-- An acknowledgement frame with a correct checksum whose payload has 17 bytes: the
confirmation code 0x00 followed by sixteen bytes 0xAA. -/
def longAck : List Nat := specFrame 0xFFFFFFFF 0x07 (0x00 :: List.replicate 16 0xAA)

/-! ## Permuted payloads: the same transport with other bytes -/

/-- The transport `ser` carrying the byte stream `bytes` instead of its own: the same number
of bytes received, the same arrival times for the bytes in flight, the same bytes written and
the same clock. -/
def HardwareSerial.relabel (ser : HardwareSerial) (bytes : List Nat) : HardwareSerial :=
  { ser with
    rx := bytes.take ser.rx.length
    incoming := List.zipWith (fun p b => (p.1, b)) ser.incoming (bytes.drop ser.rx.length) }

/-- The byte stream `stream` with the payload of its first frame replaced by `Q`: the nine
header bytes, then `Q`, then what followed the first `Q.length` payload bytes (the checksum
bytes and the rest of the stream). -/
def specPermutedStream (stream Q : List Nat) : List Nat :=
  stream.take 9 ++ Q ++ stream.drop (9 + Q.length)

/-- A fresh session on a transport that has received the first five bytes of an
acknowledgement frame with payload `[1, 2, 3]`; the other nine bytes of the frame and one
more byte `AA` arrive three milliseconds later. -/
def arrivingFrame : R503_Fingerprint :=
  { freshSession with serial :=
      ⟨[0xEF, 0x01, 0xFF, 0xFF, 0xFF], [(3, 0xFF), (3, 0x07), (3, 0x00), (3, 0x05), (3, 0x01),
        (3, 0x02), (3, 0x03), (3, 0x00), (3, 0x12), (3, 0xAA)], [], 0⟩ }

/-- What `receivePacket` returns on `arrivingFrame`. -/
def arrivedFrame : Received :=
  ⟨true, [1, 2, 3], 3, { freshSession with serial := ⟨[0xAA], [], [], 3⟩ }⟩

/-! ## Enrollment and initialization: the shape of a run, arrival times, further inputs -/

/-- The log of the captures of one sample: `k` captures that returned `false`, then the one
that returned `true`. -/
def specCaptures (k : Nat) : List Exchange :=
  List.replicate k ([R503_GENIMG], false) ++ [([R503_GENIMG], true)]

/-- The log of sample number `j` (counted from 1) of a successful enrollment, with `k` failed
captures: the captures, the extraction (into buffer 1 for the first sample, into buffer 2 for
every later one) and, for the second sample only, the fusion. -/
def specSample (j k : Nat) : List Exchange :=
  specCaptures k ++
    [([R503_IMG2TZ, if j = 1 then R503_CHARBUFFER1 else R503_CHARBUFFER2], true)] ++
    (if j = 2 then [([R503_REGMODEL], true)] else [])

/-- The log of the samples numbered `j`, `j + 1`, ... with the given numbers of failed
captures. -/
def specSamples : Nat → List Nat → List Exchange
  | _, [] => []
  | j, k :: ks => specSample j k ++ specSamples (j + 1) ks

/-- The log of a successful enrollment into page `pageID`: the samples, numbered from 1, and
the store. -/
def specEnrollLog (pageID : Nat) (ks : List Nat) : List Exchange :=
  specSamples 1 ks ++
    [([R503_STORE, R503_CHARBUFFER1, (pageID >>> 8) &&& 0xFF, pageID &&& 0xFF], true)]

/-- A fresh session whose transport holds eight acknowledgements 0x00. -/
def threeSamples : R503_Fingerprint := withRx freshSession (okAcks 8)

/-- The session after `enrollFingerprint` ran on `threeSamples` with a sample count of 3:
eight commands written, two pauses of one second. -/
def afterThreeSamples : R503_Fingerprint :=
  { freshSession with
    serial := ⟨[], [], specCommands 0xFFFFFFFF
      [[0x01], [0x02, 0x01], [0x01], [0x02, 0x02], [0x05], [0x01], [0x02, 0x02],
       [0x06, 0x01, 0x00, 0x05]], 2000⟩,
    lastConfirmCode := 0x00 }


/-- A fresh session whose transport holds an acknowledgement 0x03 (imaging failure) for the
first capture, an acknowledgement 0x00 for the second capture and an acknowledgement 0x07
for the extraction. -/
def retriedCapture : R503_Fingerprint :=
  withRx freshSession (specFrame 0xFFFFFFFF 0x07 [0x03] ++ okAck ++ specFrame 0xFFFFFFFF 0x07 [0x07])

/-- The session after the capture loop ran on `retriedCapture`: two GenImg commands written,
one pause of 100 ms, the acknowledgement of the extraction still unread. -/
def afterRetry : R503_Fingerprint :=
  { freshSession with
    serial := ⟨specFrame 0xFFFFFFFF 0x07 [0x07], [], specCommands 0xFFFFFFFF [[0x01], [0x01]], 100⟩,
    lastConfirmCode := 0x00 }

/-- The session after `enrollFingerprint` ran on `retriedCapture`: three commands written, one
pause of 100 ms, last confirmation code 0x07. -/
def afterRetriedCapture : R503_Fingerprint :=
  { freshSession with
    serial := ⟨[], [], specCommands 0xFFFFFFFF [[0x01], [0x01], [0x02, 0x01]], 100⟩,
    lastConfirmCode := 0x07 }

/-- The time by which the first `n` bytes in flight have all arrived. -/
def specArrival (incoming : List (Nat × Nat)) (n : Nat) : Nat :=
  ((incoming.take n).map Prod.fst).foldr max 0


/-- A transport on which only the twelve bytes of the acknowledgement `okAck` arrive,
together at time `t`; no wake byte. -/
def silentWakeTransport (t : Nat) : HardwareSerial := ⟨[], okAck.map (fun b => (t, b)), [], 0⟩

/-- A transport on which the wake byte arrives at time 100, the nine header bytes of the
acknowledgement `okAck` at time 2000 and its last three bytes at time 4000. -/
def slowAckTransport : HardwareSerial :=
  ⟨[], (100, 0x55) :: ((okAck.take 9).map (fun b => (2000, b)) ++
    (okAck.drop 9).map (fun b => (4000, b))), [], 0⟩

/-- The transport state in which `begin` leaves its wake-byte loop when nothing was read but
possibly the wake byte: at time `clock`, with the given bytes still in flight. -/
def wakeLoopLeft (clock : Nat) (incoming : List (Nat × Nat)) : HardwareSerial :=
  ⟨[], incoming, [], clock⟩

/-- Number of captures in a run log that returned `false`. -/
def failedCaptures (log : List Exchange) : Nat := log.count ([R503_GENIMG], false)

/-! ## Arithmetic of the shifts and masks -/

theorem and_0xFF (v : Nat) : v &&& 0xFF = v % 256 :=
  Nat.and_pow_two_sub_one_eq_mod v 8

theorem shr_8 (v : Nat) : v >>> 8 = v / 256 := Nat.shiftRight_eq_div_pow v 8

theorem or_eq_add (k q y : Nat) (hy : y < 2 ^ k) : (2 ^ k * q) ||| y = 2 ^ k * q + y :=
  (Nat.mul_add_lt_is_or hy q).symm

theorem shr_16 (v : Nat) : v >>> 16 = v / 65536 := Nat.shiftRight_eq_div_pow v 16

theorem shr_24 (v : Nat) : v >>> 24 = v / 16777216 := Nat.shiftRight_eq_div_pow v 24

/-! ## Writing to the transport -/

theorem writeU16_eq (ser : HardwareSerial) (v : Nat) :
    writeU16 ser v = { ser with tx := ser.tx ++ specBigEndian16 v } := by
  simp only [writeU16, HardwareSerial.write, specBigEndian16, shr_8, and_0xFF,
    List.append_assoc, List.singleton_append]

theorem writeU32_eq (ser : HardwareSerial) (v : Nat) :
    writeU32 ser v = { ser with tx := ser.tx ++ specBigEndian32 v } := by
  simp only [writeU32, HardwareSerial.write, specBigEndian32, shr_8, shr_16, shr_24, and_0xFF,
    List.append_assoc, List.singleton_append, List.cons_append, List.nil_append]

/-- The payload loop of `sendPacket` writes the `n` bytes of `data` from index `i` on and adds them to the checksum modulo 65536. -/
theorem sendPayload_eq (data : List Nat) :
    ∀ (n i : Nat) (ser : HardwareSerial) (c : Nat), i + n ≤ data.length → c < 65536 →
      sendPayload data n i ser c =
        ({ ser with tx := ser.tx ++ (data.drop i).take n },
          (c + ((data.drop i).take n).sum) % 65536) := by
  intro n
  induction n with
  | zero =>
    intro i ser c _ hc
    simp [sendPayload, Nat.mod_eq_of_lt hc]
  | succ n ih =>
    intro i ser c hi _
    have hlt : i < data.length := by omega
    rw [sendPayload, ih (i + 1) _ _ (by omega) (Nat.mod_lt _ (by norm_num))]
    have hd : data.drop i = data.getD i 0 :: data.drop (i + 1) := by
      rw [List.getD_eq_getElem _ _ hlt]
      exact List.drop_eq_getElem_cons hlt
    rw [hd, List.take_succ_cons, List.sum_cons]
    simp only [HardwareSerial.write, List.append_assoc, List.singleton_append, Nat.add_assoc,
      Nat.mod_add_mod, Nat.add_mod_mod]

/-- What `sendPacket` does when `dataLen` is the length of `data`: it appends one frame of the wire format to the bytes written. -/
theorem sendPacket_eq (self : R503_Fingerprint) (packetType : Nat) (data : List Nat) :
    sendPacket self packetType data data.length =
      (true, { self with serial :=
        { self.serial with tx := self.serial.tx ++ specFrame self.address packetType data } }) := by
  have hp := sendPayload_eq data data.length 0
  simp only [Nat.zero_add, le_refl, List.drop_zero, List.take_length, forall_const] at hp
  simp only [sendPacket, writePacketHeader, writeU16_eq, writeU32_eq, HardwareSerial.write,
    shr_8, and_0xFF, Bool.true_eq_false, if_false]
  rw [hp _ _ (Nat.mod_lt _ (by norm_num))]
  simp only [specFrame, specChecksum, specBigEndian16, specBigEndian32, R503_STARTCODE]
  have e1 : (data.length + 2) % 65536 / 256 % 256 = (data.length + 2) / 256 % 256 := by omega
  have e2 : (data.length + 2) % 65536 % 256 = (data.length + 2) % 256 := by omega
  simp [e1, e2, Nat.add_assoc]

/-! ## Reading from the transport -/

theorem read_cons (ser : HardwareSerial) (b : Nat) (rest : List Nat) (h : ser.rx = b :: rest) :
    ser.read = (b, { ser with rx := rest }) := by
  simp [HardwareSerial.read, h]

theorem readU16_cons (ser : HardwareSerial) (a b : Nat) (rest : List Nat)
    (h : ser.rx = a :: b :: rest) (ha : a < 256) (hb : b < 256) :
    readU16 ser = (a * 256 + b, { ser with rx := rest }) := by
  have e : ((a <<< 8) % 65536 ||| b) % 65536 = a * 256 + b := by
    have h1 : (a <<< 8) % 65536 = 2 ^ 8 * a := by
      rw [Nat.shiftLeft_eq]; omega
    rw [h1, or_eq_add 8 a b (by omega)]
    omega
  simp only [readU16, read_cons ser a (b :: rest) h,
    read_cons { ser with rx := b :: rest } b rest rfl, e]

theorem readU32_cons (ser : HardwareSerial) (a b c d : Nat) (rest : List Nat)
    (h : ser.rx = a :: b :: c :: d :: rest) (ha : a < 256) (hb : b < 256) (hc : c < 256)
    (hd : d < 256) :
    readU32 ser = (a * 16777216 + b * 65536 + c * 256 + d, { ser with rx := rest }) := by
  have e : (((((a <<< 24) % 2 ^ 32 ||| (b <<< 16) % 2 ^ 32) % 2 ^ 32 |||
      (c <<< 8) % 2 ^ 32) % 2 ^ 32) ||| d) % 2 ^ 32 = a * 16777216 + b * 65536 + c * 256 + d := by
    have h1 : (a <<< 24) % 2 ^ 32 = 2 ^ 24 * a := by
      rw [Nat.shiftLeft_eq]; omega
    have h2 : (b <<< 16) % 2 ^ 32 = b * 65536 := by
      rw [Nat.shiftLeft_eq]; omega
    have h3 : (c <<< 8) % 2 ^ 32 = c * 256 := by
      rw [Nat.shiftLeft_eq]; omega
    rw [h1, h2, h3, or_eq_add 24 a (b * 65536) (by omega)]
    have h4 : (2 ^ 24 * a + b * 65536) % 2 ^ 32 = 2 ^ 16 * (a * 256 + b) := by omega
    rw [h4, or_eq_add 16 (a * 256 + b) (c * 256) (by omega)]
    have h5 : (2 ^ 16 * (a * 256 + b) + c * 256) % 2 ^ 32 = 2 ^ 8 * (a * 65536 + b * 256 + c) := by
      omega
    rw [h5, or_eq_add 8 (a * 65536 + b * 256 + c) d (by omega)]
    omega
  simp only [readU32, read_cons ser a (b :: c :: d :: rest) h,
    read_cons { ser with rx := b :: c :: d :: rest } b (c :: d :: rest) rfl,
    read_cons { ser with rx := c :: d :: rest } c (d :: rest) rfl,
    read_cons { ser with rx := d :: rest } d rest rfl, e]

/-- A polling loop whose condition is already false leaves at once, whatever the clock says. -/
theorem waitAvailable_ready (fuel : Nat) (ser : HardwareSerial) (startTime need limit : Nat)
    (h : need ≤ ser.rx.length) :
    waitAvailable (fuel + 1) ser startTime need limit = some (true, ser) := by
  simp [waitAvailable, HardwareSerial.available, Nat.not_lt.mpr h]

/-- The payload loop of `receivePacket` moves the next bytes of the receive buffer into the caller buffer and adds them to the checksum modulo 65536. -/
theorem readPayload_eq :
    ∀ (payload : List Nat) (ser : HardwareSerial) (rest : List Nat) (c : Nat) (buffer : List Nat),
      ser.rx = payload ++ rest → c < 65536 →
      readPayload payload.length ser c buffer =
        (buffer ++ payload, (c + payload.sum) % 65536, { ser with rx := rest }) := by
  intro payload
  induction payload with
  | nil =>
    intro ser rest c buffer h hc
    simp only [List.nil_append] at h
    simp [readPayload, Nat.mod_eq_of_lt hc, ← h]
  | cons b payload ih =>
    intro ser rest c buffer h _
    rw [List.length_cons, readPayload, read_cons ser b (payload ++ rest) h]
    simp only
    rw [ih { ser with rx := payload ++ rest } rest _ _ rfl (Nat.mod_lt _ (by norm_num))]
    simp [Nat.add_assoc]

/-- The header part of `receivePacket`, when nine bytes are already there: the four tests in the order of the source, then the payload part. -/
theorem receivePacket_header (fuel : Nat) (self : R503_Fingerprint) (expectedType : Nat)
    (h0 h1 a0 a1 a2 a3 pid l0 l1 : Nat) (tail : List Nat)
    (hrx : self.serial.rx = h0 :: h1 :: a0 :: a1 :: a2 :: a3 :: pid :: l0 :: l1 :: tail)
    (hb : ∀ b ∈ [h0, h1, a0, a1, a2, a3, pid, l0, l1], b < 256) :
    receivePacket (fuel + 1) self expectedType =
      if h0 * 256 + h1 ≠ 0xEF01 then
        some ⟨false, [], 0, { self with serial :=
          { self.serial with rx := a0 :: a1 :: a2 :: a3 :: pid :: l0 :: l1 :: tail } }⟩
      else if a0 * 16777216 + a1 * 65536 + a2 * 256 + a3 ≠ self.address then
        some ⟨false, [], 0, { self with serial := { self.serial with rx := pid :: l0 :: l1 :: tail } }⟩
      else if pid ≠ expectedType then
        some ⟨false, [], 0, { self with serial := { self.serial with rx := l0 :: l1 :: tail } }⟩
      else if l0 * 256 + l1 < 2 then
        some ⟨false, [], 0, { self with serial := { self.serial with rx := tail } }⟩
      else receivePacketBody (fuel + 1) self { self.serial with rx := tail } pid (l0 * 256 + l1) := by
  have w : waitAvailable (fuel + 1) self.serial self.serial.millis 9 self.timeout
      = some (true, self.serial) :=
    waitAvailable_ready fuel self.serial _ 9 _ (by rw [hrx]; simp)
  have e1 := readU16_cons self.serial h0 h1 _ hrx (hb _ (by simp)) (hb _ (by simp))
  have e2 := readU32_cons { self.serial with rx := a0 :: a1 :: a2 :: a3 :: pid :: l0 :: l1 :: tail }
    a0 a1 a2 a3 _ rfl (hb _ (by simp)) (hb _ (by simp)) (hb _ (by simp)) (hb _ (by simp))
  have e3 := read_cons { self.serial with rx := pid :: l0 :: l1 :: tail } pid _ rfl
  have e4 := readU16_cons { self.serial with rx := l0 :: l1 :: tail } l0 l1 _ rfl
    (hb _ (by simp)) (hb _ (by simp))
  unfold receivePacket
  simp only [w, e1, e2, e3, e4, R503_STARTCODE]
  by_cases c1 : h0 * 256 + h1 = 0xEF01
  · by_cases c2 : a0 * 16777216 + a1 * 65536 + a2 * 256 + a3 = self.address
    · by_cases c3 : pid = expectedType
      · by_cases c4 : l0 * 256 + l1 < 2
        · simp [c1, c2, c3, c4]
        · have c5 : l0 * 256 + l1 - 2 + 2 = l0 * 256 + l1 := by omega
          subst c3
          simp only [c1, c2, c4, receivePacketBody, c5, ne_eq, not_true_eq_false, if_false]
      · simp [c1, c2, c3]
    · simp [c1, c2]
  · simp [c1]

/-- The payload part of `receivePacket`, when payload and checksum are already there: the verdict is the comparison of the two checksums. -/
theorem receivePacketBody_frame (fuel : Nat) (self : R503_Fingerprint) (ser : HardwareSerial)
    (pid len : Nat) (payload : List Nat) (c0 c1 : Nat) (rest : List Nat)
    (hrx : ser.rx = payload ++ c0 :: c1 :: rest) (hlen : payload.length + 2 = len)
    (hc0 : c0 < 256) (hc1 : c1 < 256) :
    receivePacketBody (fuel + 1) self ser pid len =
      some ⟨decide (c0 * 256 + c1 = (pid + len / 256 % 256 + len % 256 + payload.sum) % 65536),
        payload, payload.length, { self with serial := { ser with rx := rest } }⟩ := by
  subst hlen
  have w : waitAvailable (fuel + 1) ser ser.millis (payload.length + 2) self.timeout
      = some (true, ser) :=
    waitAvailable_ready fuel ser _ _ _ (by rw [hrx]; simp)
  have hp := readPayload_eq payload ser (c0 :: c1 :: rest)
    ((pid + (payload.length + 2) / 256 % 256 + (payload.length + 2) % 256) % 65536) [] hrx
    (Nat.mod_lt _ (by norm_num))
  have hc := readU16_cons { ser with rx := c0 :: c1 :: rest } c0 c1 rest rfl hc0 hc1
  unfold receivePacketBody
  simp only [Nat.add_sub_cancel, w, shr_8, and_0xFF, hp, hc, List.nil_append, Nat.mod_add_mod]


/-! ## Frames: what is sent is what is received -/

theorem specFrame_eq (address packetType : Nat) (payload : List Nat) :
    specFrame address packetType payload =
      0xEF :: 0x01 :: (address / 16777216) % 256 :: (address / 65536) % 256 ::
        (address / 256) % 256 :: address % 256 :: packetType ::
        ((payload.length + 2) / 256) % 256 :: (payload.length + 2) % 256 ::
        (payload ++ [(specChecksum packetType payload / 256) % 256,
          specChecksum packetType payload % 256]) := by
  simp [specFrame, specBigEndian16, specBigEndian32]

theorem sent_bytes (s : R503_Fingerprint) (T : Nat) (P w : List Nat)
    (hw : (sendPacket s T P P.length).2.serial.tx = s.serial.tx ++ w) :
    w = specFrame s.address T P := by
  rw [sendPacket_eq] at hw
  exact (List.append_cancel_left hw).symm

/-- C2 (wire format). For every session, packet type and payload, `sendPacket` returns
`true` and changes nothing but the bytes written to the transport, to which it appends
exactly `[0xEF, 0x01] ++ bigEndian32(address) ++ [type] ++ bigEndian16(|P| + 2) ++ P ++
bigEndian16(c)`, where `c` is the sum of the type, the two length bytes and the payload
bytes modulo 65536. -/
theorem C2_wire_format (self : R503_Fingerprint) (packetType : Nat) (payload : List Nat) :
    sendPacket self packetType payload payload.length =
      (true, { self with serial := { self.serial with
        tx := self.serial.tx ++ specFrame self.address packetType payload } }) :=
  sendPacket_eq self packetType payload

/-- Reception of a frame laid out as in the wire format, for any two trailing checksum bytes. -/
theorem receivePacket_specFrame (fuel : Nat) (r : R503_Fingerprint) (T expectedType : Nat)
    (P : List Nat) (c0 c1 : Nat) (rest : List Nat) (hT : T < 256) (hA : r.address < 2 ^ 32)
    (hlen : P.length ≤ 65533) (hc0 : c0 < 256) (hc1 : c1 < 256)
    (hrx : r.serial.rx = 0xEF :: 0x01 :: (r.address / 16777216) % 256 :: (r.address / 65536) % 256 ::
        (r.address / 256) % 256 :: r.address % 256 :: T ::
        ((P.length + 2) / 256) % 256 :: (P.length + 2) % 256 :: (P ++ c0 :: c1 :: rest)) :
    receivePacket (fuel + 1) r expectedType =
      if T ≠ expectedType then
        some ⟨false, [], 0, withRx r (((P.length + 2) / 256) % 256 :: (P.length + 2) % 256 ::
          (P ++ c0 :: c1 :: rest))⟩
      else some ⟨decide (c0 * 256 + c1 = specChecksum T P), P, P.length, withRx r rest⟩ := by
  have hb : ∀ b ∈ [0xEF, 0x01, (r.address / 16777216) % 256, (r.address / 65536) % 256,
      (r.address / 256) % 256, r.address % 256, T, ((P.length + 2) / 256) % 256,
      (P.length + 2) % 256], b < 256 := by
    intro b hb
    simp only [List.mem_cons, List.mem_singleton, List.not_mem_nil, or_false] at hb
    omega
  rw [receivePacket_header fuel r expectedType _ _ _ _ _ _ _ _ _ _ hrx hb]
  have hl : (P.length + 2) / 256 % 256 * 256 + (P.length + 2) % 256 = P.length + 2 := by omega
  have ha : r.address / 16777216 % 256 * 16777216 + r.address / 65536 % 256 * 65536
      + r.address / 256 % 256 * 256 + r.address % 256 = r.address := by omega
  rw [receivePacketBody_frame fuel r _ T _ P c0 c1 rest rfl hl.symm hc0 hc1, hl, ha]
  by_cases hTe : T = expectedType
  · simp [hTe, specChecksum, withRx]
  · simp [hTe, withRx]


/-- C1 (frame round trip, for payloads of at most 65533 bytes). If `w` is what
`sendPacket(T, P)` wrote, and a session with the same address holds exactly `w` as received
bytes, then `receivePacket` with `expectedType = T` returns `true`, reports `length = |P|`,
stores exactly `P` in the buffer and leaves no byte unread. -/
theorem C1_round_trip (fuel : Nat) (s r : R503_Fingerprint) (T : Nat) (P w : List Nat)
    (hT : T < 256) (hA : s.address < 2 ^ 32) (hlen : P.length ≤ 65533)
    (hw : (sendPacket s T P P.length).2.serial.tx = s.serial.tx ++ w)
    (hr : r.serial.rx = w) (hra : r.address = s.address) :
    receivePacket (fuel + 1) r T = some ⟨true, P, P.length, withRx r []⟩ := by
  have hw2 := sent_bytes s T P w hw
  rw [hw2, specFrame_eq, ← hra] at hr
  rw [receivePacket_specFrame fuel r T T P _ _ [] hT (hra ▸ hA) hlen
    (Nat.mod_lt _ (by norm_num)) (Nat.mod_lt _ (by norm_num)) hr]
  have hc : specChecksum T P < 65536 := Nat.mod_lt _ (by norm_num)
  have e : specChecksum T P / 256 % 256 * 256 + specChecksum T P % 256 = specChecksum T P := by
    omega
  simp [e]

/-- Witness for C1: the handshake command frame `EF 01 FF FF FF FF 01 00 03 40 00 44`
is received back as payload `[0x40]`. -/
theorem C1_round_trip_witness :
    receivePacket 1 (withRx freshSession [0xEF, 0x01, 0xFF, 0xFF, 0xFF, 0xFF, 0x01, 0x00, 0x03,
      0x40, 0x00, 0x44]) 0x01
      = some ⟨true, [0x40], 1, withRx (withRx freshSession [0xEF, 0x01, 0xFF, 0xFF, 0xFF, 0xFF,
          0x01, 0x00, 0x03, 0x40, 0x00, 0x44]) []⟩ :=
  C1_round_trip 0 freshSession (withRx freshSession [0xEF, 0x01, 0xFF, 0xFF, 0xFF, 0xFF, 0x01,
      0x00, 0x03, 0x40, 0x00, 0x44]) 0x01 [0x40]
    [0xEF, 0x01, 0xFF, 0xFF, 0xFF, 0xFF, 0x01, 0x00, 0x03, 0x40, 0x00, 0x44]
    (by decide) (by decide) (by decide) (by decide) rfl rfl

/-- For a payload of 65534 bytes the length field wraps to 0 and the frame is rejected by the receiver. -/
theorem overlong_payload (s : R503_Fingerprint) (T : Nat) (P : List Nat) (hT : T < 256)
    (hl : P.length = 65534) :
    (sendPacket s T P 65534).2.serial.tx = s.serial.tx ++ specFrame s.address T P ∧
      (receivePacket 1 (withRx s (specFrame s.address T P)) T).map Received.ok = some false := by
  constructor
  · have h := sendPacket_eq s T P
    rw [hl] at h
    rw [h]
  · have hb : ∀ b ∈ [0xEF, 0x01, (s.address / 16777216) % 256, (s.address / 65536) % 256,
        (s.address / 256) % 256, s.address % 256, T, ((P.length + 2) / 256) % 256,
        (P.length + 2) % 256], b < 256 := by
      intro b hb
      simp only [List.mem_cons, List.mem_singleton, List.not_mem_nil, or_false] at hb
      omega
    rw [specFrame_eq, receivePacket_header 0 _ T _ _ _ _ _ _ _ _ _ _ rfl hb, hl]
    simp only [withRx, ne_eq, Nat.reduceAdd, Nat.reduceDiv, Nat.reduceMod, Nat.zero_mul,
      Nat.add_zero, Nat.lt_add_one, Nat.zero_lt_succ, if_true, not_true_eq_false, if_false]
    split_ifs <;> rfl

/-- Counterexample to C1 as stated: for a payload of 65534 bytes (a length the 16-bit
`dataLen` argument can hold) `sendPacket` writes a frame whose length field is 0, and
`receivePacket` fed with that frame returns `false`. -/
theorem C1_counterexample :
    (sendPacket freshSession R503_COMMAND_PACKET longPayload 65534).2.serial.tx
        = freshSession.serial.tx ++ specFrame freshSession.address R503_COMMAND_PACKET longPayload ∧
      (receivePacket 1
          (withRx freshSession (specFrame freshSession.address R503_COMMAND_PACKET longPayload))
        R503_COMMAND_PACKET).map Received.ok = some false :=
  overlong_payload freshSession R503_COMMAND_PACKET longPayload (by decide)
    (List.length_replicate _ _)


/-- C3 (framing rejection). On a transport that holds at least the nine header bytes,
`receivePacket` returns `false` when the first two bytes are not `EF 01`, or the big-endian
address differs from the session address, or the packet type differs from `expectedType`;
and when the whole frame is there (payload and two checksum bytes, as announced by the
length field) it returns `false` when the trailing checksum differs from the truncated sum
of type, length bytes and payload bytes. -/
theorem C3_framing_rejection (fuel : Nat) (self : R503_Fingerprint) (expectedType : Nat)
    (h0 h1 a0 a1 a2 a3 pid l0 l1 : Nat) (tail : List Nat)
    (hrx : self.serial.rx = h0 :: h1 :: a0 :: a1 :: a2 :: a3 :: pid :: l0 :: l1 :: tail)
    (hb : ∀ b ∈ [h0, h1, a0, a1, a2, a3, pid, l0, l1], b < 256) :
    ((¬ (h0 = 0xEF ∧ h1 = 0x01) ∨ a0 * 16777216 + a1 * 65536 + a2 * 256 + a3 ≠ self.address
        ∨ pid ≠ expectedType) →
      (receivePacket (fuel + 1) self expectedType).map Received.ok = some false) ∧
    (∀ (payload : List Nat) (c0 c1 : Nat) (rest : List Nat),
      tail = payload ++ c0 :: c1 :: rest → payload.length + 2 = l0 * 256 + l1 →
      c0 < 256 → c1 < 256 →
      c0 * 256 + c1 ≠ (pid + l0 + l1 + payload.sum) % 65536 →
      (receivePacket (fuel + 1) self expectedType).map Received.ok = some false) := by
  have hh0 : h0 < 256 := hb _ (by simp)
  have hh1 : h1 < 256 := hb _ (by simp)
  have hl0 : l0 < 256 := hb _ (by simp)
  have hl1 : l1 < 256 := hb _ (by simp)
  rw [receivePacket_header fuel self expectedType _ _ _ _ _ _ _ _ _ _ hrx hb]
  constructor
  · intro hbad
    by_cases c1 : h0 * 256 + h1 = 0xEF01
    · have c1n : h0 = 0xEF ∧ h1 = 0x01 := by omega
      by_cases c2 : a0 * 16777216 + a1 * 65536 + a2 * 256 + a3 = self.address
      · have c3 : pid ≠ expectedType := by
          rcases hbad with h | h | h
          · exact absurd c1n h
          · exact absurd c2 h
          · exact h
        simp [c1, c2, c3]
      · simp [c1, c2]
    · simp [c1]
  · intro payload c0 c1 rest htail hlen hc0 hc1 hsum
    have e1 : (l0 * 256 + l1) / 256 % 256 = l0 := by omega
    have e2 : (l0 * 256 + l1) % 256 = l1 := by omega
    rw [receivePacketBody_frame fuel self _ pid _ payload c0 c1 rest htail hlen hc0 hc1, e1, e2]
    split_ifs <;> simp [hsum]

theorem sum_set (l : List Nat) (i b : Nat) (hi : i < l.length) :
    (l.set i b).sum + l[i] = l.sum + b := by
  induction l generalizing i with
  | nil => simp at hi
  | cons a l ih =>
    cases i with
    | zero => simp; omega
    | succ i =>
      simp only [List.length_cons, Nat.add_lt_add_iff_right] at hi
      have := ih i hi
      simp only [List.set_cons_succ, List.sum_cons, List.getElem_cons_succ]
      omega

/-- C4 (single-byte corruption is detected). If `w` is the frame `sendPacket(T, P)` wrote
and the receiver holds `w` with payload byte `i` replaced by a different byte value `b`, then
`receivePacket` (same address, `expectedType = T`) returns `false` and the address and the
password of the session are what they were. -/
theorem C4_corruption_detected (fuel : Nat) (s r : R503_Fingerprint) (T : Nat) (P w : List Nat)
    (i b : Nat) (hT : T < 256) (hP : ∀ x ∈ P, x < 256) (hA : s.address < 2 ^ 32)
    (hlen : P.length < 65536)
    (hw : (sendPacket s T P P.length).2.serial.tx = s.serial.tx ++ w)
    (hi : i < P.length) (hb : b < 256) (hne : P[i] ≠ b)
    (hr : r.serial.rx = w.set (9 + i) b) (hra : r.address = s.address) :
    ∃ res, receivePacket (fuel + 1) r T = some res ∧ res.ok = false ∧
      res.self.address = r.address ∧ res.self.password = r.password := by
  have hw2 := sent_bytes s T P w hw
  have hset : w.set (9 + i) b =
      0xEF :: 0x01 :: (r.address / 16777216) % 256 :: (r.address / 65536) % 256 ::
        (r.address / 256) % 256 :: r.address % 256 :: T ::
        (((P.set i b).length + 2) / 256) % 256 :: ((P.set i b).length + 2) % 256 ::
        (P.set i b ++ (specChecksum T P / 256) % 256 :: [specChecksum T P % 256]) := by
    rw [hw2, specFrame_eq, hra, Nat.add_comm 9 i]
    simp [List.set_append, hi]
  rw [hset] at hr
  have hpi : P[i] < 256 := hP _ (List.getElem_mem _)
  have hsum := sum_set P i b hi
  have hcs : specChecksum T P < 65536 := Nat.mod_lt _ (by norm_num)
  by_cases hlong : P.length ≤ 65533
  · have e : specChecksum T P / 256 % 256 * 256 + specChecksum T P % 256 = specChecksum T P := by
      omega
    have hd : specChecksum T P ≠ specChecksum T (P.set i b) := by
      simp only [specChecksum, List.length_set]
      omega
    rw [receivePacket_specFrame fuel r T T (P.set i b) _ _ [] hT (hra ▸ hA)
      (by simpa using hlong) (Nat.mod_lt _ (by norm_num)) (Nat.mod_lt _ (by norm_num)) hr, e]
    simp [hd, withRx]
  · have hb9 : ∀ x ∈ [0xEF, 0x01, (r.address / 16777216) % 256, (r.address / 65536) % 256,
        (r.address / 256) % 256, r.address % 256, T, (((P.set i b).length + 2) / 256) % 256,
        ((P.set i b).length + 2) % 256], x < 256 := by
      intro x hx
      simp only [List.mem_cons, List.mem_singleton, List.not_mem_nil, or_false] at hx
      omega
    have hsmall : ((P.set i b).length + 2) / 256 % 256 * 256 + ((P.set i b).length + 2) % 256 < 2 := by
      simp only [List.length_set]
      omega
    rw [receivePacket_header fuel r T _ _ _ _ _ _ _ _ _ _ hr hb9]
    simp only [hsmall, if_true]
    split_ifs <;> exact ⟨_, rfl, rfl, rfl, rfl⟩

/-! ## What a successful reception consumes -/

theorem delay_stream (ser : HardwareSerial) (ms : Nat) : (ser.delay ms).stream = ser.stream := by
  simp only [HardwareSerial.delay, HardwareSerial.stream, List.append_assoc, ← List.map_append,
    List.takeWhile_append_dropWhile]

/-- A polling loop neither drops nor reorders bytes and writes nothing; when it leaves through its condition, the requested number of bytes is readable. -/
theorem waitAvailable_spec :
    ∀ (fuel : Nat) (ser : HardwareSerial) (startTime need limit : Nat) (b : Bool)
      (ser2 : HardwareSerial),
      waitAvailable fuel ser startTime need limit = some (b, ser2) →
      ser2.stream = ser.stream ∧ ser2.tx = ser.tx ∧ (b = true → need ≤ ser2.rx.length) := by
  intro fuel
  induction fuel with
  | zero => intro ser startTime need limit b ser2 h; simp [waitAvailable] at h
  | succ fuel ih =>
    intro ser startTime need limit b ser2 h
    rw [waitAvailable] at h
    split_ifs at h with h1 h2
    · simp only [Option.some.injEq, Prod.mk.injEq] at h
      obtain ⟨hb, hs⟩ := h
      subst hs; subst hb
      simp
    · obtain ⟨e1, e2, e3⟩ := ih _ _ _ _ _ _ h
      exact ⟨by rw [e1, delay_stream], by rw [e2]; rfl, e3⟩
    · simp only [Option.some.injEq, Prod.mk.injEq] at h
      obtain ⟨hb, hs⟩ := h
      subst hs; subst hb
      simp only [HardwareSerial.available, Nat.not_lt] at h1
      exact ⟨rfl, rfl, fun _ => h1⟩

theorem waitAvailable_fuel (fuel : Nat) (ser : HardwareSerial) (startTime need limit : Nat)
    (r : Bool × HardwareSerial) (h : waitAvailable fuel ser startTime need limit = some r) :
    ∃ f, fuel = f + 1 := by
  cases fuel with
  | zero => simp [waitAvailable] at h
  | succ f => exact ⟨f, rfl⟩

theorem receivePacket_after_wait (fuel : Nat) (self : R503_Fingerprint) (expectedType : Nat)
    (ser1 : HardwareSerial)
    (hw : waitAvailable fuel self.serial self.serial.millis 9 self.timeout = some (true, ser1)) :
    receivePacket fuel self expectedType =
      receivePacket fuel { self with serial := ser1 } expectedType := by
  obtain ⟨f, hf⟩ := waitAvailable_fuel _ _ _ _ _ _ hw
  subst hf
  have h9 := (waitAvailable_spec _ _ _ _ _ _ _ hw).2.2 rfl
  have hw2 : waitAvailable (f + 1) ser1 ser1.millis 9 self.timeout = some (true, ser1) :=
    waitAvailable_ready f ser1 _ 9 _ h9
  unfold receivePacket
  simp only [hw, hw2]

theorem receivePacketBody_after_wait (fuel : Nat) (self : R503_Fingerprint)
    (ser ser2 : HardwareSerial) (pid len : Nat)
    (hw : waitAvailable fuel ser ser.millis (len - 2 + 2) self.timeout = some (true, ser2)) :
    receivePacketBody fuel self ser pid len = receivePacketBody fuel self ser2 pid len := by
  obtain ⟨f, hf⟩ := waitAvailable_fuel _ _ _ _ _ _ hw
  subst hf
  have h9 := (waitAvailable_spec _ _ _ _ _ _ _ hw).2.2 rfl
  have hw2 : waitAvailable (f + 1) ser2 ser2.millis (len - 2 + 2) self.timeout
      = some (true, ser2) :=
    waitAvailable_ready f ser2 _ _ _ h9
  unfold receivePacketBody
  simp only [hw, hw2]

theorem exists_nine (l : List Nat) (h : 9 ≤ l.length) :
    ∃ h0 h1 a0 a1 a2 a3 pid l0 l1 tail,
      l = h0 :: h1 :: a0 :: a1 :: a2 :: a3 :: pid :: l0 :: l1 :: tail := by
  match l, h with
  | h0 :: h1 :: a0 :: a1 :: a2 :: a3 :: pid :: l0 :: l1 :: tail, _ =>
    exact ⟨h0, h1, a0, a1, a2, a3, pid, l0, l1, tail, rfl⟩

theorem exists_payload (l : List Nat) (n : Nat) (h : n + 2 ≤ l.length) :
    ∃ c0 c1, l = l.take n ++ c0 :: c1 :: l.drop (n + 2) := by
  have h1 : n < l.length := by omega
  have h2 : n + 1 < l.length := by omega
  refine ⟨l[n], l[n + 1], ?_⟩
  conv_lhs => rw [← List.take_append_drop n l]
  congr 1
  rw [List.drop_eq_getElem_cons h1, List.drop_eq_getElem_cons h2]


/-- What a successful `receivePacket` has consumed and reported, for every transport state. -/
theorem receivePacket_consumes (fuel : Nat) (self : R503_Fingerprint) (expectedType : Nat)
    (res : Received) (hbytes : ∀ b ∈ self.serial.stream, b < 256)
    (h : receivePacket fuel self expectedType = some res) (hok : res.ok = true) :
    2 ≤ specDeclaredLength self.serial.stream ∧
    9 + specDeclaredLength self.serial.stream ≤ self.serial.stream.length ∧
    res.self.serial.stream
      = self.serial.stream.drop (9 + specDeclaredLength self.serial.stream) ∧
    res.length = specDeclaredLength self.serial.stream - 2 ∧
    res.buffer
      = (self.serial.stream.drop 9).take (specDeclaredLength self.serial.stream - 2) := by
  -- the first wait must have succeeded
  cases hw : waitAvailable fuel self.serial self.serial.millis 9 self.timeout with
  | none => simp [receivePacket, hw] at h
  | some p =>
    obtain ⟨b, ser1⟩ := p
    cases b with
    | false =>
      simp only [receivePacket, hw, Option.some.injEq] at h
      subst h
      simp at hok
    | true =>
      obtain ⟨f, hf⟩ := waitAvailable_fuel _ _ _ _ _ _ hw
      subst hf
      obtain ⟨hs1, -, h9⟩ := waitAvailable_spec _ _ _ _ _ _ _ hw
      obtain ⟨h0, h1, a0, a1, a2, a3, pid, l0, l1, tail, hrx⟩ := exists_nine ser1.rx (h9 rfl)
      have hstream : self.serial.stream = h0 :: h1 :: a0 :: a1 :: a2 :: a3 :: pid :: l0 :: l1 ::
          (tail ++ ser1.incoming.map Prod.snd) := by
        rw [← hs1, HardwareSerial.stream, hrx]; rfl
      have hb9 : ∀ x ∈ [h0, h1, a0, a1, a2, a3, pid, l0, l1], x < 256 := by
        intro x hx
        apply hbytes
        rw [hstream]
        simp only [List.mem_cons, List.mem_singleton, List.not_mem_nil, or_false] at hx
        simp only [List.mem_cons, List.mem_append]
        tauto
      have hdl : specDeclaredLength self.serial.stream = l0 * 256 + l1 := by
        rw [hstream]; rfl
      rw [receivePacket_after_wait _ _ _ _ hw,
        receivePacket_header f { self with serial := ser1 } expectedType _ _ _ _ _ _ _ _ _ _
          hrx hb9] at h
      split_ifs at h with c1 c2 c3 c4
      · simp only [Option.some.injEq] at h; subst h; simp at hok
      · simp only [Option.some.injEq] at h; subst h; simp at hok
      · simp only [Option.some.injEq] at h; subst h; simp at hok
      · simp only [Option.some.injEq] at h; subst h; simp at hok
      · -- the second wait must have succeeded as well
        cases hw2 : waitAvailable (f + 1) { ser1 with rx := tail }
            ({ ser1 with rx := tail } : HardwareSerial).millis (l0 * 256 + l1 - 2 + 2)
            self.timeout with
        | none => simp [receivePacketBody, hw2] at h
        | some p2 =>
          obtain ⟨b2, ser2⟩ := p2
          cases b2 with
          | false =>
            simp only [receivePacketBody, hw2, Option.some.injEq] at h
            subst h
            simp at hok
          | true =>
            obtain ⟨hs2, -, hl2⟩ := waitAvailable_spec _ _ _ _ _ _ _ hw2
            have hl3 : l0 * 256 + l1 - 2 + 2 ≤ ser2.rx.length := hl2 rfl
            have hs2b : ser2.stream = tail ++ ser1.incoming.map Prod.snd := by
              rw [hs2]; rfl
            obtain ⟨c0, c1, hsplit⟩ := exists_payload ser2.rx (l0 * 256 + l1 - 2) hl3
            have hmem : ∀ x ∈ ser2.rx, x < 256 := by
              intro x hx
              apply hbytes
              rw [hstream, ← hs2b, HardwareSerial.stream]
              simp only [List.mem_cons, List.mem_append]
              tauto
            have hc0 : c0 < 256 := hmem _ (by rw [hsplit]; simp)
            have hc1 : c1 < 256 := hmem _ (by rw [hsplit]; simp)
            have hplen : (ser2.rx.take (l0 * 256 + l1 - 2)).length + 2 = l0 * 256 + l1 := by
              rw [List.length_take]; omega
            dsimp only at h
            rw [receivePacketBody_after_wait (f + 1) { self with serial := ser1 } _ ser2 pid _ hw2,
              receivePacketBody_frame f _ ser2 pid _ _ c0 c1 _ hsplit hplen hc0 hc1] at h
            simp only [Option.some.injEq] at h
            subst h
            have hlen2 : (l0 * 256 + l1 - 2) + 2 = l0 * 256 + l1 := by omega
            have hdrop : self.serial.stream.drop 9 = ser2.rx ++ ser2.incoming.map Prod.snd := by
              rw [hstream, ← hs2b]; rfl
            refine ⟨by omega, ?_, ?_, ?_, ?_⟩
            · rw [hdl, hstream, ← hs2b]
              simp only [List.length_cons, HardwareSerial.stream, List.length_append]
              omega
            · have hdd : self.serial.stream.drop (9 + (l0 * 256 + l1))
                  = (self.serial.stream.drop 9).drop (l0 * 256 + l1) := by
                simp [List.drop_drop, Nat.add_comm]
              rw [hdl, hdd, hdrop]
              simp only [HardwareSerial.stream, hlen2]
              rw [List.drop_append_of_le_length (by omega)]
            · rw [hdl, List.length_take]; simp only; omega
            · rw [hdl, hdrop, List.take_append_of_le_length (by omega)]

/-- C5 (exact consumption). Whenever `receivePacket` returns `true` on a byte stream whose
header declares the length field `len`, then `len >= 2`, the stream held at least `9 + len`
bytes, exactly the first `9 + len` bytes were removed (what followed is still there, in
order), the reported length is `len - 2`, and the buffer holds the `len - 2` bytes that
followed the nine header bytes. -/
theorem C5_exact_consumption (fuel : Nat) (self : R503_Fingerprint) (expectedType : Nat)
    (res : Received) (hbytes : ∀ b ∈ self.serial.stream, b < 256)
    (h : receivePacket fuel self expectedType = some res) (hok : res.ok = true) :
    2 ≤ specDeclaredLength self.serial.stream ∧
    9 + specDeclaredLength self.serial.stream ≤ self.serial.stream.length ∧
    res.self.serial.stream
      = self.serial.stream.drop (9 + specDeclaredLength self.serial.stream) ∧
    res.length = specDeclaredLength self.serial.stream - 2 ∧
    res.buffer
      = (self.serial.stream.drop 9).take (specDeclaredLength self.serial.stream - 2) :=
  receivePacket_consumes fuel self expectedType res hbytes h hok

/-! ## Acknowledgements and confirmation codes -/

/-- Apart from the transport, `receivePacket` leaves the session as it was. -/
theorem receivePacket_session (fuel : Nat) (self : R503_Fingerprint) (expectedType : Nat)
    (r : Received) (h : receivePacket fuel self expectedType = some r) :
    r.self = { self with serial := r.self.serial } := by
  unfold receivePacket at h
  dsimp only at h
  split at h
  · simp at h
  · simp only [Option.some.injEq] at h; subst h; rfl
  · split_ifs at h
    · simp only [Option.some.injEq] at h; subst h; rfl
    · simp only [Option.some.injEq] at h; subst h; rfl
    · simp only [Option.some.injEq] at h; subst h; rfl
    · simp only [Option.some.injEq] at h; subst h; rfl
    · split at h
      · simp at h
      · simp only [Option.some.injEq] at h; subst h; rfl
      · simp only [Option.some.injEq] at h; subst h; rfl

/-- C6 (evaluation at the failing input). On a session whose `lastConfirmCode` is 0x00 from
an earlier exchange, an acknowledgement frame without payload is accepted by
`receivePacket` with an empty buffer, and `handshake`, `getImage` and `storeModel` return
`true` although this acknowledgement carries no confirmation code. -/
theorem C6_stale_code_reported_as_success :
    (receivePacket 1 staleSession R503_ACK_PACKET).map (fun r => (r.ok, r.buffer)) = some (true, []) ∧
    (handshake 1 staleSession).map Prod.fst = some true ∧
    (getImage 1 staleSession).map Prod.fst = some true ∧
    (storeModel 1 staleSession 1 5).map Prod.fst = some true := by
  decide

theorem getD_take_drop (l : List Nat) (n : Nat) (hn : 0 < n) :
    ((l.drop 9).take n).getD 0 0 = l.getD 9 0 := by
  simp [List.getD_eq_getElem?_getD, List.getElem?_take, hn]

/-- C7 (update rule of `lastConfirmCode`). Let `r` be what the underlying `receivePacket`
returns inside `receiveAck`. Then `receiveAck` returns the same verdict, and afterwards
`lastConfirmCode` is the prior value when `receivePacket` failed, the prior value when the
accepted frame has an empty payload, and the first payload byte (the byte that followed the
nine header bytes on the stream) when the accepted frame has a non-empty payload. -/
theorem C7_lastConfirmCode_update (fuel : Nat) (self : R503_Fingerprint) (r : Received)
    (hbytes : ∀ b ∈ self.serial.stream, b < 256)
    (h : receivePacket fuel self R503_ACK_PACKET = some r) :
    ∃ a, receiveAck fuel self = some a ∧ a.ok = r.ok ∧
      (r.ok = false → a.self.lastConfirmCode = self.lastConfirmCode) ∧
      (r.ok = true → r.length = 0 → a.self.lastConfirmCode = self.lastConfirmCode) ∧
      (r.ok = true → 0 < r.length →
        a.self.lastConfirmCode = r.buffer.getD 0 0 ∧
        a.self.lastConfirmCode = self.serial.stream.getD 9 0) := by
  have hs := receivePacket_session fuel self _ r h
  have hc : r.self.lastConfirmCode = self.lastConfirmCode := by rw [hs]
  have hfirst : r.ok = true → 0 < r.length → r.buffer.getD 0 0 = self.serial.stream.getD 9 0 := by
    intro hok hpos
    obtain ⟨-, -, -, hlen, hbuf⟩ := receivePacket_consumes fuel self _ r hbytes h hok
    rw [hbuf]
    exact getD_take_drop _ _ (by omega)
  obtain ⟨ok, buffer, length, rs⟩ := r
  simp only at hc hfirst
  cases ok with
  | false =>
    have ha : receiveAck fuel self = some ⟨false, buffer, length, rs⟩ := by
      simp only [receiveAck, h, if_true]
    exact ⟨_, ha, rfl, fun _ => hc, by simp, by simp⟩
  | true =>
    by_cases h0 : 0 < length
    · have ha : receiveAck fuel self
          = some ⟨true, buffer, length, { rs with lastConfirmCode := buffer.getD 0 0 }⟩ := by
        simp only [receiveAck, h, Bool.true_eq_false, if_false, gt_iff_lt, h0, if_true]
      refine ⟨_, ha, rfl, by simp, ?_, ?_⟩
      · intro _ hz; simp only at hz; omega
      · intro _ _; exact ⟨rfl, hfirst rfl h0⟩
    · have ha : receiveAck fuel self = some ⟨true, buffer, length, rs⟩ := by
        simp only [receiveAck, h, Bool.true_eq_false, if_false, gt_iff_lt, h0]
      refine ⟨_, ha, rfl, by simp, ?_, ?_⟩
      · intro _ _; exact hc
      · intro _ hz; simp only at hz; omega

/-! ## Outbound chunking -/

/-- What `sendPacket` does with a `dataLen` that does not exceed the buffer: the frame carries the first `dataLen` bytes. -/
theorem sendPacket_take (self : R503_Fingerprint) (packetType : Nat) (data : List Nat)
    (n : Nat) (hn : n ≤ data.length) :
    sendPacket self packetType data n =
      (true, { self with serial :=
        { self.serial with tx := self.serial.tx ++ specFrame self.address packetType (data.take n) } }) := by
  have hp := sendPayload_eq data n 0
  simp only [Nat.zero_add, List.drop_zero] at hp
  simp only [sendPacket, writePacketHeader, writeU16_eq, writeU32_eq, HardwareSerial.write,
    shr_8, and_0xFF, Bool.true_eq_false, if_false]
  rw [hp _ _ hn (Nat.mod_lt _ (by norm_num))]
  simp only [specFrame, specChecksum, specBigEndian16, specBigEndian32, R503_STARTCODE]
  have hl : (data.take n).length = n := by rw [List.length_take]; omega
  have e1 : (n + 2) % 65536 / 256 % 256 = (n + 2) / 256 % 256 := by omega
  have e2 : (n + 2) % 65536 % 256 = (n + 2) % 256 := by omega
  simp [hl, e1, e2, Nat.add_assoc]

theorem take_min_length (l : List Nat) (n : Nat) : l.take (min l.length n) = l.take n := by
  rcases Nat.le_total l.length n with h | h
  · rw [Nat.min_eq_left h, List.take_length, List.take_of_length_le h]
  · rw [Nat.min_eq_right h]

/-- The chunk loop of `downloadCharacteristics`, started at chunk `k` with `m` chunks to go, writes the frames of the chunks `k .. k + m - 1`. -/
theorem downloadCharacteristicsLoop_eq (buffer : List Nat) (hL : buffer.length < 65536) :
    ∀ (m k n : Nat) (self : R503_Fingerprint),
      k + m = specChunkCount buffer.length 128 → m + 1 ≤ n →
      downloadCharacteristicsLoop n self buffer buffer.length (min (128 * k) buffer.length) =
        some (true, { self with serial := { self.serial with tx := (self.serial.tx ++
          List.flatMap (List.range' k m) (specChunkFrame self.address buffer 128)) } }) := by
  intro m
  induction m with
  | zero =>
    intro k n self hk hn
    obtain ⟨n, rfl⟩ : ∃ n', n = n' + 1 := ⟨n - 1, by omega⟩
    have h1 : ¬ (min (128 * k) buffer.length < buffer.length) := by
      simp only [specChunkCount] at hk
      omega
    simp [downloadCharacteristicsLoop, h1]
  | succ m ih =>
    intro k n self hk hn
    obtain ⟨n, rfl⟩ : ∃ n', n = n' + 1 := ⟨n - 1, by omega⟩
    have hlt : 128 * k < buffer.length := by
      simp only [specChunkCount] at hk
      omega
    have hoff : min (128 * k) buffer.length = 128 * k := by omega
    have hchunk : min ((buffer.length - 128 * k) % 65536) 128 = min (buffer.length - 128 * k) 128 := by
      omega
    have hdl : (buffer.drop (128 * k)).length = buffer.length - 128 * k := List.length_drop _ _
    have hnext : (128 * k + min (buffer.length - 128 * k) 128) % 65536
        = min (128 * (k + 1)) buffer.length := by omega
    have hlast : (128 * k + min (buffer.length - 128 * k) 128 ≥ buffer.length)
        ↔ k + 1 = specChunkCount buffer.length 128 := by
      simp only [specChunkCount] at hk ⊢
      omega
    have htake : (buffer.drop (128 * k)).take (min (buffer.length - 128 * k) 128)
        = specChunk buffer 128 k := by
      rw [← hdl, take_min_length, specChunk, Nat.mul_comm]
    rw [hoff, downloadCharacteristicsLoop]
    simp only [hlt, if_true, hchunk, hlast]
    rw [sendPacket_take _ _ _ _ (by rw [hdl]; omega), htake, hnext]
    simp only [Bool.true_eq_false, if_false]
    rw [ih (k + 1) n _ (by omega) (by omega)]
    simp only [List.range'_succ, List.flatMap_cons, List.append_assoc, decide_eq_true_eq,
      R503_END_DATA_PACKET, R503_DATA_PACKET, specChunkFrame]

/-- The chunk loop of `downloadImage`, started at chunk `k` with `m` chunks to go, writes the frames of the chunks `k .. k + m - 1`. -/
theorem downloadImageLoop_eq (buffer : List Nat) (hL : buffer.length < 2 ^ 32) :
    ∀ (m k n : Nat) (self : R503_Fingerprint),
      k + m = specChunkCount buffer.length 128 → m + 1 ≤ n →
      downloadImageLoop n self buffer buffer.length (min (128 * k) buffer.length) =
        some (true, { self with serial := { self.serial with tx := (self.serial.tx ++
          List.flatMap (List.range' k m) (specChunkFrame self.address buffer 128)) } }) := by
  intro m
  induction m with
  | zero =>
    intro k n self hk hn
    obtain ⟨n, rfl⟩ : ∃ n', n = n' + 1 := ⟨n - 1, by omega⟩
    have h1 : ¬ (min (128 * k) buffer.length < buffer.length) := by
      simp only [specChunkCount] at hk
      omega
    simp [downloadImageLoop, h1]
  | succ m ih =>
    intro k n self hk hn
    obtain ⟨n, rfl⟩ : ∃ n', n = n' + 1 := ⟨n - 1, by omega⟩
    have hlt : 128 * k < buffer.length := by
      simp only [specChunkCount] at hk
      omega
    have hoff : min (128 * k) buffer.length = 128 * k := by omega
    have hchunk : (min ((buffer.length - 128 * k) % 2 ^ 32) 128) % 65536
        = min (buffer.length - 128 * k) 128 := by
      omega
    have hdl : (buffer.drop (128 * k)).length = buffer.length - 128 * k := List.length_drop _ _
    have hnext : (128 * k + min (buffer.length - 128 * k) 128) % 2 ^ 32
        = min (128 * (k + 1)) buffer.length := by omega
    have hlast : ((128 * k + min (buffer.length - 128 * k) 128) % 2 ^ 32 ≥ buffer.length)
        ↔ k + 1 = specChunkCount buffer.length 128 := by
      simp only [specChunkCount] at hk ⊢
      omega
    have htake : (buffer.drop (128 * k)).take (min (buffer.length - 128 * k) 128)
        = specChunk buffer 128 k := by
      rw [← hdl, take_min_length, specChunk, Nat.mul_comm]
    rw [hoff, downloadImageLoop]
    simp only [hlt, if_true, hchunk, hlast]
    rw [sendPacket_take _ _ _ _ (by rw [hdl]; omega), htake, hnext]
    simp only [Bool.true_eq_false, if_false]
    rw [ih (k + 1) n _ (by omega) (by omega)]
    simp only [List.range'_succ, List.flatMap_cons, List.append_assoc, decide_eq_true_eq,
      R503_END_DATA_PACKET, R503_DATA_PACKET, specChunkFrame]


theorem specChunk_length (payload : List Nat) (i : Nat)
    (hi : i + 1 < specChunkCount payload.length 128) : (specChunk payload 128 i).length = 128 := by
  simp only [specChunkCount] at hi
  simp only [specChunk, List.length_take, List.length_drop]
  omega

theorem specChunkFrames_eq (address : Nat) (payload : List Nat) :
    List.flatMap (List.range' 0 (specChunkCount payload.length 128))
      (specChunkFrame address payload 128) = specChunkFrames address payload 128 := by
  rw [specChunkFrames, List.range_eq_range']

/-- C8 (chunking exactness). Once the acknowledgement of the command was accepted with
confirmation code 0x00, `downloadCharacteristics` (payload below 65536 bytes) and
`downloadImage` (payload below 2^32 bytes) return `true` and write, after the command
frame, exactly the frames of the chunks `0 .. ceil(L / 128) - 1` in order and nothing else:
frame `i` carries the payload bytes from `128 * i` up to `min (128 * (i + 1)) L`, every
frame but the last is a Data frame (0x02) and the last one an EndOfData frame (0x08);
every chunk but the last has exactly 128 bytes. -/
theorem C8_chunking_exactness (fuel : Nat) (self : R503_Fingerprint) (slot : Nat)
    (payload : List Nat) :
    (∀ r : Received, payload.length < 65536 →
      receiveAck fuel (sendPacket self R503_COMMAND_PACKET [R503_DOWNCHAR, slot] 2).2 = some r →
      r.ok = true → r.self.lastConfirmCode = R503_OK →
      downloadCharacteristics fuel self slot payload payload.length =
        some (true, { r.self with serial := { r.self.serial with
          tx := r.self.serial.tx ++ specChunkFrames r.self.address payload 128 } })) ∧
    (∀ r : Received, payload.length < 2 ^ 32 →
      receiveAck fuel (sendPacket self R503_COMMAND_PACKET [R503_DOWNIMAGE] 1).2 = some r →
      r.ok = true → r.self.lastConfirmCode = R503_OK →
      downloadImage fuel self payload payload.length =
        some (true, { r.self with serial := { r.self.serial with
          tx := r.self.serial.tx ++ specChunkFrames r.self.address payload 128 } })) ∧
    (∀ i, i + 1 < specChunkCount payload.length 128 → (specChunk payload 128 i).length = 128) := by
  refine ⟨?_, ?_, specChunk_length payload⟩
  · intro r hL hack hok hcode
    have hs : (sendPacket self R503_COMMAND_PACKET [R503_DOWNCHAR, slot] 2).1 = true := by
      rw [sendPacket_take _ _ _ _ (by simp)]
    have hl := downloadCharacteristicsLoop_eq payload hL (specChunkCount payload.length 128) 0
      (payload.length + 1) r.self (by omega) (by simp only [specChunkCount]; omega)
    simp only [Nat.mul_zero, Nat.zero_min, specChunkFrames_eq] at hl
    simp only [downloadCharacteristics, hs, Bool.true_eq_false, if_false, hack, hok, hcode,
      ne_eq, not_true_eq_false, hl]
  · intro r hL hack hok hcode
    have hs : (sendPacket self R503_COMMAND_PACKET [R503_DOWNIMAGE] 1).1 = true := by
      rw [sendPacket_take _ _ _ _ (by simp)]
    have hl := downloadImageLoop_eq payload hL (specChunkCount payload.length 128) 0
      (payload.length + 1) r.self (by omega) (by simp only [specChunkCount]; omega)
    simp only [Nat.mul_zero, Nat.zero_min, specChunkFrames_eq] at hl
    simp only [downloadImage, hs, Bool.true_eq_false, if_false, hack, hok, hcode,
      ne_eq, not_true_eq_false, hl]

/-! ## Inbound reassembly -/

/-- Reception of one well-formed frame followed by further bytes: accepted when the type is the expected one, rejected at the type test otherwise. -/
theorem receivePacket_frame (fuel : Nat) (r : R503_Fingerprint) (T expectedType : Nat)
    (P rest : List Nat) (hT : T < 256) (hA : r.address < 2 ^ 32) (hlen : P.length ≤ 65533)
    (hrx : r.serial.rx = specFrame r.address T P ++ rest) :
    receivePacket (fuel + 1) r expectedType =
      if T ≠ expectedType then
        some ⟨false, [], 0, withRx r (((P.length + 2) / 256) % 256 :: (P.length + 2) % 256 ::
          (P ++ (specChecksum T P / 256) % 256 :: specChecksum T P % 256 :: rest))⟩
      else some ⟨true, P, P.length, withRx r rest⟩ := by
  rw [specFrame_eq] at hrx
  simp only [List.cons_append, List.append_assoc, List.nil_append] at hrx
  rw [receivePacket_specFrame fuel r T expectedType P _ _ rest hT hA hlen
    (Nat.mod_lt _ (by norm_num)) (Nat.mod_lt _ (by norm_num)) hrx]
  have hc : specChecksum T P < 65536 := Nat.mod_lt _ (by norm_num)
  have e : specChecksum T P / 256 % 256 * 256 + specChecksum T P % 256 = specChecksum T P := by
    omega
  simp [e]

theorem readTemp_nine (ser : HardwareSerial) (h : 9 ≤ ser.rx.length) :
    readTemp 9 ser [] = (ser.rx.take 9, { ser with rx := ser.rx.drop 9 }) := by
  obtain ⟨h0, h1, a0, a1, a2, a3, pid, l0, l1, tail, hrx⟩ := exists_nine ser.rx h
  simp [readTemp, HardwareSerial.read, hrx]

/-- The look-ahead of `receiveData` on nine available bytes whose ninth byte is not 0x02: the next expected type is EndOfData, and the nine bytes are gone when the first one is 0xEF. -/
theorem receiveDataPeek_not_data (ser : HardwareSerial) (h : 9 ≤ ser.rx.length)
    (hnd : ser.rx.getD 8 0 ≠ 0x02) :
    receiveDataPeek ser =
      (R503_END_DATA_PACKET,
        if ser.rx.getD 0 0 = 0xEF then { ser with rx := ser.rx.drop 9 } else ser) := by
  have ht := readTemp_nine ser h
  obtain ⟨h0, h1, a0, a1, a2, a3, pid, l0, l1, tail, hrx⟩ := exists_nine ser.rx h
  rw [hrx] at hnd ht
  simp only [List.getD_eq_getElem?_getD, List.getElem?_cons_succ, List.getElem?_cons_zero,
    Option.getD_some] at hnd
  unfold receiveDataPeek
  simp only [HardwareSerial.available, HardwareSerial.peek, hrx, ht, R503_DATA_PACKET]
  by_cases c0 : h0 = 0xEF
  · by_cases c1 : h1 = 0x01 <;> simp [c0, c1, hnd]
  · simp [c0]

/-- When a Data frame is followed by at least nine bytes whose ninth byte is not 0x02, `receiveData` returns `true` after this first frame. -/
theorem receiveData_first_chunk (f : Nat) (self : R503_Fingerprint) (maxLength : Nat)
    (P rest : List Nat) (hA : self.address < 2 ^ 32) (hlen : P.length ≤ 65533)
    (hmax : P.length < maxLength)
    (hrx : self.serial.rx = specFrame self.address R503_DATA_PACKET P ++ rest)
    (h9 : 9 ≤ rest.length) (hnd : rest.getD 8 0 ≠ 0x02) :
    receiveData (f + 2) self maxLength =
      some ⟨true, P, P.length,
        withRx self (if rest.getD 0 0 = 0xEF then rest.drop 9 else rest)⟩ := by
  have hr := receivePacket_frame (f + 1) self R503_DATA_PACKET R503_DATA_PACKET P rest
    (by decide) hA hlen hrx
  simp only [ne_eq, not_true_eq_false, if_false] at hr
  have hw : waitAvailable (f + 2) (withRx self rest).serial (withRx self rest).serial.millis 9 100
      = some (true, (withRx self rest).serial) :=
    waitAvailable_ready (f + 1) _ _ 9 _ h9
  have hp := receiveDataPeek_not_data (withRx self rest).serial h9 hnd
  have hm : ¬ (P.length % 65536 ≥ maxLength) := by omega
  have hne : R503_DATA_PACKET ≠ R503_END_DATA_PACKET := by decide
  simp only [receiveData, receiveDataLoop, hne, ne_eq, not_false_eq_true, if_true, hr,
    Bool.true_eq_false, if_false, Nat.zero_add, hm, hw, hp, not_true_eq_false, storeAt]
  have hmod : P.length % 65536 = P.length := by omega
  simp only [withRx, List.take_nil, List.nil_append, List.drop_nil, List.append_nil, hmod]
  split_ifs <;> rfl

/-- When the first frame is not a Data frame, `receiveData` returns `false`. -/
theorem receiveData_wrong_first_type (f : Nat) (self : R503_Fingerprint) (maxLength T : Nat)
    (P rest : List Nat) (hT : T < 256) (hT2 : T ≠ R503_DATA_PACKET) (hA : self.address < 2 ^ 32)
    (hlen : P.length ≤ 65533) (hrx : self.serial.rx = specFrame self.address T P ++ rest) :
    (receiveData (f + 1) self maxLength).map (fun r => (r.ok, r.actualLength, r.buffer))
      = some (false, 0, []) := by
  have hr := receivePacket_frame f self T R503_DATA_PACKET P rest hT hA hlen hrx
  simp only [ne_eq, hT2, not_false_eq_true, if_true] at hr
  have hne : R503_DATA_PACKET ≠ R503_END_DATA_PACKET := by decide
  simp [receiveData, receiveDataLoop, hne, hr, storeAt]


theorem withRx_fresh_address (bytes : List Nat) : (withRx freshSession bytes).address < 2 ^ 32 := by
  show R503_DEFAULT_ADDRESS < 2 ^ 32
  decide

theorem sentChunks_eq (payload : List Nat) (hL : payload.length < 65536) :
    sentChunks payload = specChunkFrames freshSession.address payload 128 := by
  have hl := downloadCharacteristicsLoop_eq payload hL (specChunkCount payload.length 128) 0
    (payload.length + 1) freshSession (by omega) (by simp only [specChunkCount]; omega)
  simp only [Nat.mul_zero, Nat.zero_min, specChunkFrames_eq] at hl
  simp only [sentChunks, hl]
  rfl

theorem bytesUpTo_length (L : Nat) : (bytesUpTo L).length = L := by
  simp [bytesUpTo]

theorem specChunkFrames_split (address : Nat) (payload : List Nat)
    (h : 2 ≤ specChunkCount payload.length 128) :
    ∃ rest, specChunkFrames address payload 128
        = specFrame address R503_DATA_PACKET (payload.take 128) ++ rest ∧
      9 ≤ rest.length ∧ rest.getD 8 0 ≠ 0x02 := by
  obtain ⟨c, hc⟩ : ∃ c, specChunkCount payload.length 128 = c + 2 := ⟨_, (Nat.sub_add_cancel h).symm⟩
  have hlen : 128 < payload.length := by
    simp only [specChunkCount] at hc; omega
  have h1 : (specChunk payload 128 1).length + 2 < 256 := by
    simp only [specChunk, List.length_take, List.length_drop]; omega
  have h2 : 0 < (specChunk payload 128 1).length := by
    simp only [specChunk, List.length_take, List.length_drop]; omega
  refine ⟨specChunkFrame address payload 128 1 ++
    List.flatMap (List.range' 2 c) (specChunkFrame address payload 128), ?_, ?_, ?_⟩
  · rw [← specChunkFrames_eq, hc]
    simp only [List.range'_succ, List.flatMap_cons]
    congr 1
    simp [specChunkFrame, hc, specChunk, R503_DATA_PACKET]
  · simp only [specChunkFrame, specFrame_eq, List.cons_append, List.length_cons]
    omega
  · simp only [specChunkFrame, specFrame_eq, List.cons_append, List.getD_eq_getElem?_getD,
      List.getElem?_cons_succ, List.getElem?_cons_zero, Option.getD_some]
    omega

/-- Fed with the frames the chunk loop emits for a payload of at least 129 bytes, `receiveData` returns `true` with the first 128 bytes only. -/
theorem receiveData_two_or_more_chunks (f : Nat) (payload : List Nat) (maxLength : Nat)
    (hL : payload.length < 65536) (h2 : 129 ≤ payload.length) (hmax : 128 < maxLength) :
    (receiveData (f + 2) (withRx freshSession (sentChunks payload)) maxLength).map
        (fun r => (r.ok, r.actualLength, r.buffer)) = some (true, 128, payload.take 128) := by
  obtain ⟨rest, hsplit, h9, hnd⟩ := specChunkFrames_split freshSession.address payload
    (by simp only [specChunkCount]; omega)
  have htl : (payload.take 128).length = 128 := by rw [List.length_take]; omega
  rw [sentChunks_eq payload hL, hsplit]
  rw [receiveData_first_chunk f
    (withRx freshSession (specFrame freshSession.address R503_DATA_PACKET (payload.take 128) ++ rest))
    maxLength (payload.take 128) rest (withRx_fresh_address _) (by omega) (by omega) rfl h9 hnd]
  simp [htl]

/-- Fed with the single EndOfData frame the chunk loop emits for a payload of 1 to 128 bytes, `receiveData` returns `false`. -/
theorem receiveData_single_chunk (f : Nat) (payload : List Nat) (maxLength : Nat)
    (h1 : 1 ≤ payload.length) (h2 : payload.length ≤ 128) :
    (receiveData (f + 1) (withRx freshSession (sentChunks payload)) maxLength).map
        (fun r => (r.ok, r.actualLength, r.buffer)) = some (false, 0, []) := by
  have hc : specChunkCount payload.length 128 = 1 := by
    simp only [specChunkCount]; omega
  have hs : sentChunks payload
      = specFrame freshSession.address R503_END_DATA_PACKET payload ++ [] := by
    rw [sentChunks_eq payload (by omega), ← specChunkFrames_eq, hc]
    simp only [List.range'_succ, List.range'_zero, List.flatMap_cons, List.flatMap_nil,
      specChunkFrame, hc, specChunk]
    simp [List.take_of_length_le h2, R503_END_DATA_PACKET]
  rw [hs]
  exact receiveData_wrong_first_type f
    (withRx freshSession (specFrame freshSession.address R503_END_DATA_PACKET payload ++ []))
    maxLength R503_END_DATA_PACKET payload [] (by decide)
    (by decide) (withRx_fresh_address _) (by omega) rfl

/-- C9 (evaluation at failing inputs). Fed with the frames that the chunk loop of
`downloadCharacteristics` emits, `receiveData` returns `true` with `actualLength = 128` and
only the first 128 bytes for payloads of 129 and of 1280 bytes, and returns `false` for
payloads of 1, 127 and 128 bytes; in no case does it reproduce the payload. -/
theorem C9_reassembly_stops_after_first_chunk :
    (receiveData 2 (withRx freshSession (sentChunks (bytesUpTo 129))) 1024).map
        (fun r => (r.ok, r.actualLength, r.buffer)) = some (true, 128, (bytesUpTo 129).take 128) ∧
    (receiveData 2 (withRx freshSession (sentChunks (bytesUpTo 1280))) 2048).map
        (fun r => (r.ok, r.actualLength, r.buffer)) = some (true, 128, (bytesUpTo 1280).take 128) ∧
    (receiveData 2 (withRx freshSession (sentChunks (bytesUpTo 1))) 1024).map
        (fun r => (r.ok, r.actualLength, r.buffer)) = some (false, 0, []) ∧
    (receiveData 2 (withRx freshSession (sentChunks (bytesUpTo 127))) 1024).map
        (fun r => (r.ok, r.actualLength, r.buffer)) = some (false, 0, []) ∧
    (receiveData 2 (withRx freshSession (sentChunks (bytesUpTo 128))) 1024).map
        (fun r => (r.ok, r.actualLength, r.buffer)) = some (false, 0, []) :=
  ⟨receiveData_two_or_more_chunks 0 _ 1024 (by rw [bytesUpTo_length]; decide)
      (by rw [bytesUpTo_length]) (by decide),
    receiveData_two_or_more_chunks 0 _ 2048 (by rw [bytesUpTo_length]; decide)
      (by rw [bytesUpTo_length]; decide) (by decide),
    receiveData_single_chunk 1 _ 1024 (by rw [bytesUpTo_length]) (by rw [bytesUpTo_length]; decide),
    receiveData_single_chunk 1 _ 1024 (by rw [bytesUpTo_length]; decide)
      (by rw [bytesUpTo_length]; decide),
    receiveData_single_chunk 1 _ 1024 (by rw [bytesUpTo_length]; decide)
      (by rw [bytesUpTo_length])⟩


/-- C10 (evaluation at failing inputs). For the well-formed transfer Data `[1, 2, 3]`,
EndOfData `[4, 5]` (5 bytes in all) `receiveData` returns `true` with `actualLength = 3`,
both with capacity 10 and with capacity 4, leaving the payload and checksum of the second
frame unread; for a transfer that fills the capacity exactly (5 bytes, capacity 5) it returns
`false`; for a transfer that consists of one EndOfData frame it returns `false`. -/
theorem C10_capacity_contract_violated :
    twoFrameTransfer = [0xEF, 0x01, 0xFF, 0xFF, 0xFF, 0xFF, 0x02, 0x00, 0x05, 1, 2, 3, 0x00, 0x0D,
      0xEF, 0x01, 0xFF, 0xFF, 0xFF, 0xFF, 0x08, 0x00, 0x04, 4, 5, 0x00, 0x15] ∧
    (receiveData 2 (withRx freshSession twoFrameTransfer) 10).map
        (fun r => (r.ok, r.actualLength, r.buffer, r.self.serial.rx)) = some (true, 3, [1, 2, 3], [4, 5, 0x00, 0x15]) ∧
    (receiveData 2 (withRx freshSession twoFrameTransfer) 4).map
        (fun r => (r.ok, r.actualLength, r.buffer)) = some (true, 3, [1, 2, 3]) ∧
    (receiveData 2 (withRx freshSession fullFrameTransfer) 5).map
        (fun r => (r.ok, r.actualLength, r.buffer)) = some (false, 5, [1, 2, 3, 4, 5]) ∧
    (receiveData 2 (withRx freshSession singleFrameTransfer) 10).map
        (fun r => (r.ok, r.actualLength, r.buffer)) = some (false, 0, []) := by
  decide

/-! ## Instances at concrete inputs -/

/-- Witness for C3: an acknowledgement frame with a wrong checksum is rejected, and so is the
same frame when a Data packet is expected. -/
theorem C3_framing_rejection_witness :
    (receivePacket 1 (withRx freshSession badChecksumAck) 0x02).map Received.ok = some false ∧
    (receivePacket 1 (withRx freshSession badChecksumAck) 0x07).map Received.ok = some false :=
  ⟨(C3_framing_rejection 0 (withRx freshSession badChecksumAck) 0x02
      0xEF 0x01 0xFF 0xFF 0xFF 0xFF 0x07 0x00 0x03 [0x00, 0x00, 0x0B] rfl (by decide)).1
      (Or.inr (Or.inr (by decide))),
    (C3_framing_rejection 0 (withRx freshSession badChecksumAck) 0x07
      0xEF 0x01 0xFF 0xFF 0xFF 0xFF 0x07 0x00 0x03 [0x00, 0x00, 0x0B] rfl (by decide)).2
      [0x00] 0x00 0x0B [] rfl rfl (by decide) (by decide) (by decide)⟩

/-- Witness for C4: the handshake command frame with its payload byte 0x40 replaced by 0x41
is rejected and leaves address and password as they were. -/
theorem C4_corruption_detected_witness :
    ∃ res, receivePacket 1 (withRx freshSession (handshakeFrame.set 9 0x41)) 0x01 = some res ∧
      res.ok = false ∧
      res.self.address = (withRx freshSession (handshakeFrame.set 9 0x41)).address ∧
      res.self.password = (withRx freshSession (handshakeFrame.set 9 0x41)).password :=
  C4_corruption_detected 0 freshSession (withRx freshSession (handshakeFrame.set 9 0x41)) 0x01
    [0x40] handshakeFrame 0 0x41 (by decide) (by decide) (by decide) (by decide) (by decide)
    (by decide) (by decide) (by decide) rfl rfl

/-- Witness for C5: an acknowledgement frame of 12 bytes followed by `AA BB` is accepted,
and exactly `AA BB` stays unread. -/
theorem C5_exact_consumption_witness :
    2 ≤ specDeclaredLength ackThenTwo.serial.stream ∧
    9 + specDeclaredLength ackThenTwo.serial.stream ≤ ackThenTwo.serial.stream.length ∧
    ackReceived.self.serial.stream
      = ackThenTwo.serial.stream.drop (9 + specDeclaredLength ackThenTwo.serial.stream) ∧
    ackReceived.length = specDeclaredLength ackThenTwo.serial.stream - 2 ∧
    ackReceived.buffer
      = (ackThenTwo.serial.stream.drop 9).take (specDeclaredLength ackThenTwo.serial.stream - 2) :=
  C5_exact_consumption 1 ackThenTwo 0x07 ackReceived (by decide) (by decide) rfl

/-- Witness for C7: after the acknowledgement `okAck` the confirmation code of a fresh
session is the payload byte 0x00. -/
theorem C7_lastConfirmCode_update_witness :
    ∃ a, receiveAck 1 (withRx freshSession okAck) = some a ∧ a.ok = true ∧
      (true = false → a.self.lastConfirmCode = 0xFF) ∧
      (true = true → 1 = 0 → a.self.lastConfirmCode = 0xFF) ∧
      (true = true → 0 < 1 →
        a.self.lastConfirmCode = [0x00].getD 0 0 ∧ a.self.lastConfirmCode = okAck.getD 9 0) :=
  C7_lastConfirmCode_update 1 (withRx freshSession okAck)
    ⟨true, [0x00], 1, withRx freshSession []⟩ (by decide) (by decide)

/-- Witness for C8: with the command acknowledged, `downloadCharacteristics` and
`downloadImage` for the payload `[1, 2, 3]` write the command frame and then the chunk frames
of the payload; and the first of the two chunks of a 129-byte payload has 128 bytes. -/
theorem C8_chunking_exactness_witness :
    downloadCharacteristics 1 (withRx freshSession okAck) 1 [1, 2, 3] 3 =
      some (true, { freshSession with
        lastConfirmCode := 0
        serial := { freshSession.serial with
          tx := [0xEF, 0x01, 0xFF, 0xFF, 0xFF, 0xFF, 0x01, 0x00, 0x04, 0x09, 0x01, 0x00, 0x0F]
            ++ specChunkFrames 0xFFFFFFFF [1, 2, 3] 128 } }) ∧
    downloadImage 1 (withRx freshSession okAck) [1, 2, 3] 3 =
      some (true, { freshSession with
        lastConfirmCode := 0
        serial := { freshSession.serial with
          tx := [0xEF, 0x01, 0xFF, 0xFF, 0xFF, 0xFF, 0x01, 0x00, 0x03, 0x0B, 0x00, 0x0F]
            ++ specChunkFrames 0xFFFFFFFF [1, 2, 3] 128 } }) ∧
    (specChunk (bytesUpTo 129) 128 0).length = 128 :=
  ⟨(C8_chunking_exactness 1 (withRx freshSession okAck) 1 [1, 2, 3]).1
      ⟨true, [0x00], 1, { freshSession with
        lastConfirmCode := 0
        serial := { freshSession.serial with
          tx := [0xEF, 0x01, 0xFF, 0xFF, 0xFF, 0xFF, 0x01, 0x00, 0x04, 0x09, 0x01, 0x00, 0x0F] } }⟩
      (by decide) (by decide) rfl rfl,
    (C8_chunking_exactness 1 (withRx freshSession okAck) 1 [1, 2, 3]).2.1
      ⟨true, [0x00], 1, { freshSession with
        lastConfirmCode := 0
        serial := { freshSession.serial with
          tx := [0xEF, 0x01, 0xFF, 0xFF, 0xFF, 0xFF, 0x01, 0x00, 0x03, 0x0B, 0x00, 0x0F] } }⟩
      (by decide) (by decide) rfl rfl,
    (C8_chunking_exactness 1 freshSession 1 (bytesUpTo 129)).2.2 0
      (by rw [bytesUpTo_length]; decide)⟩

/-! ## Commands and what they write -/

theorem read_tx (ser : HardwareSerial) : ser.read.2.tx = ser.tx := by
  unfold HardwareSerial.read
  split <;> rfl

theorem readU16_tx (ser : HardwareSerial) : (readU16 ser).2.tx = ser.tx := by
  simp only [readU16, read_tx]

theorem readU32_tx (ser : HardwareSerial) : (readU32 ser).2.tx = ser.tx := by
  simp only [readU32, read_tx]

theorem readPayload_tx :
    ∀ (n : Nat) (ser : HardwareSerial) (c : Nat) (buffer : List Nat),
      (readPayload n ser c buffer).2.2.tx = ser.tx := by
  intro n
  induction n with
  | zero => intro ser c buffer; rfl
  | succ n ih => intro ser c buffer; rw [readPayload, ih, read_tx]

theorem receivePacket_tx (fuel : Nat) (self : R503_Fingerprint) (expectedType : Nat)
    (r : Received) (h : receivePacket fuel self expectedType = some r) :
    r.self.serial.tx = self.serial.tx := by
  unfold receivePacket at h
  dsimp only at h
  split at h
  · simp at h
  · rename_i ser hw
    simp only [Option.some.injEq] at h; subst h
    exact (waitAvailable_spec _ _ _ _ _ _ _ hw).2.1
  · rename_i ser hw
    have htx := (waitAvailable_spec _ _ _ _ _ _ _ hw).2.1
    split_ifs at h
    · simp only [Option.some.injEq] at h; subst h; simp only [readU16_tx, htx]
    · simp only [Option.some.injEq] at h; subst h; simp only [readU32_tx, readU16_tx, htx]
    · simp only [Option.some.injEq] at h; subst h
      simp only [read_tx, readU32_tx, readU16_tx, htx]
    · simp only [Option.some.injEq] at h; subst h
      simp only [read_tx, readU32_tx, readU16_tx, htx]
    · split at h
      · simp at h
      · rename_i ser2 hw2
        simp only [Option.some.injEq] at h; subst h
        rw [(waitAvailable_spec _ _ _ _ _ _ _ hw2).2.1]
        simp only [read_tx, readU32_tx, readU16_tx, htx]
      · rename_i ser2 hw2
        simp only [Option.some.injEq] at h; subst h
        simp only [readU16_tx, readPayload_tx]
        rw [(waitAvailable_spec _ _ _ _ _ _ _ hw2).2.1]
        simp only [read_tx, readU32_tx, readU16_tx, htx]

theorem receiveAck_preserves (fuel : Nat) (self : R503_Fingerprint) (a : Received)
    (h : receiveAck fuel self = some a) :
    a.self.serial.tx = self.serial.tx ∧ a.self.address = self.address ∧
      a.self.password = self.password ∧ a.self.timeout = self.timeout := by
  unfold receiveAck at h
  split at h
  · simp at h
  · rename_i r hr
    have hs := receivePacket_session fuel self _ r hr
    have ht := receivePacket_tx fuel self _ r hr
    have h1 : r.self.address = self.address := by rw [hs]
    have h2 : r.self.password = self.password := by rw [hs]
    have h3 : r.self.timeout = self.timeout := by rw [hs]
    split_ifs at h
    · simp only [Option.some.injEq] at h; subst h; exact ⟨ht, h1, h2, h3⟩
    · simp only [Option.some.injEq] at h; subst h; exact ⟨ht, h1, h2, h3⟩
    · simp only [Option.some.injEq] at h; subst h; exact ⟨ht, h1, h2, h3⟩

theorem simpleCommand_eq (fuel : Nat) (self : R503_Fingerprint) (packet : List Nat) :
    simpleCommand fuel self packet =
      (receiveAck fuel { self with serial := { self.serial with
          tx := self.serial.tx ++ specFrame self.address 0x01 packet } }).map
        (fun r => (r.ok && decide (r.self.lastConfirmCode = R503_OK), r.self)) := by
  unfold simpleCommand
  rw [sendPacket_eq]
  simp only [Bool.true_eq_false, if_false, R503_COMMAND_PACKET]
  cases receiveAck fuel _ with
  | none => rfl
  | some r =>
    cases hok : r.ok <;> simp [hok]

theorem simpleCommand_sent (fuel : Nat) (self : R503_Fingerprint) (packet : List Nat)
    (b : Bool) (s2 : R503_Fingerprint) (h : simpleCommand fuel self packet = some (b, s2)) :
    Sent self [(packet, b)] s2 := by
  rw [simpleCommand_eq] at h
  cases ha : receiveAck fuel { self with serial := { self.serial with
      tx := self.serial.tx ++ specFrame self.address 0x01 packet } } with
  | none => simp [ha] at h
  | some a =>
    simp only [ha, Option.map_some', Option.some.injEq, Prod.mk.injEq] at h
    obtain ⟨-, hs⟩ := h
    subst hs
    obtain ⟨h1, h2, -, -⟩ := receiveAck_preserves _ _ _ ha
    exact ⟨by simp [h1], h2⟩

theorem receiveAck_code (fuel : Nat) (self : R503_Fingerprint) (a : Received)
    (h : receiveAck fuel self = some a) :
    (a.ok = true → 0 < a.length → a.self.lastConfirmCode = a.buffer.getD 0 0) ∧
    (a.ok = false → a.self.lastConfirmCode = self.lastConfirmCode) := by
  unfold receiveAck at h
  cases hr : receivePacket fuel self R503_ACK_PACKET with
  | none => rw [hr] at h; simp at h
  | some r =>
    rw [hr] at h
    have hs := receivePacket_session fuel self R503_ACK_PACKET r hr
    by_cases hok : r.ok = false
    · simp [hok] at h
      subst h
      refine ⟨fun h1 => by simp at h1, fun _ => ?_⟩
      show r.self.lastConfirmCode = _
      rw [hs]
    · simp [hok] at h
      subst h
      refine ⟨fun _ hl => ?_, fun h1 => by simp at h1⟩
      have hl2 : 0 < r.length := hl
      simp [hl2]

theorem simpleCommand_ack (fuel : Nat) (self : R503_Fingerprint) (packet : List Nat)
    (a : Received) (h : receiveAck fuel (commandSent self packet) = some a) :
    simpleCommand fuel self packet =
      some (a.ok && decide (a.self.lastConfirmCode = R503_OK), a.self) := by
  rw [simpleCommand_eq]
  unfold commandSent at h
  rw [sendPacket_eq] at h
  simp only at h
  rw [show (0x01 : Nat) = R503_COMMAND_PACKET from rfl, h]
  rfl

theorem getImage_eq (fuel : Nat) (self : R503_Fingerprint) :
    getImage fuel self = simpleCommand fuel self [R503_GENIMG] := rfl

theorem image2Tz_eq (fuel : Nat) (self : R503_Fingerprint) (slot : Nat) :
    image2Tz fuel self slot = simpleCommand fuel self [R503_IMG2TZ, slot] := rfl

theorem createModel_eq (fuel : Nat) (self : R503_Fingerprint) :
    createModel fuel self = simpleCommand fuel self [R503_REGMODEL] := rfl

theorem storeModel_eq (fuel : Nat) (self : R503_Fingerprint) (slot pageID : Nat) :
    storeModel fuel self slot pageID = simpleCommand fuel self
      [R503_STORE, slot, (pageID >>> 8) &&& 0xFF, pageID &&& 0xFF] := rfl

theorem handshake_eq (fuel : Nat) (self : R503_Fingerprint) :
    handshake fuel self = simpleCommand fuel self [R503_HANDSHAKE] := rfl

theorem Sent.trans {s1 s2 s3 : R503_Fingerprint} {l1 l2 : List Exchange}
    (h1 : Sent s1 l1 s2) (h2 : Sent s2 l2 s3) : Sent s1 (l1 ++ l2) s3 := by
  obtain ⟨a1, a2⟩ := h1
  obtain ⟨b1, b2⟩ := h2
  exact ⟨by rw [b1, a1, a2, List.flatMap_append, List.append_assoc], by rw [b2, a2]⟩

theorem Sent.delay {s1 s2 : R503_Fingerprint} {l : List Exchange} (h : Sent s1 l s2) (ms : Nat) :
    Sent s1 l { s2 with serial := s2.serial.delay ms } := h

theorem Sent.refl (s : R503_Fingerprint) : Sent s [] s := ⟨by simp, rfl⟩


theorem enrollFingerprintCaptureLog_snd (fuel : Nat) :
    ∀ (n : Nat) (log : List Exchange) (self : R503_Fingerprint),
      (enrollFingerprintCaptureLog fuel n log self).2 = enrollFingerprintCapture fuel n self := by
  intro n
  induction n with
  | zero => intro log self; rfl
  | succ n ih =>
    intro log self
    rw [enrollFingerprintCaptureLog, enrollFingerprintCapture]
    cases getImage fuel self with
    | none => rfl
    | some g =>
      obtain ⟨b, s1⟩ := g
      cases b <;> simp [ih]

theorem capture_outcome (fuel : Nat) :
    ∀ (n : Nat) (log : List Exchange) (self : R503_Fingerprint),
      ∃ k, (enrollFingerprintCaptureLog fuel n log self).1
          = log ++ List.replicate k ([R503_GENIMG], false) ++
            (if (enrollFingerprintCaptureLog fuel n log self).2 = none then []
              else [([R503_GENIMG], true)]) ∧
        ∀ s, (enrollFingerprintCaptureLog fuel n log self).2 = some s →
          Sent self (List.replicate k ([R503_GENIMG], false) ++ [([R503_GENIMG], true)]) s := by
  intro n
  induction n with
  | zero =>
    intro log self
    exact ⟨0, by simp [enrollFingerprintCaptureLog], by simp [enrollFingerprintCaptureLog]⟩
  | succ n ih =>
    intro log self
    rw [enrollFingerprintCaptureLog]
    cases hg : getImage fuel self with
    | none => exact ⟨0, by simp, by simp⟩
    | some g =>
      obtain ⟨b, s1⟩ := g
      have hsent := simpleCommand_sent fuel self [R503_GENIMG] b s1 hg
      cases b with
      | false =>
        simp only [if_true]
        obtain ⟨k, h1, h2⟩ := ih (log ++ [([R503_GENIMG], false)])
          { s1 with serial := s1.serial.delay 100 }
        refine ⟨k + 1, ?_, ?_⟩
        · rw [h1]
          simp [List.replicate_succ]
        · intro s hs
          have := Sent.trans (hsent.delay 100) (h2 s hs)
          simpa [List.replicate_succ] using this
      | true =>
        simp only [Bool.true_eq_false, if_false]
        refine ⟨0, by simp, ?_⟩
        intro s hs
        simp only [Option.some.injEq] at hs
        subst hs
        simpa using hsent


theorem quiet_capture (k : Nat) (tail : List Exchange) (ht : ∀ e ∈ tail, Quiet e) :
    ∀ e ∈ List.replicate k (([R503_GENIMG], false) : Exchange) ++
      (([R503_GENIMG], true) : Exchange) :: tail, Quiet e := by
  intro e he
  simp only [List.mem_append, List.mem_replicate, List.mem_cons] at he
  rcases he with ⟨-, rfl⟩ | rfl | he
  · exact Or.inl rfl
  · exact Or.inl rfl
  · exact ht e he

theorem quiet_retries (k : Nat) :
    ∀ e ∈ List.replicate k (([R503_GENIMG], false) : Exchange), Quiet e := by
  intro e he
  obtain ⟨-, rfl⟩ := List.mem_replicate.mp he
  exact Or.inl rfl

theorem countCode_append (c : Nat) (l1 l2 : List Exchange) :
    countCode c (l1 ++ l2) = countCode c l1 + countCode c l2 := by
  simp [countCode]

theorem countCode_capture (c k : Nat) (hc : c ≠ R503_GENIMG) :
    countCode c (List.replicate k (([R503_GENIMG], false) : Exchange) ++
      [(([R503_GENIMG], true) : Exchange)]) = 0 := by
  simp only [countCode, List.countP_eq_zero, List.mem_append, List.mem_replicate,
    List.mem_singleton, beq_iff_eq]
  rintro e (⟨-, rfl⟩ | rfl) <;> exact fun h => hc h.symm

theorem LoopOutcome.prepend (mT mR : Nat) {self s1 : R503_Fingerprint}
    {pre new : List Exchange} {nT nR : Nat} {res : Option (Bool × R503_Fingerprint)}
    (hq : ∀ e ∈ pre, Quiet e) (hs : Sent self pre s1)
    (ha : countCode R503_IMG2TZ pre + nT = mT) (hb : countCode R503_REGMODEL pre + nR = mR)
    (h : LoopOutcome s1 new nT nR res) :
    LoopOutcome self (pre ++ new) mT mR res := by
  match res, h with
  | none, h =>
    intro e he
    rcases List.mem_append.mp he with he | he
    · exact hq e he
    · exact h e he
  | some (true, s), ⟨h1, h2, h3, h4⟩ =>
    refine ⟨?_, by rw [countCode_append, h2, ha], by rw [countCode_append, h3, hb], hs.trans h4⟩
    intro e he
    rcases List.mem_append.mp he with he | he
    · exact hq e he
    · exact h1 e he
  | some (false, s), ⟨init, last, h1, h2, h3, h4⟩ =>
    refine ⟨pre ++ init, last, by rw [h1, List.append_assoc], ?_, h3, hs.trans h4⟩
    intro e he
    rcases List.mem_append.mp he with he | he
    · exact hq e he
    · exact h2 e he

theorem enrollFingerprintLoopLog_snd (fuel : Nat) :
    ∀ (m i n : Nat) (log : List Exchange) (self : R503_Fingerprint),
      (enrollFingerprintLoopLog fuel m i n log self).2 = enrollFingerprintLoop fuel m i n self := by
  intro m
  induction m with
  | zero => intro i n log self; rfl
  | succ m ih =>
    intro i n log self
    rw [enrollFingerprintLoopLog, enrollFingerprintLoop]
    by_cases hi : i < n
    · simp only [hi, if_true]
      rw [← enrollFingerprintCaptureLog_snd fuel fuel log self]
      cases enrollFingerprintCaptureLog fuel fuel log self with
      | mk logc resc =>
        cases resc with
        | none => rfl
        | some c =>
          simp only
          cases image2Tz fuel c R503_CHARBUFFER2 with
          | none => rfl
          | some t =>
            obtain ⟨bt, st⟩ := t
            cases bt with
            | false => rfl
            | true =>
              simp only [Bool.true_eq_false, if_false]
              cases (if i = 1 then createModel fuel st else some (true, st)) with
              | none => rfl
              | some f =>
                obtain ⟨bf, sf⟩ := f
                cases bf with
                | false => rfl
                | true => simp only [Bool.true_eq_false, if_false, ih]
    · simp only [hi, if_false]


theorem quiet_extract (slot : Nat) : Quiet ([R503_IMG2TZ, slot], true) :=
  Or.inr ⟨rfl, Or.inl rfl⟩

theorem quiet_fuse : Quiet ([R503_REGMODEL], true) := Or.inr ⟨rfl, Or.inr rfl⟩

theorem LoopOutcome.failed (last : Exchange) (nT nR : Nat) {self s1 s2 : R503_Fingerprint}
    {pre : List Exchange}
    (hq : ∀ e ∈ pre, Quiet e) (hs : Sent self pre s1) (hf : Failed last)
    (hl : Sent s1 [last] s2) : LoopOutcome self (pre ++ [last]) nT nR (some (false, s2)) :=
  ⟨pre, last, rfl, hq, hf, hs.trans hl⟩

theorem loop_outcome (fuel : Nat) :
    ∀ (m i n : Nat) (log : List Exchange) (self : R503_Fingerprint), 1 ≤ i →
      ∃ new, (enrollFingerprintLoopLog fuel m i n log self).1 = log ++ new ∧
        LoopOutcome self new (n - i) (if i = 1 ∧ 1 < n then 1 else 0)
          (enrollFingerprintLoopLog fuel m i n log self).2 := by
  intro m
  induction m with
  | zero =>
    intro i n log self _
    exact ⟨[], by simp [enrollFingerprintLoopLog], by simp [enrollFingerprintLoopLog, LoopOutcome]⟩
  | succ m ih =>
    intro i n log self hi1
    rw [enrollFingerprintLoopLog]
    by_cases hi : i < n
    · simp only [hi, if_true]
      obtain ⟨k, hk1, hk2⟩ := capture_outcome fuel fuel log self
      cases hc : enrollFingerprintCaptureLog fuel fuel log self with
      | mk logc resc =>
        rw [hc] at hk1 hk2
        simp only at hk1 hk2
        cases resc with
        | none =>
          simp only [if_true, List.append_nil] at hk1
          exact ⟨_, hk1, quiet_retries k⟩
        | some c =>
          simp only [reduceCtorEq, if_false, List.append_assoc] at hk1
          have hsc := hk2 c rfl
          have hqc := quiet_capture k [] (by simp)
          have hT0 := countCode_capture R503_IMG2TZ k (by decide)
          have hR0 := countCode_capture R503_REGMODEL k (by decide)
          simp only
          cases ht : image2Tz fuel c R503_CHARBUFFER2 with
          | none => exact ⟨_, hk1, hqc⟩
          | some t =>
            obtain ⟨bt, st⟩ := t
            have hst := simpleCommand_sent fuel c [R503_IMG2TZ, R503_CHARBUFFER2] bt st ht
            cases bt with
            | false =>
              simp only [if_true]
              refine ⟨_, ?_, LoopOutcome.failed ([R503_IMG2TZ, R503_CHARBUFFER2], false) _ _
                  hqc hsc ⟨rfl, Or.inl rfl⟩ hst⟩
              simp only [hk1, List.append_assoc]
            | true =>
              simp only [Bool.true_eq_false, if_false]
              have hq2 : ∀ e ∈ (List.replicate k (([R503_GENIMG], false) : Exchange) ++
                  [([R503_GENIMG], true)]) ++ [([R503_IMG2TZ, R503_CHARBUFFER2], true)],
                  Quiet e := by
                intro e he
                rcases List.mem_append.mp he with he | he
                · exact hqc e he
                · rw [List.mem_singleton.mp he]; exact quiet_extract _
              have hs2 := hsc.trans hst
              have hT1 : countCode R503_IMG2TZ ((List.replicate k (([R503_GENIMG], false) : Exchange)
                  ++ [([R503_GENIMG], true)]) ++ [([R503_IMG2TZ, R503_CHARBUFFER2], true)]) = 1 := by
                rw [countCode_append, hT0]; rfl
              have hR1 : countCode R503_REGMODEL ((List.replicate k (([R503_GENIMG], false) : Exchange)
                  ++ [([R503_GENIMG], true)]) ++ [([R503_IMG2TZ, R503_CHARBUFFER2], true)]) = 0 := by
                rw [countCode_append, hR0]; rfl
              by_cases h1 : i = 1
              · subst h1
                simp only [if_true]
                cases hf : createModel fuel st with
                | none =>
                  refine ⟨_, ?_, hq2⟩
                  simp only [hk1, List.append_assoc]
                | some f =>
                  obtain ⟨bf, sf⟩ := f
                  have hsf := simpleCommand_sent fuel st [R503_REGMODEL] bf sf hf
                  cases bf with
                  | false =>
                    simp only [if_true]
                    have := LoopOutcome.failed ([R503_REGMODEL], false) (n - 1)
                      (if True ∧ 1 < n then 1 else 0) hq2 hs2 ⟨rfl, Or.inr (Or.inl rfl)⟩ hsf
                    refine ⟨_, ?_, this⟩
                    simp only [hk1, List.append_assoc]
                  | true =>
                    simp only [Bool.true_eq_false, if_false]
                    obtain ⟨new, hn1, hn2⟩ := ih (1 + 1) n
                      (logc ++ [([R503_IMG2TZ, R503_CHARBUFFER2], true)] ++ [([R503_REGMODEL], true)])
                      (if 1 < n - 1 then { sf with serial := sf.serial.delay 1000 } else sf)
                      (by decide)
                    have hq3 : ∀ e ∈ ((List.replicate k (([R503_GENIMG], false) : Exchange) ++
                        [([R503_GENIMG], true)]) ++ [([R503_IMG2TZ, R503_CHARBUFFER2], true)])
                        ++ [([R503_REGMODEL], true)], Quiet e := by
                      intro e he
                      rcases List.mem_append.mp he with he | he
                      · exact hq2 e he
                      · rw [List.mem_singleton.mp he]; exact quiet_fuse
                    have hs3 : Sent self (((List.replicate k (([R503_GENIMG], false) : Exchange) ++
                        [([R503_GENIMG], true)]) ++ [([R503_IMG2TZ, R503_CHARBUFFER2], true)])
                        ++ [([R503_REGMODEL], true)]) (if 1 < n - 1
                        then { sf with serial := sf.serial.delay 1000 } else sf) := by
                      have := hs2.trans hsf
                      split_ifs
                      · exact this.delay 1000
                      · exact this
                    have hn3 := hn2
                    simp only [show ¬ (1 + 1 = 1 ∧ 1 < n) by omega, if_false] at hn3
                    have hT2 : countCode R503_IMG2TZ (((List.replicate k
                        (([R503_GENIMG], false) : Exchange) ++ [([R503_GENIMG], true)]) ++
                        [([R503_IMG2TZ, R503_CHARBUFFER2], true)]) ++ [([R503_REGMODEL], true)]) = 1 := by
                      rw [countCode_append, hT1]; rfl
                    have hR2 : countCode R503_REGMODEL (((List.replicate k
                        (([R503_GENIMG], false) : Exchange) ++ [([R503_GENIMG], true)]) ++
                        [([R503_IMG2TZ, R503_CHARBUFFER2], true)]) ++ [([R503_REGMODEL], true)]) = 1 := by
                      rw [countCode_append, hR1]; rfl
                    have := LoopOutcome.prepend (n - 1)
                      (if True ∧ 1 < n then 1 else 0) hq3 hs3
                      (by rw [hT2]; omega) (by rw [hR2]; simp [hi]) hn3
                    refine ⟨_, ?_, this⟩
                    rw [hn1, hk1]
                    simp only [List.append_assoc]
              · simp only [h1, if_false, Bool.true_eq_false]
                obtain ⟨new, hn1, hn2⟩ := ih (i + 1) n
                  (logc ++ [([R503_IMG2TZ, R503_CHARBUFFER2], true)])
                  (if i < n - 1 then { st with serial := st.serial.delay 1000 } else st)
                  (by omega)
                have hs3 : Sent self ((List.replicate k (([R503_GENIMG], false) : Exchange) ++
                    [([R503_GENIMG], true)]) ++ [([R503_IMG2TZ, R503_CHARBUFFER2], true)])
                    (if i < n - 1
                    then { st with serial := st.serial.delay 1000 } else st) := by
                  split_ifs
                  · exact hs2.delay 1000
                  · exact hs2
                have hn3 := hn2
                simp only [show ¬ (i + 1 = 1 ∧ 1 < n) by omega, if_false] at hn3
                have := LoopOutcome.prepend (n - i)
                  (if False ∧ 1 < n then 1 else 0) hq2 hs3
                  (by rw [hT1]; omega) (by rw [hR1]; simp) hn3
                refine ⟨_, ?_, this⟩
                rw [hn1, hk1]
                simp only [List.append_assoc]
    · simp only [hi, if_false]
      refine ⟨[], by simp, ?_⟩
      have e1 : n - i = 0 := by omega
      have e2 : (if i = 1 ∧ 1 < n then 1 else 0) = 0 := by
        split_ifs with h
        · omega
        · rfl
      rw [e1, e2]
      exact ⟨by simp, rfl, rfl, Sent.refl self⟩


theorem enrollFingerprintLog_snd (fuel : Nat) (self : R503_Fingerprint) (pageID n : Nat) :
    (enrollFingerprintLog fuel self pageID n).2 = enrollFingerprint fuel self pageID n := by
  unfold enrollFingerprintLog enrollFingerprint
  simp only
  rw [← enrollFingerprintCaptureLog_snd fuel fuel [] self]
  cases enrollFingerprintCaptureLog fuel fuel [] self with
  | mk logc resc =>
    cases resc with
    | none => rfl
    | some c =>
      simp only
      cases image2Tz fuel c R503_CHARBUFFER1 with
      | none => rfl
      | some t =>
        obtain ⟨bt, st⟩ := t
        cases bt with
        | false => rfl
        | true =>
          simp only [Bool.true_eq_false, if_false]
          rw [← enrollFingerprintLoopLog_snd fuel _ 1 _
            (logc ++ [([R503_IMG2TZ, R503_CHARBUFFER1], true)])]
          cases enrollFingerprintLoopLog fuel (if n < 2 ∨ n > 6 then 6 else n) 1
              (if n < 2 ∨ n > 6 then 6 else n)
              (logc ++ [([R503_IMG2TZ, R503_CHARBUFFER1], true)])
              { st with serial := st.serial.delay 1000 } with
          | mk logl resl =>
            cases resl with
            | none => rfl
            | some l =>
              obtain ⟨bl, sl⟩ := l
              cases bl with
              | false => rfl
              | true =>
                simp only [Bool.true_eq_false, if_false]
                cases storeModel fuel sl R503_CHARBUFFER1 pageID with
                | none => rfl
                | some st2 => rfl

theorem enrollFingerprintLog_result (fuel : Nat) (self : R503_Fingerprint) (pageID n : Nat) :
    EnrollResult self (enrollFingerprintLog fuel self pageID n).1 pageID (specEffectiveCount n)
      (enrollFingerprintLog fuel self pageID n).2 := by
  have heff : (if n < 2 ∨ n > 6 then 6 else n) = specEffectiveCount n := by
    unfold specEffectiveCount
    split_ifs <;> omega
  have h2 : 2 ≤ specEffectiveCount n := by
    unfold specEffectiveCount
    split_ifs <;> omega
  unfold enrollFingerprintLog
  simp only [heff]
  generalize specEffectiveCount n = eff at h2
  obtain ⟨k, hk1, hk2⟩ := capture_outcome fuel fuel [] self
  cases hc : enrollFingerprintCaptureLog fuel fuel [] self with
  | mk logc resc =>
    rw [hc] at hk1 hk2
    simp only [List.nil_append] at hk1 hk2
    cases resc with
    | none =>
      simp only [if_true, List.append_nil] at hk1
      simp only [hk1]
      exact quiet_retries k
    | some c =>
      simp only [reduceCtorEq, if_false] at hk1
      have hsc := hk2 c rfl
      have hqc := quiet_capture k [] (by simp)
      have hT0 := countCode_capture R503_IMG2TZ k (by decide)
      have hR0 := countCode_capture R503_REGMODEL k (by decide)
      simp only
      cases ht : image2Tz fuel c R503_CHARBUFFER1 with
      | none =>
        simp only [hk1]
        exact hqc
      | some t =>
        obtain ⟨bt, st⟩ := t
        have hst := simpleCommand_sent fuel c [R503_IMG2TZ, R503_CHARBUFFER1] bt st ht
        cases bt with
        | false =>
          simp only [if_true, hk1]
          exact ⟨_, _, rfl, hqc, ⟨rfl, Or.inl rfl⟩, hsc.trans hst⟩
        | true =>
          simp only [Bool.true_eq_false, if_false]
          have hq2 : ∀ e ∈ (List.replicate k (([R503_GENIMG], false) : Exchange) ++
              [([R503_GENIMG], true)]) ++ [([R503_IMG2TZ, R503_CHARBUFFER1], true)],
              Quiet e := by
            intro e he
            rcases List.mem_append.mp he with he | he
            · exact hqc e he
            · rw [List.mem_singleton.mp he]; exact quiet_extract _
          have hs2 : Sent self ((List.replicate k (([R503_GENIMG], false) : Exchange) ++
              [([R503_GENIMG], true)]) ++ [([R503_IMG2TZ, R503_CHARBUFFER1], true)])
              { st with serial := st.serial.delay 1000 } := (hsc.trans hst).delay 1000
          have hT1 : countCode R503_IMG2TZ ((List.replicate k (([R503_GENIMG], false) : Exchange)
              ++ [([R503_GENIMG], true)]) ++ [([R503_IMG2TZ, R503_CHARBUFFER1], true)]) = 1 := by
            rw [countCode_append, hT0]; rfl
          have hR1 : countCode R503_REGMODEL ((List.replicate k (([R503_GENIMG], false) : Exchange)
              ++ [([R503_GENIMG], true)]) ++ [([R503_IMG2TZ, R503_CHARBUFFER1], true)]) = 0 := by
            rw [countCode_append, hR0]; rfl
          obtain ⟨new, hn1, hn2⟩ := loop_outcome fuel eff 1 eff
            (logc ++ [([R503_IMG2TZ, R503_CHARBUFFER1], true)])
            { st with serial := st.serial.delay 1000 } (by decide)
          have hn3 := LoopOutcome.prepend eff 1 hq2 hs2
            (by rw [hT1]; omega) (by rw [hR1]; simp; omega) hn2
          cases hl : enrollFingerprintLoopLog fuel eff 1 eff
              (logc ++ [([R503_IMG2TZ, R503_CHARBUFFER1], true)])
              { st with serial := st.serial.delay 1000 } with
          | mk logl resl =>
            rw [hl] at hn1 hn3
            simp only at hn1 hn3
            have hlog : logl = ((List.replicate k (([R503_GENIMG], false) : Exchange) ++
                [([R503_GENIMG], true)]) ++ [([R503_IMG2TZ, R503_CHARBUFFER1], true)]) ++ new := by
              rw [hn1, hk1]
            cases resl with
            | none =>
              simp only [hlog]
              exact hn3
            | some l =>
              obtain ⟨bl, sl⟩ := l
              cases bl with
              | false =>
                simp only [if_true, hlog]
                exact hn3
              | true =>
                simp only [Bool.true_eq_false, if_false]
                obtain ⟨g1, g2, g3, g4⟩ := hn3
                cases hs : storeModel fuel sl R503_CHARBUFFER1 pageID with
                | none =>
                  simp only [hlog]
                  exact g1
                | some st2 =>
                  obtain ⟨b2, s2⟩ := st2
                  have hss := simpleCommand_sent fuel sl _ b2 s2 hs
                  simp only [hlog]
                  cases b2 with
                  | false => exact ⟨_, _, rfl, g1, ⟨rfl, Or.inr (Or.inr rfl)⟩, g4.trans hss⟩
                  | true => exact ⟨_, rfl, g1, g2, g3, g4.trans hss⟩

/-! ## Enrollment -/

theorem quiet_not_failed_step {e : Exchange} (hq : Quiet e) (hfail : e.2 = false)
    (hcode : commandCode e = R503_IMG2TZ ∨ commandCode e = R503_REGMODEL) : False := by
  rcases hq with h | ⟨h, _⟩
  · rcases hcode with c | c <;> rw [h] at c <;> exact absurd c (by decide)
  · rw [hfail] at h; exact absurd h (by decide)

theorem quiet_not_store {e : Exchange} (hq : Quiet e) : commandCode e ≠ R503_STORE := by
  rcases hq with h | ⟨_, h | h⟩ <;> rw [h] <;> decide

/-- C13 (a failed extraction or fusion ends the enrollment): when a completed Img2Tz or
RegModel call of an `enrollFingerprint` run returned `false`, the run returns `false`, that
call is the last command of the run, the bytes written are exactly the frames of the logged
commands and none of them is a Store command. An Img2Tz or RegModel call returns `false`
whenever its acknowledgement is not accepted (transport failure) or carries a non-zero
confirmation code. -/
theorem C13_failed_step_ends_enrollment (fuel : Nat) (self : R503_Fingerprint) (pageID n : Nat)
    (e : Exchange) (he : e ∈ (enrollFingerprintLog fuel self pageID n).1)
    (hfail : e.2 = false)
    (hcode : commandCode e = R503_IMG2TZ ∨ commandCode e = R503_REGMODEL) :
    (∃ s2, enrollFingerprint fuel self pageID n = some (false, s2) ∧
      s2.serial.tx = self.serial.tx ++
        (enrollFingerprintLog fuel self pageID n).1.flatMap
          (fun x => specFrame self.address 0x01 x.1)) ∧
    (enrollFingerprintLog fuel self pageID n).1.getLast? = some e ∧
    (∀ x ∈ (enrollFingerprintLog fuel self pageID n).1, commandCode x ≠ R503_STORE) ∧
    (∀ s slot a, receiveAck fuel (commandSent s [R503_IMG2TZ, slot]) = some a →
      (a.ok = false ∨ (0 < a.length ∧ a.buffer.getD 0 0 ≠ 0x00)) →
      image2Tz fuel s slot = some (false, a.self)) ∧
    (∀ s a, receiveAck fuel (commandSent s [R503_REGMODEL]) = some a →
      (a.ok = false ∨ (0 < a.length ∧ a.buffer.getD 0 0 ≠ 0x00)) →
      createModel fuel s = some (false, a.self)) := by
  have hres := enrollFingerprintLog_result fuel self pageID n
  have hsnd := enrollFingerprintLog_snd fuel self pageID n
  have hx : ∀ s packet a, receiveAck fuel (commandSent s packet) = some a →
      (a.ok = false ∨ (0 < a.length ∧ a.buffer.getD 0 0 ≠ 0x00)) →
      simpleCommand fuel s packet = some (false, a.self) := by
    intro s packet a ha hk
    rw [simpleCommand_ack fuel s packet a ha]
    rcases hk with k | ⟨kl, kc⟩
    · rw [k]; rfl
    · cases hok : a.ok with
      | false => rfl
      | true =>
        have hc := (receiveAck_code fuel _ a ha).1 hok kl
        have : decide (a.self.lastConfirmCode = R503_OK) = false := by
          rw [hc]; exact decide_eq_false kc
        rw [this]; rfl
  refine ⟨?_, ?_, ?_, fun s slot a ha hk => ?_, fun s a ha hk => ?_⟩
  · rw [← hsnd]
    generalize (enrollFingerprintLog fuel self pageID n).2 = res at hres
    generalize (enrollFingerprintLog fuel self pageID n).1 = log at hres he
    match res, hres with
    | none, hres => exact (quiet_not_failed_step (hres e he) hfail hcode).elim
    | some (true, s), ⟨init, hl, hq, _, _, _⟩ =>
      subst hl
      rcases List.mem_append.1 he with h | h
      · exact (quiet_not_failed_step (hq e h) hfail hcode).elim
      · rw [List.mem_singleton.1 h] at hfail
        exact absurd hfail (by simp)
    | some (false, s), ⟨init, last, hl, hq, hf, hs⟩ => exact ⟨s, rfl, hs.1⟩
  · generalize (enrollFingerprintLog fuel self pageID n).2 = res at hres
    generalize (enrollFingerprintLog fuel self pageID n).1 = log at hres he ⊢
    match res, hres with
    | none, hres => exact (quiet_not_failed_step (hres e he) hfail hcode).elim
    | some (true, s), ⟨init, hl, hq, _, _, _⟩ =>
      subst hl
      rcases List.mem_append.1 he with h | h
      · exact (quiet_not_failed_step (hq e h) hfail hcode).elim
      · rw [List.mem_singleton.1 h] at hfail
        exact absurd hfail (by simp)
    | some (false, s), ⟨init, last, hl, hq, hf, hs⟩ =>
      subst hl
      rcases List.mem_append.1 he with h | h
      · exact (quiet_not_failed_step (hq e h) hfail hcode).elim
      · rw [List.mem_singleton.1 h]; simp
  · generalize (enrollFingerprintLog fuel self pageID n).2 = res at hres
    generalize (enrollFingerprintLog fuel self pageID n).1 = log at hres he ⊢
    match res, hres with
    | none, hres => exact (quiet_not_failed_step (hres e he) hfail hcode).elim
    | some (true, s), ⟨init, hl, hq, _, _, _⟩ =>
      subst hl
      rcases List.mem_append.1 he with h | h
      · exact (quiet_not_failed_step (hq e h) hfail hcode).elim
      · rw [List.mem_singleton.1 h] at hfail
        exact absurd hfail (by simp)
    | some (false, s), ⟨init, last, hl, hq, hf, hs⟩ =>
      subst hl
      intro x hx
      rcases List.mem_append.1 he with h | h
      · exact (quiet_not_failed_step (hq e h) hfail hcode).elim
      · rcases List.mem_append.1 hx with h2 | h2
        · exact quiet_not_store (hq x h2)
        · rw [List.mem_singleton.1 h2, ← List.mem_singleton.1 h]
          rcases hcode with c | c <;> rw [c] <;> decide
  · rw [image2Tz_eq]; exact hx s _ a ha hk
  · rw [createModel_eq]; exact hx s _ a ha hk

/-- Instance of C13: capture acknowledged, extraction answered with code 0x07. -/
theorem C13_failed_step_ends_enrollment_witness :
    ([R503_IMG2TZ, R503_CHARBUFFER1], false) ∈ (enrollFingerprintLog 1 failedExtraction 5 2).1 ∧
    enrollFingerprint 1 failedExtraction 5 2 = some (false, afterFailedExtraction) ∧
    (∀ x ∈ (enrollFingerprintLog 1 failedExtraction 5 2).1, commandCode x ≠ R503_STORE) := by
  have he : (([R503_IMG2TZ, R503_CHARBUFFER1], false) : Exchange) ∈
      (enrollFingerprintLog 1 failedExtraction 5 2).1 := by decide
  exact ⟨he, by decide,
    (C13_failed_step_ends_enrollment 1 failedExtraction 5 2
      ([R503_IMG2TZ, R503_CHARBUFFER1], false) he rfl (Or.inl rfl)).2.2.1⟩

/-- C14 (effective sample count, as the code has it): a successful `enrollFingerprint` run
sends exactly `specEffectiveCount n` Img2Tz commands, that is `n` when `2 ≤ n ≤ 6` and 6
otherwise, each of them answered with success, and the bytes written are exactly the frames
of the logged commands. -/
theorem C14_effective_sample_count (fuel : Nat) (self : R503_Fingerprint) (pageID n : Nat)
    (s2 : R503_Fingerprint) (h : enrollFingerprint fuel self pageID n = some (true, s2)) :
    countCode R503_IMG2TZ (enrollFingerprintLog fuel self pageID n).1 = specEffectiveCount n ∧
    (∀ x ∈ (enrollFingerprintLog fuel self pageID n).1, commandCode x = R503_IMG2TZ → x.2 = true) ∧
    s2.serial.tx = self.serial.tx ++
      (enrollFingerprintLog fuel self pageID n).1.flatMap
        (fun x => specFrame self.address 0x01 x.1) := by
  have hres := enrollFingerprintLog_result fuel self pageID n
  rw [enrollFingerprintLog_snd, h] at hres
  obtain ⟨init, hl, hq, hT, _, hs⟩ := hres
  refine ⟨?_, ?_, hs.1⟩
  · rw [hl, countCode_append, hT]; simp [countCode, commandCode, R503_STORE, R503_IMG2TZ]
  · rw [hl]
    intro x hx hc
    rcases List.mem_append.1 hx with h2 | h2
    · rcases hq x h2 with q | ⟨q, _⟩
      · rw [q] at hc; exact absurd hc (by decide)
      · exact q
    · rw [List.mem_singleton.1 h2]

/-- Instance of C14 at a requested count of 1: six extractions. -/
theorem C14_effective_sample_count_witness :
    enrollFingerprint 1 sixSamples 5 1 = some (true, afterSixSamples) ∧
    countCode R503_IMG2TZ (enrollFingerprintLog 1 sixSamples 5 1).1 = 6 :=
  have h : enrollFingerprint 1 sixSamples 5 1 = some (true, afterSixSamples) := by decide!
  ⟨h, (C14_effective_sample_count 1 sixSamples 5 1 afterSixSamples h).1⟩

theorem capture_shape (fuel n : Nat) (log : List Exchange) (self c : R503_Fingerprint)
    (h : (enrollFingerprintCaptureLog fuel n log self).2 = some c) :
    ∃ k, (enrollFingerprintCaptureLog fuel n log self).1 = log ++ specCaptures k := by
  obtain ⟨k, hk, -⟩ := capture_outcome fuel n log self
  refine ⟨k, ?_⟩
  rw [hk, h]
  simp [specCaptures]

theorem loop_shape (fuel : Nat) :
    ∀ (m i n : Nat) (log : List Exchange) (self s : R503_Fingerprint), 1 ≤ i →
      (enrollFingerprintLoopLog fuel m i n log self).2 = some (true, s) →
      ∃ ks, ks.length = n - i ∧
        (enrollFingerprintLoopLog fuel m i n log self).1 = log ++ specSamples (i + 1) ks := by
  intro m
  induction m with
  | zero =>
    intro i n log self s _ h
    simp [enrollFingerprintLoopLog] at h
  | succ m ih =>
    intro i n log self s hi1 h
    rw [enrollFingerprintLoopLog] at h ⊢
    by_cases hi : i < n
    · simp only [hi, if_true] at h ⊢
      cases hc : enrollFingerprintCaptureLog fuel fuel log self with
      | mk logc resc =>
        rw [hc] at h
        cases resc with
        | none => simp at h
        | some c =>
          obtain ⟨k, hk⟩ := capture_shape fuel fuel log self c (by rw [hc])
          rw [hc] at hk
          simp only at hk h ⊢
          cases ht : image2Tz fuel c R503_CHARBUFFER2 with
          | none => rw [ht] at h; simp at h
          | some t =>
            obtain ⟨bt, st⟩ := t
            rw [ht] at h
            cases bt with
            | false => simp at h
            | true =>
              simp only [Bool.true_eq_false, if_false] at h ⊢
              by_cases h1 : i = 1
              · subst h1
                simp only [if_true] at h ⊢
                cases hf : createModel fuel st with
                | none => rw [hf] at h; simp at h
                | some f =>
                  obtain ⟨bf, sf⟩ := f
                  rw [hf] at h
                  cases bf with
                  | false => simp at h
                  | true =>
                    simp only [Bool.true_eq_false, if_false] at h ⊢
                    obtain ⟨ks, hl, hs⟩ := ih (1 + 1) n _ _ s (by decide) h
                    refine ⟨k :: ks, by simp only [List.length_cons, hl]; omega, ?_⟩
                    rw [hs, hk]
                    simp [specSamples, specSample, R503_CHARBUFFER1, R503_CHARBUFFER2]
              · simp only [h1, if_false, Bool.true_eq_false] at h ⊢
                obtain ⟨ks, hl, hs⟩ := ih (i + 1) n _ _ s (by omega) h
                refine ⟨k :: ks, by simp only [List.length_cons, hl]; omega, ?_⟩
                rw [hs, hk]
                have e1 : ¬ (i + 1 = 1) := by omega
                have e2 : ¬ (i + 1 = 2) := by omega
                simp [specSamples, specSample, e1, e2]
    · simp only [hi, if_false] at h ⊢
      exact ⟨[], by simp; omega, by simp [specSamples]⟩


theorem enroll_shape (fuel : Nat) (self : R503_Fingerprint) (pageID n : Nat)
    (s : R503_Fingerprint) (h : (enrollFingerprintLog fuel self pageID n).2 = some (true, s)) :
    ∃ ks, ks.length = specEffectiveCount n ∧
      (enrollFingerprintLog fuel self pageID n).1 = specEnrollLog pageID ks := by
  have heff : (if n < 2 ∨ n > 6 then 6 else n) = specEffectiveCount n := by
    unfold specEffectiveCount
    split_ifs <;> omega
  have h2 : 2 ≤ specEffectiveCount n := by
    unfold specEffectiveCount
    split_ifs <;> omega
  unfold enrollFingerprintLog at h ⊢
  simp only [heff] at h ⊢
  generalize specEffectiveCount n = eff at h2 h ⊢
  cases hc : enrollFingerprintCaptureLog fuel fuel [] self with
  | mk logc resc =>
    rw [hc] at h
    cases resc with
    | none => simp at h
    | some c =>
      obtain ⟨k, hk⟩ := capture_shape fuel fuel [] self c (by rw [hc])
      rw [hc] at hk
      simp only [List.nil_append] at hk h ⊢
      cases ht : image2Tz fuel c R503_CHARBUFFER1 with
      | none => rw [ht] at h; simp at h
      | some t =>
        obtain ⟨bt, st⟩ := t
        rw [ht] at h
        cases bt with
        | false => simp at h
        | true =>
          simp only [Bool.true_eq_false, if_false] at h ⊢
          cases hl : enrollFingerprintLoopLog fuel eff 1 eff
              (logc ++ [([R503_IMG2TZ, R503_CHARBUFFER1], true)])
              { st with serial := st.serial.delay 1000 } with
          | mk logl resl =>
            rw [hl] at h
            cases resl with
            | none => simp at h
            | some l =>
              obtain ⟨bl, sl⟩ := l
              cases bl with
              | false => simp at h
              | true =>
                obtain ⟨ks, hks, hs⟩ := loop_shape fuel eff 1 eff _ _ sl (by decide)
                  (by rw [hl])
                rw [hl] at hs
                simp only [Bool.true_eq_false, if_false] at h ⊢
                cases hst : storeModel fuel sl R503_CHARBUFFER1 pageID with
                | none => rw [hst] at h; simp at h
                | some stt =>
                  obtain ⟨bs, ss⟩ := stt
                  rw [hst] at h
                  simp only [Option.some.injEq, Prod.mk.injEq] at h
                  obtain ⟨hb, -⟩ := h
                  subst hb
                  refine ⟨k :: ks, by simp only [List.length_cons, hks]; omega, ?_⟩
                  simp only at hs
                  rw [hs, hk]
                  simp [specEnrollLog, specSamples, specSample]

/-- C15 (one fusion per enrollment, as the code has it): the command calls of a successful
`enrollFingerprint` run are, in this order and for some numbers `ks` of failed captures, one
per sample: the captures and the extraction of the first sample; the captures and the
extraction of the second sample, followed by the one RegModel command; for every later sample
its captures and its extraction and no RegModel command; and last the Store command. The
number of samples is the effective sample count, and the bytes written are exactly the frames
of these commands. In particular there is exactly one RegModel and exactly one Store
command. -/
theorem C15_one_fusion (fuel : Nat) (self : R503_Fingerprint) (pageID n : Nat)
    (s2 : R503_Fingerprint) (h : enrollFingerprint fuel self pageID n = some (true, s2)) :
    (∃ ks, ks.length = specEffectiveCount n ∧
      (enrollFingerprintLog fuel self pageID n).1 = specEnrollLog pageID ks ∧
      s2.serial.tx = self.serial.tx ++
        (specEnrollLog pageID ks).flatMap (fun x => specFrame self.address 0x01 x.1)) ∧
    countCode R503_REGMODEL (enrollFingerprintLog fuel self pageID n).1 = 1 ∧
    (enrollFingerprintLog fuel self pageID n).1.getLast? =
      some ([R503_STORE, R503_CHARBUFFER1, (pageID >>> 8) &&& 0xFF, pageID &&& 0xFF], true) ∧
    countCode R503_STORE (enrollFingerprintLog fuel self pageID n).1 = 1 ∧
    s2.serial.tx = self.serial.tx ++
      (enrollFingerprintLog fuel self pageID n).1.flatMap
        (fun x => specFrame self.address 0x01 x.1) := by
  have hres := enrollFingerprintLog_result fuel self pageID n
  rw [enrollFingerprintLog_snd, h] at hres
  obtain ⟨init, hl, hq, _, hR, hs⟩ := hres
  obtain ⟨ks, hks, hshape⟩ := enroll_shape fuel self pageID n s2
    (by rw [enrollFingerprintLog_snd, h])
  refine ⟨⟨ks, hks, hshape, ?_⟩, ?_, ?_, ?_, hs.1⟩
  · rw [← hshape]; exact hs.1
  · rw [hl, countCode_append, hR]; simp [countCode, commandCode, R503_STORE, R503_REGMODEL]
  · rw [hl]; simp
  · rw [hl, countCode_append]
    have : countCode R503_STORE init = 0 := by
      unfold countCode
      rw [List.countP_eq_zero]
      intro x hx
      have := quiet_not_store (hq x hx)
      simpa using this
    rw [this]; simp [countCode, commandCode]

/-- Instance of C15 at a sample count of 3: RegModel follows the second extraction and
nothing follows the third but the Store command. -/
theorem C15_one_fusion_witness :
    enrollFingerprint 1 threeSamples 5 3 = some (true, afterThreeSamples) ∧
    (enrollFingerprintLog 1 threeSamples 5 3).1 = specEnrollLog 5 [0, 0, 0] ∧
    ∃ ks, ks.length = specEffectiveCount 3 ∧
      (enrollFingerprintLog 1 threeSamples 5 3).1 = specEnrollLog 5 ks ∧
      afterThreeSamples.serial.tx = threeSamples.serial.tx ++
        (specEnrollLog 5 ks).flatMap (fun x => specFrame threeSamples.address 0x01 x.1) :=
  have h : enrollFingerprint 1 threeSamples 5 3 = some (true, afterThreeSamples) := by decide!
  ⟨h, by decide!, (C15_one_fusion 1 threeSamples 5 3 afterThreeSamples h).1⟩

theorem read_clock (ser : HardwareSerial) : ser.read.2.clock = ser.clock := by
  unfold HardwareSerial.read
  split <;> rfl

theorem readU16_clock (ser : HardwareSerial) : (readU16 ser).2.clock = ser.clock := by
  simp only [readU16, read_clock]

theorem readU32_clock (ser : HardwareSerial) : (readU32 ser).2.clock = ser.clock := by
  simp only [readU32, read_clock]

theorem readPayload_clock :
    ∀ (n : Nat) (ser : HardwareSerial) (c : Nat) (buffer : List Nat),
      (readPayload n ser c buffer).2.2.clock = ser.clock := by
  intro n
  induction n with
  | zero => intro ser c buffer; rfl
  | succ n ih => intro ser c buffer; rw [readPayload, ih, read_clock]

theorem waitAvailable_clock :
    ∀ (fuel : Nat) (ser : HardwareSerial) (startTime need limit : Nat) (b : Bool)
      (ser2 : HardwareSerial),
      waitAvailable fuel ser startTime need limit = some (b, ser2) → ser.clock ≤ ser2.clock := by
  intro fuel
  induction fuel with
  | zero => intro ser startTime need limit b ser2 h; simp [waitAvailable] at h
  | succ fuel ih =>
    intro ser startTime need limit b ser2 h
    rw [waitAvailable] at h
    split_ifs at h with h1 h2
    · simp only [Option.some.injEq, Prod.mk.injEq] at h
      rw [← h.2]
    · have := ih _ _ _ _ _ _ h
      have hd : (ser.delay 1).clock = ser.clock + 1 := rfl
      omega
    · simp only [Option.some.injEq, Prod.mk.injEq] at h
      rw [← h.2]

theorem receivePacket_clock (fuel : Nat) (self : R503_Fingerprint) (expectedType : Nat)
    (r : Received) (h : receivePacket fuel self expectedType = some r) :
    self.serial.clock ≤ r.self.serial.clock := by
  unfold receivePacket at h
  dsimp only at h
  split at h
  · simp at h
  · rename_i ser hw
    simp only [Option.some.injEq] at h; subst h
    exact waitAvailable_clock _ _ _ _ _ _ _ hw
  · rename_i ser hw
    have htx := waitAvailable_clock _ _ _ _ _ _ _ hw
    split_ifs at h
    · simp only [Option.some.injEq] at h; subst h; simp only [readU16_clock]; exact htx
    · simp only [Option.some.injEq] at h; subst h
      simp only [readU32_clock, readU16_clock]; exact htx
    · simp only [Option.some.injEq] at h; subst h
      simp only [read_clock, readU32_clock, readU16_clock]; exact htx
    · simp only [Option.some.injEq] at h; subst h
      simp only [read_clock, readU32_clock, readU16_clock]; exact htx
    · split at h
      · simp at h
      · rename_i ser2 hw2
        simp only [Option.some.injEq] at h; subst h
        have h2 := waitAvailable_clock _ _ _ _ _ _ _ hw2
        simp only [read_clock, readU32_clock, readU16_clock] at h2
        exact Nat.le_trans htx h2
      · rename_i ser2 hw2
        simp only [Option.some.injEq] at h; subst h
        have h2 := waitAvailable_clock _ _ _ _ _ _ _ hw2
        simp only [read_clock, readU32_clock, readU16_clock] at h2
        simp only [readU16_clock, readPayload_clock]
        exact Nat.le_trans htx h2

theorem simpleCommand_clock (fuel : Nat) (self : R503_Fingerprint) (packet : List Nat)
    (b : Bool) (s2 : R503_Fingerprint) (h : simpleCommand fuel self packet = some (b, s2)) :
    self.serial.clock ≤ s2.serial.clock := by
  rw [simpleCommand_eq] at h
  cases ha : receiveAck fuel { self with serial := { self.serial with
      tx := self.serial.tx ++ specFrame self.address 0x01 packet } } with
  | none => rw [ha] at h; simp at h
  | some a =>
    rw [ha] at h
    simp only [Option.map_some', Option.some.injEq, Prod.mk.injEq] at h
    rw [← h.2]
    unfold receiveAck at ha
    split at ha
    · simp at ha
    · rename_i r hr
      have hc := receivePacket_clock _ _ _ r hr
      split_ifs at ha
      · simp only [Option.some.injEq] at ha; subst ha; exact hc
      · simp only [Option.some.injEq] at ha; subst ha; exact hc
      · simp only [Option.some.injEq] at ha; subst ha; exact hc


theorem simpleCommand_failed (fuel : Nat) (s : R503_Fingerprint) (packet : List Nat)
    (a : Received) (ha : receiveAck fuel (commandSent s packet) = some a)
    (hk : a.ok = false ∨ (0 < a.length ∧ a.buffer.getD 0 0 ≠ 0x00)) :
    simpleCommand fuel s packet = some (false, a.self) := by
  rw [simpleCommand_ack fuel s packet a ha]
  rcases hk with k | ⟨kl, kc⟩
  · rw [k]; rfl
  · cases hok : a.ok with
    | false => rfl
    | true =>
      have hc := (receiveAck_code fuel _ a ha).1 hok kl
      have : decide (a.self.lastConfirmCode = R503_OK) = false := by
        rw [hc]; exact decide_eq_false kc
      rw [this]; rfl

theorem simpleCommand_true (fuel : Nat) (self : R503_Fingerprint) (packet : List Nat)
    (s2 : R503_Fingerprint) (h : simpleCommand fuel self packet = some (true, s2)) :
    s2.lastConfirmCode = R503_OK := by
  rw [simpleCommand_eq] at h
  cases ha : receiveAck fuel { self with serial := { self.serial with
      tx := self.serial.tx ++ specFrame self.address 0x01 packet } } with
  | none => rw [ha] at h; simp at h
  | some a =>
    rw [ha] at h
    simp only [Option.map_some', Option.some.injEq, Prod.mk.injEq, Bool.and_eq_true,
      decide_eq_true_eq] at h
    rw [← h.2]; exact h.1.2

theorem capture_step (fuel k : Nat) (s g : R503_Fingerprint) (b : Bool)
    (h : getImage fuel s = some (b, g)) :
    enrollFingerprintCapture fuel (k + 1) s =
      if b = false then enrollFingerprintCapture fuel k { g with serial := g.serial.delay 100 }
      else some g := by
  rw [enrollFingerprintCapture, h]

theorem capture_retries (fuel : Nat) :
    ∀ (k : Nat) (s c : R503_Fingerprint), enrollFingerprintCapture fuel k s = some c →
      ∃ j, j < k ∧
        c.serial.tx = s.serial.tx ++
          (List.replicate (j + 1) (specFrame s.address 0x01 [R503_GENIMG])).flatten ∧
        s.serial.clock + 100 * j ≤ c.serial.clock ∧
        c.lastConfirmCode = R503_OK ∧ c.address = s.address ∧
        ∀ log, (enrollFingerprintCaptureLog fuel k log s).1 = log ++ specCaptures j := by
  intro k
  induction k with
  | zero => intro s c h; simp [enrollFingerprintCapture] at h
  | succ k ih =>
    intro s c h
    cases hg : getImage fuel s with
    | none => rw [enrollFingerprintCapture, hg] at h; simp at h
    | some g =>
      obtain ⟨b, g⟩ := g
      rw [capture_step fuel k s g b hg] at h
      have hsent := simpleCommand_sent fuel s [R503_GENIMG] b g hg
      have hclock := simpleCommand_clock fuel s [R503_GENIMG] b g hg
      cases b with
      | false =>
        simp only [if_true] at h
        obtain ⟨j, hj, htx, hc, hok, ha, hlog⟩ := ih _ c h
        refine ⟨j + 1, by omega, ?_, ?_, hok, ?_, fun log => ?_⟩
        · rw [htx]
          show g.serial.tx ++ (List.replicate (j + 1) (specFrame g.address 0x01 [R503_GENIMG])).flatten = _
          rw [hsent.1, hsent.2]
          simp [List.replicate_succ]
        · have e : (g.serial.delay 100).clock = g.serial.clock + 100 := rfl
          have hc2 : g.serial.clock + 100 + 100 * j ≤ c.serial.clock := by
            rw [← e]; exact hc
          omega
        · rw [ha]; exact hsent.2
        · rw [enrollFingerprintCaptureLog, hg]
          simp only [if_true]
          rw [hlog]
          simp [specCaptures, List.replicate_succ]
      | true =>
        simp only [Bool.true_eq_false, if_false, Option.some.injEq] at h
        subst h
        refine ⟨0, by omega, ?_, by omega, simpleCommand_true fuel s _ _ hg, hsent.2, fun log => ?_⟩
        · rw [hsent.1]; simp
        · rw [enrollFingerprintCaptureLog, hg]
          simp [specCaptures]

theorem enroll_capture (fuel : Nat) (self : R503_Fingerprint) (pageID n : Nat) (b : Bool)
    (s2 : R503_Fingerprint) (h : enrollFingerprint fuel self pageID n = some (b, s2)) :
    ∃ c, enrollFingerprintCapture fuel fuel self = some c := by
  unfold enrollFingerprint at h
  cases hc : enrollFingerprintCapture fuel fuel self with
  | none => rw [hc] at h; simp at h
  | some c => exact ⟨c, rfl⟩

theorem failedCaptures_append (l1 l2 : List Exchange) :
    failedCaptures (l1 ++ l2) = failedCaptures l1 + failedCaptures l2 := by
  unfold failedCaptures
  rw [List.count_append]

theorem failedCaptures_captures (j : Nat) : failedCaptures (specCaptures j) = j := by
  unfold failedCaptures specCaptures
  rw [List.count_append, List.count_replicate_self]
  rfl

theorem failedCaptures_step (log : List Exchange) (e : Exchange)
    (h : e ≠ ([R503_GENIMG], false)) : failedCaptures (log ++ [e]) = failedCaptures log := by
  rw [failedCaptures_append]
  unfold failedCaptures
  rw [List.count_singleton]
  simp [h]

theorem capture_time (fuel k : Nat) (log : List Exchange) (s c : R503_Fingerprint)
    (h : (enrollFingerprintCaptureLog fuel k log s).2 = some c) :
    s.serial.clock + 100 * failedCaptures (enrollFingerprintCaptureLog fuel k log s).1 ≤
      c.serial.clock + 100 * failedCaptures log := by
  rw [enrollFingerprintCaptureLog_snd] at h
  obtain ⟨j, -, -, hc, -, -, hlog⟩ := capture_retries fuel k s c h
  rw [hlog log, failedCaptures_append, failedCaptures_captures]
  omega

theorem loop_time (fuel : Nat) :
    ∀ (m i n : Nat) (log : List Exchange) (self : R503_Fingerprint) (b : Bool)
      (s : R503_Fingerprint),
      (enrollFingerprintLoopLog fuel m i n log self).2 = some (b, s) →
      self.serial.clock + 100 * failedCaptures (enrollFingerprintLoopLog fuel m i n log self).1 ≤
        s.serial.clock + 100 * failedCaptures log := by
  intro m
  induction m with
  | zero =>
    intro i n log self b s h
    simp [enrollFingerprintLoopLog] at h
  | succ m ih =>
    intro i n log self b s h
    rw [enrollFingerprintLoopLog] at h ⊢
    by_cases hi : i < n
    · simp only [hi, if_true] at h ⊢
      cases hc : enrollFingerprintCaptureLog fuel fuel log self with
      | mk logc resc =>
        rw [hc] at h
        cases resc with
        | none => simp at h
        | some c =>
          have hcap := capture_time fuel fuel log self c (by rw [hc])
          rw [hc] at hcap
          simp only at hcap h ⊢
          cases ht : image2Tz fuel c R503_CHARBUFFER2 with
          | none => rw [ht] at h; simp at h
          | some t =>
            obtain ⟨bt, st⟩ := t
            have hct := simpleCommand_clock fuel c _ bt st ht
            have hl2 : failedCaptures (logc ++ [([R503_IMG2TZ, R503_CHARBUFFER2], bt)]) =
                failedCaptures logc := failedCaptures_step _ _ (by
                  intro e; cases bt <;> simp [R503_IMG2TZ, R503_GENIMG] at e)
            rw [ht] at h
            cases bt with
            | false =>
              simp only [if_true, Option.some.injEq, Prod.mk.injEq] at h ⊢
              rw [← h.2, hl2]
              omega
            | true =>
              simp only [Bool.true_eq_false, if_false] at h ⊢
              by_cases h1 : i = 1
              · subst h1
                simp only [if_true] at h ⊢
                cases hf : createModel fuel st with
                | none => rw [hf] at h; simp at h
                | some f =>
                  obtain ⟨bf, sf⟩ := f
                  have hcf := simpleCommand_clock fuel st _ bf sf hf
                  have hl3 : failedCaptures (logc ++ [([R503_IMG2TZ, R503_CHARBUFFER2], true)] ++
                      [([R503_REGMODEL], bf)]) = failedCaptures logc := by
                    rw [failedCaptures_step _ _ (by
                      intro e; cases bf <;> simp [R503_REGMODEL, R503_GENIMG] at e), hl2]
                  rw [hf] at h
                  cases bf with
                  | false =>
                    simp only [if_true, Option.some.injEq, Prod.mk.injEq] at h ⊢
                    rw [← h.2, hl3]
                    omega
                  | true =>
                    simp only [Bool.true_eq_false, if_false] at h ⊢
                    have := ih _ _ _ _ _ _ h
                    rw [hl3] at this
                    have hd : sf.serial.clock ≤
                        (if 1 < n - 1 then { sf with serial := sf.serial.delay 1000 }
                          else sf).serial.clock := by
                      split_ifs
                      · show sf.serial.clock ≤ sf.serial.clock + 1000; omega
                      · exact le_refl _
                    omega
              · simp only [h1, if_false, Bool.true_eq_false] at h ⊢
                have := ih _ _ _ _ _ _ h
                rw [hl2] at this
                have hd : st.serial.clock ≤
                    (if i < n - 1 then { st with serial := st.serial.delay 1000 }
                      else st).serial.clock := by
                  split_ifs
                  · show st.serial.clock ≤ st.serial.clock + 1000; omega
                  · exact le_refl _
                omega
    · simp only [hi, if_false, Option.some.injEq, Prod.mk.injEq] at h ⊢
      rw [← h.2]

theorem enroll_time (fuel : Nat) (self : R503_Fingerprint) (pageID n : Nat) (b : Bool)
    (s : R503_Fingerprint) (h : (enrollFingerprintLog fuel self pageID n).2 = some (b, s)) :
    self.serial.clock + 100 * failedCaptures (enrollFingerprintLog fuel self pageID n).1 ≤
      s.serial.clock := by
  unfold enrollFingerprintLog at h ⊢
  simp only at h ⊢
  generalize (if n < 2 ∨ n > 6 then 6 else n) = eff at h ⊢
  cases hc : enrollFingerprintCaptureLog fuel fuel [] self with
  | mk logc resc =>
    rw [hc] at h
    cases resc with
    | none => simp at h
    | some c =>
      have hcap := capture_time fuel fuel [] self c (by rw [hc])
      rw [hc] at hcap
      have h0 : failedCaptures [] = 0 := rfl
      rw [h0] at hcap
      simp only at hcap h ⊢
      cases ht : image2Tz fuel c R503_CHARBUFFER1 with
      | none => rw [ht] at h; simp at h
      | some t =>
        obtain ⟨bt, st⟩ := t
        have hct := simpleCommand_clock fuel c _ bt st ht
        have hl2 : failedCaptures (logc ++ [([R503_IMG2TZ, R503_CHARBUFFER1], bt)]) =
            failedCaptures logc := failedCaptures_step _ _ (by
              intro e; cases bt <;> simp [R503_IMG2TZ, R503_GENIMG] at e)
        rw [ht] at h
        cases bt with
        | false =>
          simp only [if_true, Option.some.injEq, Prod.mk.injEq] at h ⊢
          rw [← h.2, hl2]
          omega
        | true =>
          simp only [Bool.true_eq_false, if_false] at h ⊢
          cases hl : enrollFingerprintLoopLog fuel eff 1 eff
              (logc ++ [([R503_IMG2TZ, R503_CHARBUFFER1], true)])
              { st with serial := st.serial.delay 1000 } with
          | mk logl resl =>
            rw [hl] at h
            cases resl with
            | none => simp at h
            | some l =>
              obtain ⟨bl, sl⟩ := l
              have hloop := loop_time fuel eff 1 eff _ _ bl sl (by rw [hl])
              rw [hl, hl2] at hloop
              have hd : ({ st with serial := st.serial.delay 1000 } : R503_Fingerprint).serial.clock
                  = st.serial.clock + 1000 := rfl
              rw [hd] at hloop
              simp only at hloop h ⊢
              cases bl with
              | false =>
                simp only [if_true, Option.some.injEq, Prod.mk.injEq] at h ⊢
                rw [← h.2]
                omega
              | true =>
                simp only [Bool.true_eq_false, if_false] at h ⊢
                cases hst : storeModel fuel sl R503_CHARBUFFER1 pageID with
                | none => rw [hst] at h; simp at h
                | some stt =>
                  obtain ⟨bs, ss⟩ := stt
                  have hcs := simpleCommand_clock fuel sl _ bs ss hst
                  rw [hst] at h
                  simp only [Option.some.injEq, Prod.mk.injEq] at h ⊢
                  rw [← h.2, failedCaptures_step _ _ (by
                    intro e; cases bs <;> simp [R503_STORE, R503_GENIMG] at e)]
                  omega

/-- C16 (captures are retried, as the code has it). When `enrollFingerprint` returns `false`,
the last command of the run is an Img2Tz, RegModel or Store call that returned `false`, never
a capture, and the run began with a capture loop that ended with a successful capture. One
pass of the capture loop `while (!getImage()) { delay(100); }`: when `getImage` returns
`false` the loop pauses 100 ms and calls `getImage` again, when it returns `true` the loop
ends. `getImage` returns `false` whatever made the capture fail: a rejected or missing
acknowledgement, or any confirmation code other than 0x00. A capture loop that ends has sent
`j + 1` GenImg commands for some `j`, nothing else, took at least `100 * j` ms, logged `j`
failed captures and one successful capture, and leaves confirmation code 0x00. Every run of
`enrollFingerprint` that returns, with whatever result, took at least 100 ms for each of its
failed captures. -/
theorem C16_capture_retried (fuel : Nat) (self : R503_Fingerprint) (pageID n : Nat)
    (s2 : R503_Fingerprint) (h : enrollFingerprint fuel self pageID n = some (false, s2)) :
    (∃ init last, (enrollFingerprintLog fuel self pageID n).1 = init ++ [last] ∧
      last.2 = false ∧
      (commandCode last = R503_IMG2TZ ∨ commandCode last = R503_REGMODEL ∨
        commandCode last = R503_STORE) ∧
      s2.serial.tx = self.serial.tx ++
        (init ++ [last]).flatMap (fun x => specFrame self.address 0x01 x.1)) ∧
    (∃ c, enrollFingerprintCapture fuel fuel self = some c) ∧
    (∀ k s g, getImage fuel s = some (false, g) →
      enrollFingerprintCapture fuel (k + 1) s =
        enrollFingerprintCapture fuel k { g with serial := g.serial.delay 100 }) ∧
    (∀ k s g, getImage fuel s = some (true, g) →
      enrollFingerprintCapture fuel (k + 1) s = some g) ∧
    (∀ s a, receiveAck fuel (commandSent s [R503_GENIMG]) = some a →
      (a.ok = false ∨ (0 < a.length ∧ a.buffer.getD 0 0 ≠ 0x00)) →
      getImage fuel s = some (false, a.self)) ∧
    (∀ k s c, enrollFingerprintCapture fuel k s = some c →
      ∃ j, j < k ∧
        c.serial.tx = s.serial.tx ++
          (List.replicate (j + 1) (specFrame s.address 0x01 [R503_GENIMG])).flatten ∧
        s.serial.clock + 100 * j ≤ c.serial.clock ∧
        c.lastConfirmCode = R503_OK ∧
        (enrollFingerprintCaptureLog fuel k [] s).1 =
          List.replicate j ([R503_GENIMG], false) ++ [([R503_GENIMG], true)]) ∧
    (∀ b s, enrollFingerprint fuel self pageID n = some (b, s) →
      self.serial.clock + 100 * failedCaptures (enrollFingerprintLog fuel self pageID n).1 ≤
        s.serial.clock) := by
  have hres := enrollFingerprintLog_result fuel self pageID n
  rw [enrollFingerprintLog_snd, h] at hres
  obtain ⟨init, last, hl, _, hf, hs⟩ := hres
  refine ⟨⟨init, last, hl, hf.1, hf.2, ?_⟩, enroll_capture fuel self pageID n false s2 h,
    fun k s g hg => ?_, fun k s g hg => ?_, fun s a ha hk => ?_, fun k s c hc => ?_,
    fun b s hb => enroll_time fuel self pageID n b s (by rw [enrollFingerprintLog_snd, hb])⟩
  · rw [← hl]; exact hs.1
  · rw [capture_step fuel k s g false hg]; rfl
  · rw [capture_step fuel k s g true hg]; rfl
  · rw [getImage_eq]; exact simpleCommand_failed fuel s _ a ha hk
  · obtain ⟨j, hj, htx, hck, hok, _, hlog⟩ := capture_retries fuel k s c hc
    refine ⟨j, hj, htx, hck, hok, ?_⟩
    rw [hlog []]; rfl

/-- Instance of C16: a capture answered with code 0x03 is repeated after 100 ms, the second
capture succeeds, and the run ends with the failed extraction. -/
theorem C16_capture_retried_witness :
    enrollFingerprint 2 retriedCapture 5 2 = some (false, afterRetriedCapture) ∧
    enrollFingerprintCapture 2 2 retriedCapture = some afterRetry ∧
    (∃ init last, (enrollFingerprintLog 2 retriedCapture 5 2).1 = init ++ [last] ∧
      last.2 = false ∧
      (commandCode last = R503_IMG2TZ ∨ commandCode last = R503_REGMODEL ∨
        commandCode last = R503_STORE) ∧
      afterRetriedCapture.serial.tx = retriedCapture.serial.tx ++
        (init ++ [last]).flatMap (fun x => specFrame retriedCapture.address 0x01 x.1)) ∧
    (∃ j, j < 2 ∧
      afterRetry.serial.tx = retriedCapture.serial.tx ++
        (List.replicate (j + 1) (specFrame retriedCapture.address 0x01 [R503_GENIMG])).flatten ∧
      retriedCapture.serial.clock + 100 * j ≤ afterRetry.serial.clock ∧
      afterRetry.lastConfirmCode = R503_OK ∧
      (enrollFingerprintCaptureLog 2 2 [] retriedCapture).1 =
        List.replicate j ([R503_GENIMG], false) ++ [([R503_GENIMG], true)]) ∧
    failedCaptures (enrollFingerprintLog 2 retriedCapture 5 2).1 = 1 ∧
    retriedCapture.serial.clock +
        100 * failedCaptures (enrollFingerprintLog 2 retriedCapture 5 2).1 ≤
      afterRetriedCapture.serial.clock :=
  have h : enrollFingerprint 2 retriedCapture 5 2 = some (false, afterRetriedCapture) := by
    decide!
  have hc : enrollFingerprintCapture 2 2 retriedCapture = some afterRetry := by decide!
  ⟨h, hc, (C16_capture_retried 2 retriedCapture 5 2 afterRetriedCapture h).1,
    (C16_capture_retried 2 retriedCapture 5 2 afterRetriedCapture h).2.2.2.2.2.1 2
      retriedCapture afterRetry hc,
    by decide!,
    (C16_capture_retried 2 retriedCapture 5 2 afterRetriedCapture h).2.2.2.2.2.2 false
      afterRetriedCapture h⟩

/-- C20, counterexample: `R503_IMAGEQUALITY` and `R503_FEATUREFAIL` are the same number, so
the confirmation-code constants are not pairwise distinct. -/
theorem C20_counterexample :
    R503_IMAGEQUALITY = R503_FEATUREFAIL ∧ ¬ confirmationCodes.Pairwise (fun a b => a ≠ b) := by
  decide

/-- C20 (confirmation codes, as the header has them): the constants other than
`R503_IMAGEQUALITY` are pairwise distinct, `R503_IMAGEQUALITY` equals `R503_FEATUREFAIL`, and
the 26 names denote 25 numbers. -/
theorem C20_codes_distinct_but_alias :
    confirmationCodesBase.Pairwise (fun a b => a ≠ b) ∧
    R503_IMAGEQUALITY = R503_FEATUREFAIL ∧
    confirmationCodes.dedup.length = 25 := by
  decide

/-- C11 (stray bytes between two data frames): on a Data frame `[1, 2, 3]`, two stray bytes
and an EndOfData frame `[4, 5]`, `receiveData` returns `true` with the 3 bytes of the first
frame only; the stray bytes and the whole EndOfData frame are left unread. -/
theorem C11_noise_not_skipped :
    (receiveData 2 (withRx freshSession noisyTransfer) 1024).map
        (fun r => (r.ok, r.actualLength, r.buffer, r.self.serial.rx))
      = some (true, 3, [1, 2, 3], [0x00, 0x00] ++ specFrame 0xFFFFFFFF 0x08 [4, 5]) := by
  decide

/-- C12 (enrollment success criterion): with five acknowledgements 0x00 followed by an
acknowledgement without payload for the Store command, `enrollFingerprint(5, 2)` sends
GenImg, Img2Tz(1), GenImg, Img2Tz(2), RegModel, Store(1, 5) and returns `true`, although the
Store command was never acknowledged with 0x00. -/
theorem C12_store_without_confirmation :
    (enrollFingerprint 1 (withRx freshSession (okAcks 5 ++ emptyAck)) 5 2).map
        (fun r => (r.1, r.2.serial.tx, r.2.serial.rx))
      = some (true, specCommands 0xFFFFFFFF
          [[0x01], [0x02, 0x01], [0x01], [0x02, 0x02], [0x05], [0x06, 0x01, 0x00, 0x05]], []) := by
  decide

/-- C14, counterexample: with a requested sample count of 1, where clamping to 2..6 gives 2,
the successful run sends six Img2Tz commands. -/
theorem C14_counterexample :
    (enrollFingerprint 1 (withRx freshSession (okAcks 14)) 5 1).map
        (fun r => (r.1, r.2.serial.tx))
      = some (true, specCommands 0xFFFFFFFF
          [[0x01], [0x02, 0x01], [0x01], [0x02, 0x02], [0x05], [0x01], [0x02, 0x02],
           [0x01], [0x02, 0x02], [0x01], [0x02, 0x02], [0x01], [0x02, 0x02],
           [0x06, 0x01, 0x00, 0x05]]) ∧
    countCode R503_IMG2TZ (enrollFingerprintLog 1 (withRx freshSession (okAcks 14)) 5 1).1 = 6 ∧
    min (max 1 2) 6 = 2 := by
  decide!

/-- C15, counterexample: a successful enrollment with a sample count of 3 (three Img2Tz
commands) sends RegModel once, after the second extraction, and not again after the third:
one fusion command, not two. -/
theorem C15_counterexample :
    (enrollFingerprint 1 (withRx freshSession (okAcks 8)) 5 3).map
        (fun r => (r.1, r.2.serial.tx))
      = some (true, specCommands 0xFFFFFFFF
          [[0x01], [0x02, 0x01], [0x01], [0x02, 0x02], [0x05], [0x01], [0x02, 0x02],
           [0x06, 0x01, 0x00, 0x05]]) ∧
    countCode R503_REGMODEL (enrollFingerprintLog 1 (withRx freshSession (okAcks 8)) 5 3).1 = 1 ∧
    countCode R503_IMG2TZ (enrollFingerprintLog 1 (withRx freshSession (okAcks 8)) 5 3).1 = 3 := by
  decide!

/-- C16, counterexample: a capture answered with code 0x03 (imaging failure, not "no
finger") is retried, and the enrollment goes on to return `true`. -/
theorem C16_counterexample :
    (enrollFingerprint 2 (withRx freshSession (specFrame 0xFFFFFFFF 0x07 [0x03] ++ okAcks 6)) 5 2).map
        (fun r => (r.1, r.2.serial.tx))
      = some (true, specCommands 0xFFFFFFFF
          [[0x01], [0x01], [0x02, 0x01], [0x01], [0x02, 0x02], [0x05],
           [0x06, 0x01, 0x00, 0x05]]) := by
  decide!

/-! ## Verification -/

theorem getD_byte (l : List Nat) (h : ∀ b ∈ l, b < 256) (i : Nat) : l.getD i 0 < 256 := by
  by_cases hi : i < l.length
  · rw [List.getD_eq_getElem _ _ hi]
    exact h _ (List.getElem_mem hi)
  · rw [List.getD_eq_default _ _ (by omega)]
    decide

theorem be16 (hi lo : Nat) (h1 : hi < 256) (h2 : lo < 256) :
    ((hi <<< 8) ||| lo) % 65536 = hi * 256 + lo := by
  have h := or_eq_add 8 hi lo h2
  rw [show (2:Nat) ^ 8 = 256 from rfl] at h
  rw [Nat.shiftLeft_eq, show (2:Nat) ^ 8 = 256 from rfl, Nat.mul_comm, h]
  omega

theorem simpleCommand_ok (fuel : Nat) (self : R503_Fingerprint) (packet : List Nat)
    (a : Received) (h : receiveAck fuel (commandSent self packet) = some a)
    (k : AcknowledgedOk a) :
    simpleCommand fuel self packet = some (true, a.self) ∧ a.self.lastConfirmCode = R503_OK ∧
      Sent self [(packet, true)] a.self := by
  have hc := (receiveAck_code fuel _ a h).1 k.1 k.2.1
  rw [k.2.2] at hc
  have h1 := simpleCommand_ack fuel self packet a h
  rw [k.1, hc] at h1
  have h2 : simpleCommand fuel self packet = some (true, a.self) := by rw [h1]; rfl
  exact ⟨h2, hc, simpleCommand_sent fuel self packet true a.self h2⟩

theorem readSystemParameters_ack (fuel : Nat) (self : R503_Fingerprint)
    (params : R503_SystemParams) (a : Received)
    (h : receiveAck fuel (commandSent self [R503_READSYSPARA]) = some a) :
    ∃ q, readSystemParameters fuel self params =
        some (decide (a.ok = true ∧ a.self.lastConfirmCode = R503_OK ∧ 17 ≤ a.length), q,
          a.self) ∧
      (a.ok = true → a.self.lastConfirmCode = R503_OK → 17 ≤ a.length →
        q.librarySize = ((a.buffer.getD 5 0 <<< 8) ||| a.buffer.getD 6 0) % 65536) := by
  unfold commandSent at h
  have hs : sendPacket self R503_COMMAND_PACKET [R503_READSYSPARA] 1 = _ :=
    sendPacket_eq self R503_COMMAND_PACKET [R503_READSYSPARA]
  unfold readSystemParameters
  simp only [List.length] at h
  rw [hs] at h
  simp only [hs]
  simp only at h ⊢
  rw [h]
  by_cases hok : a.ok = false
  · simp [hok]
  · have hok2 : a.ok = true := by simpa using hok
    by_cases hc : a.self.lastConfirmCode = R503_OK ∧ a.length ≥ 17
    · simp [hok2, hc.1, hc.2]
    · simp only [hok2, hc]
      rcases not_and_or.1 hc with c | c
      · simp [c]
      · simp [c]

theorem searchLibrary_ack (fuel : Nat) (self : R503_Fingerprint) (slot startPage count : Nat)
    (fingerID score : Nat) (a : Received)
    (h : receiveAck fuel (commandSent self [R503_SEARCH, slot, (startPage >>> 8) &&& 0xFF,
      startPage &&& 0xFF, (count >>> 8) &&& 0xFF, count &&& 0xFF]) = some a) :
    searchLibrary fuel self slot startPage count fingerID score =
      if a.ok = true ∧ a.self.lastConfirmCode = R503_OK ∧ 5 ≤ a.length then
        some (true, ((a.buffer.getD 1 0 <<< 8) ||| a.buffer.getD 2 0) % 65536,
          ((a.buffer.getD 3 0 <<< 8) ||| a.buffer.getD 4 0) % 65536, a.self)
      else some (false, fingerID, score, a.self) := by
  unfold commandSent at h
  have hs : sendPacket self R503_COMMAND_PACKET [R503_SEARCH, slot,
      (startPage >>> 8) &&& 0xFF, startPage &&& 0xFF, (count >>> 8) &&& 0xFF, count &&& 0xFF] 6
      = _ := sendPacket_eq self R503_COMMAND_PACKET [R503_SEARCH, slot,
    (startPage >>> 8) &&& 0xFF, startPage &&& 0xFF, (count >>> 8) &&& 0xFF, count &&& 0xFF]
  unfold searchLibrary
  simp only [List.length] at h
  rw [hs] at h
  simp only [hs]
  simp only at h ⊢
  rw [h]
  by_cases hok : a.ok = false
  · simp [hok]
  · have hok2 : a.ok = true := by simpa using hok
    by_cases hc : a.self.lastConfirmCode = R503_OK ∧ a.length ≥ 5
    · simp [hok2, hc.1, hc.2]
    · simp only [hok2, hc]
      rcases not_and_or.1 hc with c | c
      · simp [c]
      · simp [c]


theorem verifyFingerprint_search (fuel : Nat) (self : R503_Fingerprint)
    (fingerID confidence : Nat) (a1 a2 a3 : Received)
    (h1 : receiveAck fuel (commandSent self [R503_GENIMG]) = some a1)
    (k1 : AcknowledgedOk a1)
    (h2 : receiveAck fuel (commandSent a1.self [R503_IMG2TZ, R503_CHARBUFFER1]) = some a2)
    (k2 : AcknowledgedOk a2)
    (h3 : receiveAck fuel (commandSent a2.self [R503_READSYSPARA]) = some a3)
    (k3 : AcknowledgedOk a3) (hb3 : ∀ b ∈ a3.buffer, b < 256) :
    (17 ≤ a3.length →
      verifyFingerprint fuel self fingerID confidence =
        searchLibrary fuel a3.self R503_CHARBUFFER1 0 (specLibrarySize a3.buffer)
          fingerID confidence) ∧
    (a3.length < 17 →
      verifyFingerprint fuel self fingerID confidence =
        some (false, fingerID, confidence, a3.self)) ∧
    Sent self [([R503_GENIMG], true), ([R503_IMG2TZ, R503_CHARBUFFER1], true)] a2.self ∧
    a3.self.serial.tx = a2.self.serial.tx ++ specFrame a2.self.address 0x01 [R503_READSYSPARA] ∧
    a3.self.address = self.address ∧ a3.self.lastConfirmCode = R503_OK := by
  obtain ⟨g1, c1, s1⟩ := simpleCommand_ok fuel self _ a1 h1 k1
  obtain ⟨g2, c2, s2⟩ := simpleCommand_ok fuel a1.self _ a2 h2 k2
  have c3 := (receiveAck_code fuel _ a3 h3).1 k3.1 k3.2.1
  rw [k3.2.2] at c3
  have c3 : a3.self.lastConfirmCode = R503_OK := c3
  have p3 := receiveAck_preserves fuel _ a3 h3
  have hsent : (commandSent a2.self [R503_READSYSPARA]).serial.tx =
      a2.self.serial.tx ++ specFrame a2.self.address 0x01 [R503_READSYSPARA] ∧
      (commandSent a2.self [R503_READSYSPARA]).address = a2.self.address := by
    unfold commandSent; rw [sendPacket_eq]; exact ⟨rfl, rfl⟩
  have s12 := Sent.trans s1 s2
  refine ⟨fun hl => ?_, fun hl => ?_, s12, ?_, ?_, c3⟩
  · obtain ⟨q, hq, hL⟩ := readSystemParameters_ack fuel a2.self ⟨0, 0, 0, 0, 0, 0, 0⟩ a3 h3
    have hd : decide (a3.ok = true ∧ a3.self.lastConfirmCode = R503_OK ∧ 17 ≤ a3.length)
        = true := by simp [k3.1, c3, hl]
    rw [hd] at hq
    unfold verifyFingerprint
    rw [getImage_eq, g1]
    simp only
    rw [image2Tz_eq, g2]
    simp only
    rw [hq]
    simp only
    rw [hL k3.1 c3 hl, be16 _ _ (getD_byte _ hb3 5) (getD_byte _ hb3 6)]
    rfl
  · obtain ⟨q, hq, _⟩ := readSystemParameters_ack fuel a2.self ⟨0, 0, 0, 0, 0, 0, 0⟩ a3 h3
    have hd : decide (a3.ok = true ∧ a3.self.lastConfirmCode = R503_OK ∧ 17 ≤ a3.length)
        = false := by simp [k3.1, c3, hl]
    rw [hd] at hq
    unfold verifyFingerprint
    rw [getImage_eq, g1]
    simp only
    rw [image2Tz_eq, g2]
    simp only
    rw [hq]
    rfl
  · rw [p3.1, hsent.1]
  · rw [p3.2.1, hsent.2, s12.2]


theorem searchPayload_eq (L : Nat) (hL : L < 65536) :
    [R503_SEARCH, R503_CHARBUFFER1, ((0 : Nat) >>> 8) &&& 0xFF, (0 : Nat) &&& 0xFF,
      (L >>> 8) &&& 0xFF, L &&& 0xFF] = specSearchPayload L := by
  unfold specSearchPayload
  have h : (L >>> 8) &&& 0xFF = L >>> 8 := by
    rw [and_0xFF, shr_8]; omega
  rw [h]; rfl

theorem specLibrarySize_lt (payload : List Nat) (h : ∀ b ∈ payload, b < 256) :
    specLibrarySize payload < 65536 := by
  unfold specLibrarySize
  have h5 := getD_byte payload h 5
  have h6 := getD_byte payload h 6
  omega

/-- C17, counterexample: capture, extraction and ReadSysPara are all acknowledged 0x00, the
ReadSysPara payload has 7 bytes (so that bytes 5..6 exist), and `verifyFingerprint` returns
`false` without sending a Search command. -/
theorem C17_counterexample :
    (verifyFingerprint 1 (verifyInput [0x00, 0x00, 0x00, 0x00, 0x00, 0x00, 0xC8] []) 0 0).map
        (fun r => (r.1, r.2.2.2.lastConfirmCode, r.2.2.2.serial.tx))
      = some (false, 0x00, specCommands 0xFFFFFFFF [[0x01], [0x02, 0x01], [0x0F]]) := by
  decide

/-- C17 (verification searches the whole library, as the code has it): when the four
exchanges are acknowledged 0x00, the ReadSysPara payload has at least 17 bytes and the Search
payload at least 5, `verifyFingerprint` writes exactly the frames of GenImg, Img2Tz(1),
ReadSysPara and Search with payload `[0x04, 0x01, 0x00, 0x00, L >> 8, L & 0xFF]`, `L` decoded
big-endian from bytes 5..6 of the ReadSysPara payload, and returns `true` with the identifier
and the confidence decoded big-endian from bytes 1..2 and 3..4 of the Search payload. -/
theorem C17_verification_searches_library (fuel : Nat) (self : R503_Fingerprint)
    (fingerID confidence : Nat) (a1 a2 a3 a4 : Received)
    (h1 : receiveAck fuel (commandSent self [R503_GENIMG]) = some a1)
    (k1 : AcknowledgedOk a1)
    (h2 : receiveAck fuel (commandSent a1.self [R503_IMG2TZ, R503_CHARBUFFER1]) = some a2)
    (k2 : AcknowledgedOk a2)
    (h3 : receiveAck fuel (commandSent a2.self [R503_READSYSPARA]) = some a3)
    (k3 : AcknowledgedOk a3) (hl3 : 17 ≤ a3.length) (hb3 : ∀ b ∈ a3.buffer, b < 256)
    (h4 : receiveAck fuel (commandSent a3.self (specSearchPayload (specLibrarySize a3.buffer)))
      = some a4)
    (k4 : AcknowledgedOk a4) (hl4 : 5 ≤ a4.length) (hb4 : ∀ b ∈ a4.buffer, b < 256) :
    verifyFingerprint fuel self fingerID confidence =
      some (true, specFingerID a4.buffer, specConfidence a4.buffer, a4.self) ∧
    a4.self.serial.tx = self.serial.tx ++ specCommands self.address
      [[0x01], [0x02, 0x01], [0x0F], specSearchPayload (specLibrarySize a3.buffer)] := by
  obtain ⟨hv, _, hs, ht3, had3, _⟩ :=
    verifyFingerprint_search fuel self fingerID confidence a1 a2 a3 h1 k1 h2 k2 h3 k3 hb3
  have hL := specLibrarySize_lt a3.buffer hb3
  have c4 := (receiveAck_code fuel _ a4 h4).1 k4.1 k4.2.1
  rw [k4.2.2] at c4
  have c4 : a4.self.lastConfirmCode = R503_OK := c4
  have p4 := receiveAck_preserves fuel _ a4 h4
  have hsent : (commandSent a3.self (specSearchPayload (specLibrarySize a3.buffer))).serial.tx
      = a3.self.serial.tx ++
        specFrame a3.self.address 0x01 (specSearchPayload (specLibrarySize a3.buffer)) := by
    unfold commandSent; rw [sendPacket_eq]; rfl
  constructor
  · rw [hv hl3]
    rw [← searchPayload_eq _ hL] at h4
    rw [searchLibrary_ack fuel a3.self R503_CHARBUFFER1 0 _ fingerID confidence a4 h4]
    rw [if_pos ⟨k4.1, c4, hl4⟩]
    rw [be16 _ _ (getD_byte _ hb4 1) (getD_byte _ hb4 2),
      be16 _ _ (getD_byte _ hb4 3) (getD_byte _ hb4 4)]
    rfl
  · rw [p4.1, hsent, ht3, hs.1, had3, hs.2]
    simp [specCommands, R503_GENIMG, R503_IMG2TZ, R503_CHARBUFFER1, R503_READSYSPARA]

/-- Instance of C17: library size 200, match 5 with score 100. -/
theorem C17_verification_searches_library_witness :
    verifyFingerprint 1 (verifyInput parametersPayload (specFrame 0xFFFFFFFF 0x07 foundPayload))
        0 0 =
      some (true, 5, 100, (verifyStep foundPayload []
        [[0x01], [0x02, 0x01], [0x0F], [0x04, 0x01, 0x00, 0x00, 0x00, 0xC8]] 0x00).self) :=
  (C17_verification_searches_library 1
    (verifyInput parametersPayload (specFrame 0xFFFFFFFF 0x07 foundPayload)) 0 0
    (verifyStep [0x00]
      (okAck ++ specFrame 0xFFFFFFFF 0x07 parametersPayload ++
        specFrame 0xFFFFFFFF 0x07 foundPayload) [[0x01]] 0x00)
    (verifyStep [0x00]
      (specFrame 0xFFFFFFFF 0x07 parametersPayload ++ specFrame 0xFFFFFFFF 0x07 foundPayload)
      [[0x01], [0x02, 0x01]] 0x00)
    (verifyStep parametersPayload (specFrame 0xFFFFFFFF 0x07 foundPayload)
      [[0x01], [0x02, 0x01], [0x0F]] 0x00)
    (verifyStep foundPayload []
      [[0x01], [0x02, 0x01], [0x0F], [0x04, 0x01, 0x00, 0x00, 0x00, 0xC8]] 0x00)
    (by decide) (by decide) (by decide) (by decide) (by decide) (by decide) (by decide)
    (by decide) (by decide) (by decide) (by decide) (by decide)).1

/-- C18, counterexample: after a successful capture, extraction and parameter read,
`verifyFingerprint` returns `false` with untouched outputs both when the Search
acknowledgement carries 0x09 and when its checksum is wrong. -/
theorem C18_counterexample :
    (verifyFingerprint 1 (verifyInput parametersPayload (specFrame 0xFFFFFFFF 0x07 [0x09]))
        0 0).map (fun r => (r.1, r.2.1, r.2.2.1)) = some (false, 0, 0) ∧
    (verifyFingerprint 1 (verifyInput parametersPayload badChecksumAck) 0 0).map
        (fun r => (r.1, r.2.1, r.2.2.1)) = some (false, 0, 0) := by
  decide

/-- C18 (no match and transport failure, as the code has it): when capture, extraction and
the system-parameter read succeed, `verifyFingerprint` returns `false` and leaves the outputs
unchanged both when the Search exchange fails on the transport and when its acknowledgement
carries 0x09; the two cases differ in `lastConfirmCode` only, which stays 0x00 in the first
and is 0x09 in the second. -/
theorem C18_search_failures_return_false (fuel : Nat) (self : R503_Fingerprint)
    (fingerID confidence : Nat) (a1 a2 a3 a4 : Received)
    (h1 : receiveAck fuel (commandSent self [R503_GENIMG]) = some a1)
    (k1 : AcknowledgedOk a1)
    (h2 : receiveAck fuel (commandSent a1.self [R503_IMG2TZ, R503_CHARBUFFER1]) = some a2)
    (k2 : AcknowledgedOk a2)
    (h3 : receiveAck fuel (commandSent a2.self [R503_READSYSPARA]) = some a3)
    (k3 : AcknowledgedOk a3) (hl3 : 17 ≤ a3.length) (hb3 : ∀ b ∈ a3.buffer, b < 256)
    (h4 : receiveAck fuel (commandSent a3.self (specSearchPayload (specLibrarySize a3.buffer)))
      = some a4)
    (k4 : a4.ok = false ∨ (a4.ok = true ∧ 0 < a4.length ∧ a4.buffer.getD 0 0 = R503_NOTFOUND)) :
    verifyFingerprint fuel self fingerID confidence =
      some (false, fingerID, confidence, a4.self) ∧
    (a4.ok = false → a4.self.lastConfirmCode = R503_OK) ∧
    (a4.ok = true → a4.self.lastConfirmCode = R503_NOTFOUND) := by
  obtain ⟨hv, _, hs, ht3, had3, c3⟩ :=
    verifyFingerprint_search fuel self fingerID confidence a1 a2 a3 h1 k1 h2 k2 h3 k3 hb3
  have hL := specLibrarySize_lt a3.buffer hb3
  have c4 := receiveAck_code fuel _ a4 h4
  have hcs : (commandSent a3.self (specSearchPayload (specLibrarySize a3.buffer))).lastConfirmCode
      = a3.self.lastConfirmCode := by
    unfold commandSent; rw [sendPacket_eq]
  rw [hcs, c3] at c4
  rw [hv hl3]
  rw [← searchPayload_eq _ hL] at h4
  rw [searchLibrary_ack fuel a3.self R503_CHARBUFFER1 0 _ fingerID confidence a4 h4]
  rcases k4 with k | ⟨k, kl, kc⟩
  · refine ⟨?_, c4.2, fun h => ?_⟩
    · rw [if_neg (fun h => by rw [k] at h; exact absurd h.1 (by decide))]
    · rw [k] at h; exact absurd h (by decide)
  · have c := c4.1 k kl
    rw [kc] at c
    refine ⟨?_, fun h => ?_, fun _ => c⟩
    · rw [if_neg (fun h => by rw [c] at h; exact absurd h.2.1 (by decide))]
    · rw [k] at h; exact absurd h (by decide)

/-- Instance of C18: the Search acknowledgement carries 0x09. -/
theorem C18_search_failures_return_false_witness :
    verifyFingerprint 1 (verifyInput parametersPayload (specFrame 0xFFFFFFFF 0x07 [0x09]))
        0 0 =
      some (false, 0, 0, (verifyStep [0x09] []
        [[0x01], [0x02, 0x01], [0x0F], [0x04, 0x01, 0x00, 0x00, 0x00, 0xC8]] 0x09).self) :=
  (C18_search_failures_return_false 1
    (verifyInput parametersPayload (specFrame 0xFFFFFFFF 0x07 [0x09])) 0 0
    (verifyStep [0x00]
      (okAck ++ specFrame 0xFFFFFFFF 0x07 parametersPayload ++
        specFrame 0xFFFFFFFF 0x07 [0x09]) [[0x01]] 0x00)
    (verifyStep [0x00]
      (specFrame 0xFFFFFFFF 0x07 parametersPayload ++ specFrame 0xFFFFFFFF 0x07 [0x09])
      [[0x01], [0x02, 0x01]] 0x00)
    (verifyStep parametersPayload (specFrame 0xFFFFFFFF 0x07 [0x09])
      [[0x01], [0x02, 0x01], [0x0F]] 0x00)
    (verifyStep [0x09] []
      [[0x01], [0x02, 0x01], [0x0F], [0x04, 0x01, 0x00, 0x00, 0x00, 0xC8]] 0x09)
    (by decide) (by decide) (by decide) (by decide) (by decide) (by decide) (by decide)
    (by decide) (by decide) (Or.inr (by decide))).1

/-! ## Initialization -/

theorem takeWhile_arrived (bytes : List Nat) (t c : Nat) (h : t ≤ c) :
    (bytes.map (fun b => (t, b))).takeWhile (fun p => decide (p.1 ≤ c)) =
      bytes.map (fun b => (t, b)) ∧
    (bytes.map (fun b => (t, b))).dropWhile (fun p => decide (p.1 ≤ c)) = [] := by
  induction bytes with
  | nil => simp
  | cons b rest ih => simp [List.takeWhile, List.dropWhile, h, ih.1, ih.2]

theorem takeWhile_in_flight (bytes : List Nat) (t c : Nat) (h : c < t) :
    (bytes.map (fun b => (t, b))).takeWhile (fun p => decide (p.1 ≤ c)) = [] ∧
    (bytes.map (fun b => (t, b))).dropWhile (fun p => decide (p.1 ≤ c)) =
      bytes.map (fun b => (t, b)) := by
  cases bytes with
  | nil => simp
  | cons b rest => simp [List.takeWhile, List.dropWhile, Nat.not_le.2 h]

theorem waitAvailable_arrival (bytes : List Nat) (t startTime need limit : Nat) :
    ∀ (d fuel : Nat) (ser : HardwareSerial),
      ser.incoming = bytes.map (fun b => (t, b)) → ser.clock + (d + 1) = t →
      ser.rx.length < need → need ≤ ser.rx.length + bytes.length →
      startTime ≤ ser.clock → t < 2 ^ 32 → t ≤ startTime + limit + 1 →
      waitAvailable (fuel + d + 2) ser startTime need limit =
        some (true, { ser with rx := ser.rx ++ bytes, incoming := [], clock := t }) := by
  intro d
  induction d with
  | zero =>
    intro fuel ser hin hc hrx hneed hst ht hlim
    have hm : ser.millis = ser.clock := by
      unfold HardwareSerial.millis; exact Nat.mod_eq_of_lt (by omega)
    have hel : ¬ (ser.millis + 2 ^ 32 - startTime) % 2 ^ 32 > limit := by
      rw [hm]
      have : (ser.clock + 2 ^ 32 - startTime) % 2 ^ 32 = ser.clock - startTime := by
        rw [show ser.clock + 2 ^ 32 - startTime = (ser.clock - startTime) + 2 ^ 32 by omega,
          Nat.add_mod_right]
        exact Nat.mod_eq_of_lt (by omega)
      rw [this]; omega
    have hd : ser.delay 1 = { ser with rx := ser.rx ++ bytes, incoming := [], clock := t } := by
      unfold HardwareSerial.delay
      have hc1 : ser.clock + 1 = t := by omega
      simp only [hin, hc1]
      rw [(takeWhile_arrived bytes t t (Nat.le_refl t)).1,
        (takeWhile_arrived bytes t t (Nat.le_refl t)).2]
      simp
    show waitAvailable (fuel + 1 + 1) ser startTime need limit = _
    rw [waitAvailable]
    simp only [HardwareSerial.available, hrx, if_true, hel, if_false]
    rw [hd, waitAvailable]
    simp only [HardwareSerial.available]
    rw [if_neg (by simp; omega)]
  | succ d ih =>
    intro fuel ser hin hc hrx hneed hst ht hlim
    have hm : ser.millis = ser.clock := by
      unfold HardwareSerial.millis; exact Nat.mod_eq_of_lt (by omega)
    have hel : ¬ (ser.millis + 2 ^ 32 - startTime) % 2 ^ 32 > limit := by
      rw [hm]
      have : (ser.clock + 2 ^ 32 - startTime) % 2 ^ 32 = ser.clock - startTime := by
        rw [show ser.clock + 2 ^ 32 - startTime = (ser.clock - startTime) + 2 ^ 32 by omega,
          Nat.add_mod_right]
        exact Nat.mod_eq_of_lt (by omega)
      rw [this]; omega
    have hd : ser.delay 1 = { ser with clock := ser.clock + 1 } := by
      unfold HardwareSerial.delay
      simp only [hin]
      rw [(takeWhile_in_flight bytes t (ser.clock + 1) (by omega)).1,
        (takeWhile_in_flight bytes t (ser.clock + 1) (by omega)).2]
      simp [hin]
    show waitAvailable (fuel + d + 2 + 1) ser startTime need limit = _
    rw [waitAvailable]
    simp only [HardwareSerial.available, hrx, if_true, hel, if_false]
    rw [hd, ih fuel { ser with clock := ser.clock + 1 } hin (by simp; omega) hrx hneed
      (by simp; omega) ht hlim]


theorem okAck_frame : okAck = specFrame 0xFFFFFFFF 0x07 [0x00] ++ [] := by decide

theorem handshakeFrame_eq : handshakeFrame = specFrame 0xFFFFFFFF 0x01 [R503_HANDSHAKE] := by
  decide

theorem delay_wake (bytes : List Nat) (tw t c b : Nat) (hw : tw ≤ c) (ht : c < t) :
    HardwareSerial.delay ⟨[], (tw, b) :: bytes.map (fun x => (t, x)), [], 0⟩ c =
      ⟨[b], bytes.map (fun x => (t, x)), [], c⟩ := by
  unfold HardwareSerial.delay
  simp only [Nat.zero_add, List.takeWhile_cons, List.dropWhile_cons, hw, decide_True, if_true]
  rw [(takeWhile_in_flight bytes t c ht).1, (takeWhile_in_flight bytes t c ht).2]
  rfl

theorem beginWakeLoop_wake (n : Nat) (ser : HardwareSerial) (rest : List Nat)
    (h : ser.rx = 0x55 :: rest) :
    beginWakeLoop (n + 1) ser ser.millis = some { ser with rx := rest } := by
  rw [beginWakeLoop]
  have h0 : (ser.millis + 2 ^ 32 - ser.millis) % 2 ^ 32 = 0 := by
    rw [Nat.add_sub_cancel_left, Nat.mod_self]
  rw [h0, if_pos (by omega)]
  simp only [HardwareSerial.available, HardwareSerial.read, h, List.length_cons, ne_eq,
    Nat.add_one_ne_zero, not_false_eq_true, if_true]

theorem begin_wake (tw t : Nat) (hw : tw ≤ 200) (ht : 200 < t) :
    beginWakeLoop 101 ((handshakeTransport tw t).delay R503_RESET_DELAY)
        ((handshakeTransport tw t).delay R503_RESET_DELAY).millis =
      some ⟨[], okAck.map (fun b => (t, b)), [], 200⟩ := by
  have hd : (handshakeTransport tw t).delay R503_RESET_DELAY =
      ⟨[0x55], okAck.map (fun b => (t, b)), [], 200⟩ :=
    delay_wake okAck tw t 200 0x55 hw ht
  rw [hd]
  exact beginWakeLoop_wake 100 ⟨[0x55], okAck.map (fun b => (t, b)), [], 200⟩ [] rfl

theorem simpleCommand_arrival (f d t : Nat) (S : R503_Fingerprint) (packet : List Nat)
    (hrx : S.serial.rx = []) (hin : S.serial.incoming = okAck.map (fun b => (t, b)))
    (hc : S.serial.clock + (d + 1) = t) (ht : t < 2 ^ 32)
    (hlim : t ≤ S.serial.clock + S.timeout + 1) (ha : S.address = 0xFFFFFFFF) :
    simpleCommand (f + d + 2) S packet =
      some (true, { S with
        serial := ⟨[], [], S.serial.tx ++ specFrame S.address 0x01 packet, t⟩,
        lastConfirmCode := 0x00 }) := by
  rw [simpleCommand_eq]
  have hmil : S.serial.millis = S.serial.clock := by
    unfold HardwareSerial.millis; exact Nat.mod_eq_of_lt (by omega)
  have hwait := waitAvailable_arrival okAck t S.serial.clock 9 S.timeout d f
    { S.serial with tx := S.serial.tx ++ specFrame S.address 0x01 packet } hin hc
    (by show S.serial.rx.length < 9; rw [hrx]; decide)
    (by show 9 ≤ S.serial.rx.length + okAck.length; rw [hrx]; decide)
    (Nat.le_refl _) ht hlim
  unfold receiveAck
  rw [receivePacket_after_wait (f + d + 2) _ R503_ACK_PACKET _
    (by
      show waitAvailable (f + d + 2) _ S.serial.millis 9 S.timeout = _
      rw [hmil]; exact hwait)]
  rw [show f + d + 2 = (f + d + 1) + 1 from rfl]
  rw [receivePacket_frame (f + d + 1) _ 0x07 R503_ACK_PACKET [0x00] []
    (by decide) (by show S.address < 2 ^ 32; rw [ha]; norm_num) (by decide)
    (by
      show S.serial.rx ++ okAck = specFrame S.address 0x07 [0x00] ++ []
      rw [hrx, ha]; exact okAck_frame)]
  simp [withRx, R503_ACK_PACKET, R503_OK]

theorem begin_default (fuel baud : Nat) (self : R503_Fingerprint) (ser1 ser2 : HardwareSerial)
    (h1 : self.serial.delay R503_RESET_DELAY = ser1)
    (h2 : beginWakeLoop 101 ser1 ser1.millis = some ser2) (h3 : ser2.rx = []) :
    begin fuel self baud R503_DEFAULT_PASSWORD R503_DEFAULT_ADDRESS =
      handshake fuel
        { self with serial := ser2, password := R503_DEFAULT_PASSWORD, address := R503_DEFAULT_ADDRESS } := by
  unfold begin
  simp only [h1, h2]
  simp only [clearSerialBuffer, HardwareSerial.available, h3, List.length,
    clearSerialBufferLoop, ne_eq, not_true_eq_false, if_false]

theorem handshake_sent (t : Nat) :
    ({ wakeState t with
        serial := ⟨[], [], (wakeState t).serial.tx ++
          specFrame (wakeState t).address 0x01 [R503_HANDSHAKE], t⟩,
        lastConfirmCode := 0x00 } : R503_Fingerprint) = afterBegin t 0x00 := by
  have h : ([] : List Nat) ++ specFrame R503_DEFAULT_ADDRESS 0x01 [R503_HANDSHAKE] =
      handshakeFrame := by decide
  unfold afterBegin
  rw [← h]
  rfl

/-- The run of `begin` on `handshakeTransport`: when the wake byte arrives within the reset
delay and the acknowledgement after it and at most 2001 ms later, `begin` returns `true` at
the time the acknowledgement arrives. -/
theorem begin_acknowledged (fuel baud tw t : Nat) (hw : tw ≤ 200) (h1 : 200 < t)
    (h2 : t ≤ 2201) (hf : 2002 ≤ fuel) :
    begin fuel (R503_Fingerprint.new (handshakeTransport tw t)) baud R503_DEFAULT_PASSWORD
        R503_DEFAULT_ADDRESS = some (true, afterBegin t 0x00) := by
  obtain ⟨f, rfl⟩ : ∃ f, fuel = f + (t - 201) + 2 := ⟨fuel - (t - 201) - 2, by omega⟩
  have e1 : (wakeState t).serial.rx = [] := rfl
  have e2 : (wakeState t).serial.incoming = okAck.map (fun b => (t, b)) := rfl
  have e3 : (wakeState t).address = 0xFFFFFFFF := rfl
  have e4 : (wakeState t).serial.clock + ((t - 201) + 1) = t := by
    show 200 + ((t - 201) + 1) = t; omega
  have e5 : t ≤ (wakeState t).serial.clock + (wakeState t).timeout + 1 := by
    show t ≤ 200 + 2000 + 1; omega
  have hs := simpleCommand_arrival f (t - 201) t (wakeState t) [R503_HANDSHAKE] e1 e2 e4
    (by norm_num; omega) e5 e3
  rw [handshake_sent, ← handshake_eq] at hs
  have hb := begin_default (f + (t - 201) + 2) baud
    (R503_Fingerprint.new (handshakeTransport tw t))
    ⟨[0x55], okAck.map (fun b => (t, b)), [], 200⟩ ⟨[], okAck.map (fun b => (t, b)), [], 200⟩
    (delay_wake okAck tw t 200 0x55 hw h1)
    (beginWakeLoop_wake 100 ⟨[0x55], okAck.map (fun b => (t, b)), [], 200⟩ [] rfl) rfl
  exact hb.trans hs

theorem takeWhile_mono (l : List (Nat × Nat)) (a b : Nat) (h : a ≤ b) :
    l.takeWhile (fun p => decide (p.1 ≤ b)) =
      l.takeWhile (fun p => decide (p.1 ≤ a)) ++
        (l.dropWhile (fun p => decide (p.1 ≤ a))).takeWhile (fun p => decide (p.1 ≤ b)) ∧
    (l.dropWhile (fun p => decide (p.1 ≤ a))).dropWhile (fun p => decide (p.1 ≤ b)) =
      l.dropWhile (fun p => decide (p.1 ≤ b)) := by
  induction l with
  | nil => simp
  | cons x l ih =>
    by_cases hx : x.1 ≤ a
    · have hb : x.1 ≤ b := Nat.le_trans hx h
      simp only [List.takeWhile_cons, List.dropWhile_cons, hx, hb, decide_True, if_true,
        List.cons_append]
      exact ⟨by rw [← ih.1], ih.2⟩
    · simp [List.takeWhile_cons, List.dropWhile_cons, hx]

theorem delay_add (ser : HardwareSerial) (a b : Nat) :
    (ser.delay a).delay b = ser.delay (a + b) := by
  have h := takeWhile_mono ser.incoming (ser.clock + a) (ser.clock + a + b) (by omega)
  unfold HardwareSerial.delay
  simp only [HardwareSerial.mk.injEq]
  refine ⟨?_, ?_, trivial, by omega⟩
  · rw [show ser.clock + (a + b) = ser.clock + a + b by omega, h.1]
    simp
  · rw [show ser.clock + (a + b) = ser.clock + a + b by omega, h.2]

theorem delay_clock (ser : HardwareSerial) (d : Nat) : (ser.delay d).clock = ser.clock + d := rfl

theorem arrived_count (c : Nat) :
    ∀ (l : List (Nat × Nat)) (n : Nat), n ≤ l.length →
      (n ≤ (l.takeWhile (fun p => decide (p.1 ≤ c))).length ↔ (n = 0 ∨ specArrival l n ≤ c)) := by
  intro l
  induction l with
  | nil => intro n hn; simp at hn; simp [hn]
  | cons x l ih =>
    intro n hn
    cases n with
    | zero => simp
    | succ n =>
      have hn2 : n ≤ l.length := by simpa using hn
      have e : specArrival (x :: l) (n + 1) = max x.1 (specArrival l n) := by
        simp [specArrival]
      rw [e]
      by_cases hx : x.1 ≤ c
      · simp only [List.takeWhile_cons, hx, decide_True, if_true, List.length_cons,
          Nat.add_le_add_iff_right, Nat.add_one_ne_zero, false_or]
        rw [ih n hn2]
        constructor
        · rintro (h | h)
          · subst h; simp [specArrival, hx]
          · exact max_le hx h
        · intro h; exact Or.inr (le_trans (le_max_right _ _) h)
      · simp only [List.takeWhile_cons, hx, decide_False, Bool.false_eq_true, if_false,
          List.length_nil, Nat.le_zero_eq, Nat.add_one_ne_zero, false_or, false_iff]
        intro h
        exact hx (le_trans (le_max_left _ _) h)

theorem delay_rx (ser : HardwareSerial) (d : Nat) :
    (ser.delay d).rx = ser.rx ++
      (ser.incoming.takeWhile (fun p => decide (p.1 ≤ ser.clock + d))).map Prod.snd := rfl

theorem elapsed_le (c0 c : Nat) (h : c0 ≤ c) :
    (c % 2 ^ 32 + 2 ^ 32 - c0 % 2 ^ 32) % 2 ^ 32 ≤ c - c0 := by
  norm_num
  omega

/-- A wait whose bytes are all readable after `k + 1` more polls, `k` polls from now still
within the limit, leaves through its condition after at least one and at most `k + 1` polls. -/
theorem waitAvailable_by (need limit c0 : Nat) :
    ∀ (k fuel : Nat) (ser : HardwareSerial),
      ser.rx.length < need → need ≤ (ser.delay (k + 1)).rx.length →
      c0 ≤ ser.clock → ser.clock + k ≤ c0 + limit → k + 1 < fuel →
      ∃ j, 1 ≤ j ∧ j ≤ k + 1 ∧
        waitAvailable fuel ser (c0 % 2 ^ 32) need limit = some (true, ser.delay j) := by
  intro k
  induction k with
  | zero =>
    intro fuel ser hrx hneed hc hl hf
    obtain ⟨f, rfl⟩ : ∃ f, fuel = f + 2 := ⟨fuel - 2, by omega⟩
    refine ⟨1, le_refl _, le_refl _, ?_⟩
    have hel : ¬ (ser.millis + 2 ^ 32 - c0 % 2 ^ 32) % 2 ^ 32 > limit := by
      have := elapsed_le c0 ser.clock hc
      unfold HardwareSerial.millis
      omega
    rw [waitAvailable]
    simp only [HardwareSerial.available, hrx, if_true, hel, if_false]
    exact waitAvailable_ready f _ _ _ _ hneed
  | succ k ih =>
    intro fuel ser hrx hneed hc hl hf
    obtain ⟨f, rfl⟩ : ∃ f, fuel = f + 2 := ⟨fuel - 2, by omega⟩
    have hel : ¬ (ser.millis + 2 ^ 32 - c0 % 2 ^ 32) % 2 ^ 32 > limit := by
      have := elapsed_le c0 ser.clock hc
      unfold HardwareSerial.millis
      omega
    rw [waitAvailable]
    simp only [HardwareSerial.available, hrx, if_true, hel, if_false]
    by_cases h1 : need ≤ (ser.delay 1).rx.length
    · exact ⟨1, le_refl _, by omega, waitAvailable_ready f _ _ _ _ h1⟩
    · obtain ⟨j, hj1, hj2, hw⟩ := ih (f + 1) (ser.delay 1) (by omega)
        (by rw [delay_add, Nat.add_comm 1]; exact hneed)
        (by rw [delay_clock]; omega) (by rw [delay_clock]; omega) (by omega)
      refine ⟨1 + j, by omega, by omega, ?_⟩
      rw [hw, delay_add]


theorem rx_of_stream (ser : HardwareSerial) : ser.rx = ser.stream.take ser.rx.length := by
  simp [HardwareSerial.stream]

theorem delay_ready (ser : HardwareSerial) (n d : Nat) (hn : n ≤ ser.incoming.length)
    (h : specArrival ser.incoming n ≤ ser.clock + d) : n ≤ (ser.delay d).rx.length := by
  rw [delay_rx, List.length_append, List.length_map]
  have := (arrived_count (ser.clock + d) ser.incoming n hn).2 (Or.inr h)
  omega

theorem delay_arrived (ser : HardwareSerial) (n d : Nat) (hrx : ser.rx = [])
    (hn : n ≤ ser.incoming.length) (h0 : 0 < n) (h : n ≤ (ser.delay d).rx.length) :
    specArrival ser.incoming n ≤ ser.clock + d := by
  rw [delay_rx, hrx, List.nil_append, List.length_map] at h
  rcases (arrived_count (ser.clock + d) ser.incoming n hn).1 h with h | h
  · omega
  · exact h

theorem take_nine (m : Nat) (h0 h1 a0 a1 a2 a3 pid l0 l1 : Nat) (tail : List Nat) :
    List.take (m + 9) (h0 :: h1 :: a0 :: a1 :: a2 :: a3 :: pid :: l0 :: l1 :: tail) =
      h0 :: h1 :: a0 :: a1 :: a2 :: a3 :: pid :: l0 :: l1 :: tail.take m := rfl

theorem take_payload (P : List Nat) (c0 c1 : Nat) (rest : List Nat) (n : Nat)
    (h : P.length + 2 ≤ n) :
    (P ++ c0 :: c1 :: rest).take n = P ++ c0 :: c1 :: rest.take (n - P.length - 2) := by
  obtain ⟨q, rfl⟩ : ∃ q, n = P.length + (q + 2) := ⟨n - P.length - 2, by omega⟩
  rw [List.take_append]
  simp

/-- Reception of a frame that is still in flight: when the first nine bytes arrive at most
`timeout + 1` ms after the call and the remaining bytes at most `timeout + 1` ms after the
header was readable, `receivePacket` accepts the frame. -/
theorem receivePacket_arrives (fuel : Nat) (self : R503_Fingerprint) (T : Nat)
    (P rest : List Nat) (hT : T < 256) (hA : self.address < 2 ^ 32) (hlen : P.length ≤ 65533)
    (hrx : self.serial.rx = [])
    (hin : self.serial.incoming.map Prod.snd = specFrame self.address T P ++ rest)
    (h1 : specArrival self.serial.incoming 9 ≤ self.serial.clock + self.timeout + 1)
    (h2 : specArrival self.serial.incoming (P.length + 11) ≤
      max (self.serial.clock + 1) (specArrival self.serial.incoming 9) + self.timeout + 1)
    (hf : self.timeout + 2 ≤ fuel) :
    ∃ r, receivePacket fuel self T = some r ∧ r.ok = true ∧ r.buffer = P ∧
      r.length = P.length ∧ r.self.serial.stream = rest := by
  have hlenI : P.length + 11 ≤ self.serial.incoming.length := by
    have := congrArg List.length hin
    rw [List.length_map, List.length_append, specFrame_eq] at this
    simp at this
    omega
  -- the wait for the header
  obtain ⟨j, hj1, hj2, hw⟩ := waitAvailable_by 9 self.timeout self.serial.clock
    (specArrival self.serial.incoming 9 - self.serial.clock - 1) fuel self.serial
    (by rw [hrx]; decide)
    (delay_ready self.serial 9 _ (by omega) (by omega)) (le_refl _) (by omega) (by omega)
  have h9 := (waitAvailable_spec _ _ _ _ _ _ _ hw).2.2 rfl
  have hA9 := delay_arrived self.serial 9 j hrx (by omega) (by decide) h9
  rw [receivePacket_after_wait fuel self T _ hw]
  obtain ⟨f, rfl⟩ : ∃ f, fuel = f + 1 := ⟨fuel - 1, by omega⟩
  have hstream1 : (self.serial.delay j).stream = specFrame self.address T P ++ rest := by
    rw [delay_stream]; simp [HardwareSerial.stream, hrx, hin]
  obtain ⟨m, hm⟩ : ∃ m, (self.serial.delay j).rx.length = m + 9 :=
    ⟨(self.serial.delay j).rx.length - 9, by omega⟩
  have hrx1 := rx_of_stream (self.serial.delay j)
  rw [hstream1, specFrame_eq, hm] at hrx1
  simp only [List.cons_append] at hrx1
  rw [take_nine] at hrx1
  generalize htail : List.take m ((P ++ [specChecksum T P / 256 % 256, specChecksum T P % 256]) ++ rest) = tail at hrx1
  have htl : tail.length = m := by
    have := congrArg List.length hrx1
    simp only [List.length_cons] at this
    omega
  have hrest1 : tail ++ (self.serial.delay j).incoming.map Prod.snd =
      P ++ (specChecksum T P / 256 % 256) :: (specChecksum T P % 256) :: rest := by
    have hs := hstream1
    unfold HardwareSerial.stream at hs
    rw [hrx1, specFrame_eq] at hs
    simpa using hs
  have hb : ∀ b ∈ [0xEF, 0x01, (self.address / 16777216) % 256, (self.address / 65536) % 256,
      (self.address / 256) % 256, self.address % 256, T, ((P.length + 2) / 256) % 256,
      (P.length + 2) % 256], b < 256 := by
    intro b hb
    simp only [List.mem_cons, List.mem_singleton, List.not_mem_nil, or_false] at hb
    omega
  have hl : (P.length + 2) / 256 % 256 * 256 + (P.length + 2) % 256 = P.length + 2 := by omega
  have ha : self.address / 16777216 % 256 * 16777216 + self.address / 65536 % 256 * 65536
      + self.address / 256 % 256 * 256 + self.address % 256 = self.address := by omega
  rw [receivePacket_header f { self with serial := self.serial.delay j } T _ _ _ _ _ _ _ _ _ _
    hrx1 hb]
  rw [if_neg (by decide), if_neg (by rw [ha]; simp), if_neg (by simp), hl, if_neg (by omega)]
  -- the wait for the payload and the checksum
  have hw2 : ∃ ser2, waitAvailable (f + 1) { self.serial.delay j with rx := tail }
      ({ self.serial.delay j with rx := tail } : HardwareSerial).millis (P.length + 2)
        self.timeout = some (true, ser2) := by
    by_cases hready : P.length + 2 ≤ m
    · exact ⟨_, waitAvailable_ready f _ _ _ _ (by show P.length + 2 ≤ tail.length; omega)⟩
    · have hd : P.length + 2 ≤ (({ self.serial.delay j with rx := tail } : HardwareSerial).delay
          (specArrival self.serial.incoming (P.length + 11) - (self.serial.clock + j) - 1 + 1)).rx.length := by
        have h12 := delay_ready self.serial (P.length + 11)
          (j + (specArrival self.serial.incoming (P.length + 11) - (self.serial.clock + j) - 1 + 1))
          hlenI (by omega)
        rw [← delay_add, delay_rx, List.length_append, hm] at h12
        rw [delay_rx, List.length_append]
        show P.length + 2 ≤ tail.length + _
        rw [htl]
        have e : ({ self.serial.delay j with rx := tail } : HardwareSerial).clock =
          (self.serial.delay j).clock := rfl
        have e2 : ({ self.serial.delay j with rx := tail } : HardwareSerial).incoming =
          (self.serial.delay j).incoming := rfl
        rw [e, e2]
        omega
      obtain ⟨j2, -, -, hw2⟩ := waitAvailable_by (P.length + 2) self.timeout
        (self.serial.clock + j)
        (specArrival self.serial.incoming (P.length + 11) - (self.serial.clock + j) - 1) (f + 1)
        { self.serial.delay j with rx := tail }
        (by show tail.length < P.length + 2; omega) hd (le_refl _)
        (by
          show self.serial.clock + j + _ ≤ _
          have : max (self.serial.clock + 1) (specArrival self.serial.incoming 9) ≤
              self.serial.clock + j := max_le (by omega) hA9
          omega)
        (by
          have : max (self.serial.clock + 1) (specArrival self.serial.incoming 9) ≤
              self.serial.clock + j := max_le (by omega) hA9
          omega)
      exact ⟨_, hw2⟩
  obtain ⟨ser2, hw2⟩ := hw2
  obtain ⟨hs2, -, hn2⟩ := waitAvailable_spec _ _ _ _ _ _ _ hw2
  have hn2 := hn2 rfl
  have e : P.length + 2 - 2 + 2 = P.length + 2 := by omega
  rw [receivePacketBody_after_wait (f + 1) _ _ ser2 T (P.length + 2) (by rw [e]; exact hw2)]
  have hstream2 : ser2.stream =
      P ++ (specChecksum T P / 256 % 256) :: (specChecksum T P % 256) :: rest := by
    rw [hs2]; exact hrest1
  have hrx2 := rx_of_stream ser2
  rw [hstream2, take_payload P _ _ rest _ hn2] at hrx2
  rw [receivePacketBody_frame f _ ser2 T (P.length + 2) P _ _ _ hrx2 rfl
    (Nat.mod_lt _ (by norm_num)) (Nat.mod_lt _ (by norm_num))]
  have hc : specChecksum T P < 65536 := Nat.mod_lt _ (by norm_num)
  have ec : specChecksum T P / 256 % 256 * 256 + specChecksum T P % 256 = specChecksum T P := by
    omega
  refine ⟨_, rfl, ?_, rfl, rfl, ?_⟩
  · simp only [ec, decide_eq_true_eq]
    rfl
  · show List.take _ rest ++ ser2.incoming.map Prod.snd = rest
    have hs := hstream2
    unfold HardwareSerial.stream at hs
    rw [hrx2] at hs
    simpa using hs


theorem clearSerialBufferLoop_eq :
    ∀ (n : Nat) (ser : HardwareSerial), ser.rx.length = n →
      clearSerialBufferLoop n ser = { ser with rx := [] } := by
  intro n
  induction n with
  | zero =>
    intro ser h
    have : ser.rx = [] := List.length_eq_zero.1 h
    rw [clearSerialBufferLoop, ← this]
  | succ n ih =>
    intro ser h
    obtain ⟨b, rest, hr⟩ : ∃ b rest, ser.rx = b :: rest := by
      cases hrx : ser.rx with
      | nil => rw [hrx] at h; simp at h
      | cons b rest => exact ⟨b, rest, rfl⟩
    rw [clearSerialBufferLoop, if_pos (by simp [HardwareSerial.available, hr]),
      read_cons ser b rest hr]
    rw [ih { ser with rx := rest } (by rw [hr] at h; simpa using h)]

theorem clearSerialBuffer_eq (self : R503_Fingerprint) :
    clearSerialBuffer self = { self with serial := { self.serial with rx := [] } } := by
  unfold clearSerialBuffer HardwareSerial.available
  rw [clearSerialBufferLoop_eq _ _ rfl]

theorem begin_cleared (fuel baud : Nat) (self : R503_Fingerprint) (ser2 : HardwareSerial)
    (h2 : beginWakeLoop 101 (self.serial.delay R503_RESET_DELAY)
      (self.serial.delay R503_RESET_DELAY).millis = some ser2) :
    begin fuel self baud R503_DEFAULT_PASSWORD R503_DEFAULT_ADDRESS =
      handshake fuel
        { self with serial := { ser2 with rx := [] }, password := R503_DEFAULT_PASSWORD, address := R503_DEFAULT_ADDRESS } := by
  unfold begin
  simp only [h2]
  rw [clearSerialBuffer_eq]
  simp

theorem beginWakeLoop_step (n : Nat) (ser : HardwareSerial) (startTime : Nat) :
    beginWakeLoop (n + 1) ser startTime =
      if (ser.millis + 2 ^ 32 - startTime) % 2 ^ 32 < 1000 then
        if ser.available ≠ 0 then
          if ser.read.1 = 0x55 then some ser.read.2
          else beginWakeLoop n (ser.read.2.delay 10) startTime
        else beginWakeLoop n (ser.delay 10) startTime
      else some ser := by
  rw [beginWakeLoop]

theorem beginWakeLoop_tx :
    ∀ (n : Nat) (ser : HardwareSerial) (startTime : Nat) (ser2 : HardwareSerial),
      beginWakeLoop n ser startTime = some ser2 → ser2.tx = ser.tx := by
  intro n
  induction n with
  | zero => intro ser startTime ser2 h; simp [beginWakeLoop] at h
  | succ n ih =>
    intro ser startTime ser2 h
    rw [beginWakeLoop_step] at h
    split_ifs at h with k1 k2 k3
    · simp only [Option.some.injEq] at h
      rw [← h, read_tx]
    · have := ih _ _ _ h
      rw [this]
      show ser.read.2.tx = _
      rw [read_tx]
    · have := ih _ _ _ h
      rw [this]; rfl
    · simp only [Option.some.injEq] at h
      rw [← h]

/-- The wake-byte loop of `begin` always leaves within its 101 passes. -/
theorem beginWakeLoop_returns (c0 : Nat) :
    ∀ (n : Nat) (ser : HardwareSerial), c0 ≤ ser.clock → ser.clock ≤ c0 + 1009 →
      c0 + 1000 ≤ ser.clock + 10 * n →
      ∃ ser2, beginWakeLoop (n + 1) ser (c0 % 2 ^ 32) = some ser2 := by
  intro n
  induction n with
  | zero =>
    intro ser h1 h2 h3
    rw [beginWakeLoop_step, if_neg]
    · exact ⟨_, rfl⟩
    · unfold HardwareSerial.millis
      norm_num
      omega
  | succ n ih =>
    intro ser h1 h2 h3
    rw [beginWakeLoop_step]
    split_ifs with k1 k2 k3
    · exact ⟨_, rfl⟩
    · have k1' : ser.clock < c0 + 1000 := by
        unfold HardwareSerial.millis at k1
        norm_num at k1
        omega
      exact ih _ (by rw [delay_clock, read_clock]; omega) (by rw [delay_clock, read_clock]; omega)
        (by rw [delay_clock, read_clock]; omega)
    · have k1' : ser.clock < c0 + 1000 := by
        unfold HardwareSerial.millis at k1
        norm_num at k1
        omega
      exact ih _ (by rw [delay_clock]; omega) (by rw [delay_clock]; omega)
        (by rw [delay_clock]; omega)
    · exact ⟨_, rfl⟩

/-- The wake-byte loop of `begin`, as `begin` calls it, always returns a state. -/
theorem beginWakeLoop_total (ser : HardwareSerial) :
    ∃ ser2, beginWakeLoop 101 ser ser.millis = some ser2 :=
  beginWakeLoop_returns ser.clock 100 ser (le_refl _) (by omega) (by omega)

/-- A command whose acknowledgement 0x00 is still in flight and arrives in time. -/
theorem simpleCommand_arrives (fuel : Nat) (S : R503_Fingerprint) (packet rest : List Nat)
    (hA : S.address < 2 ^ 32) (hrx : S.serial.rx = [])
    (hin : S.serial.incoming.map Prod.snd = specFrame S.address 0x07 [0x00] ++ rest)
    (h1 : specArrival S.serial.incoming 9 ≤ S.serial.clock + S.timeout + 1)
    (h2 : specArrival S.serial.incoming 12 ≤
      max (S.serial.clock + 1) (specArrival S.serial.incoming 9) + S.timeout + 1)
    (hf : S.timeout + 2 ≤ fuel) :
    ∃ s, simpleCommand fuel S packet = some (true, s) ∧ s.lastConfirmCode = R503_OK ∧
      s.serial.tx = S.serial.tx ++ specFrame S.address 0x01 packet ∧ s.serial.stream = rest ∧
      s.address = S.address ∧ s.password = S.password ∧ s.timeout = S.timeout := by
  have hsent : commandSent S packet = { S with serial := { S.serial with
      tx := S.serial.tx ++ specFrame S.address 0x01 packet } } := by
    unfold commandSent
    rw [sendPacket_eq]
    rfl
  obtain ⟨r, hr, hok, hbuf, hlen, hstream⟩ := receivePacket_arrives fuel (commandSent S packet)
    0x07 [0x00] rest (by decide) (by rw [hsent]; exact hA) (by decide)
    (by rw [hsent]; exact hrx) (by rw [hsent]; exact hin) (by rw [hsent]; exact h1)
    (by rw [hsent]; exact h2) (by rw [hsent]; exact hf)
  have hack : receiveAck fuel (commandSent S packet) =
      some { r with ok := true, self := { r.self with lastConfirmCode := 0x00 } } := by
    unfold receiveAck
    rw [show R503_ACK_PACKET = 0x07 from rfl, hr]
    simp [hok, hlen, hbuf]
  obtain ⟨hs, hcode, -⟩ := simpleCommand_ok fuel S packet _ hack
    ⟨rfl, by show 0 < r.length; rw [hlen]; decide, by show r.buffer.getD 0 0 = 0; rw [hbuf]; rfl⟩
  obtain ⟨htx, hadr, hpw, hto⟩ := receiveAck_preserves fuel (commandSent S packet) _ hack
  refine ⟨_, hs, hcode, ?_, hstream, ?_, ?_, ?_⟩
  · rw [htx, hsent]
  · rw [hadr, hsent]
  · rw [hpw, hsent]
  · rw [hto, hsent]

/-- C19 (handshake scenario, as the code has it): on a freshly constructed session on any
transport, let `serW` be the transport state in which `begin` (default password and address)
leaves its wake-byte loop, whenever and whether the wake byte 0x55 was read. If at that
moment, when `clearSerialBuffer` empties the receive buffer, the next bytes in flight are a
valid acknowledgement frame (address 0xFFFFFFFF, payload `[0x00]`, correct checksum), if its
nine header bytes arrive at most 2001 ms later, and its last three bytes at most 2001 ms
after the header became readable, then `begin` returns `true`, has written exactly the
handshake command, leaves `lastConfirmCode` at 0x00, and leaves unread what followed the
frame. -/
theorem C19_handshake_scenario (fuel baud : Nat) (ser0 serW : HardwareSerial) (rest : List Nat)
    (hwake : beginWakeLoop 101 (ser0.delay R503_RESET_DELAY)
      (ser0.delay R503_RESET_DELAY).millis = some serW)
    (hack : serW.incoming.map Prod.snd = okAck ++ rest)
    (h1 : specArrival serW.incoming 9 ≤ serW.clock + 2001)
    (h2 : specArrival serW.incoming 12 ≤
      max (serW.clock + 1) (specArrival serW.incoming 9) + 2001)
    (hf : 2002 ≤ fuel) :
    ∃ s, begin fuel (R503_Fingerprint.new ser0) baud R503_DEFAULT_PASSWORD
        R503_DEFAULT_ADDRESS = some (true, s) ∧
      s.lastConfirmCode = 0x00 ∧ s.serial.tx = ser0.tx ++ handshakeFrame ∧
      s.serial.stream = rest ∧ s.password = R503_DEFAULT_PASSWORD ∧
      s.address = R503_DEFAULT_ADDRESS := by
  have hb := begin_cleared fuel baud (R503_Fingerprint.new ser0) serW hwake
  have hframe : okAck = specFrame R503_DEFAULT_ADDRESS 0x07 [0x00] := by decide
  have htx0 : serW.tx = ser0.tx := (beginWakeLoop_tx _ _ _ _ hwake).trans rfl
  obtain ⟨s, hs, hcode, htx, hstream, hadr, hpw, -⟩ := simpleCommand_arrives fuel
    { R503_Fingerprint.new ser0 with serial := { serW with rx := [] }, password := R503_DEFAULT_PASSWORD, address := R503_DEFAULT_ADDRESS }
    [R503_HANDSHAKE] rest (by show R503_DEFAULT_ADDRESS < 2 ^ 32; decide) rfl
    (by rw [← hframe]; exact hack) h1 h2 hf
  refine ⟨s, ?_, hcode, ?_, hstream, hpw, hadr⟩
  · rw [hb, handshake_eq]; exact hs
  · rw [htx, handshakeFrame_eq]
    show serW.tx ++ _ = _
    rw [htx0]
    rfl

/-- Instances of C19. Wake byte after 500 ms, acknowledgement after 800 ms; wake byte after
201 ms, acknowledgement after 2205 ms; no wake byte, acknowledgement after 1500 ms; wake byte
after 100 ms, header of the acknowledgement after 2000 ms and its last three bytes after
4000 ms. -/
theorem C19_handshake_scenario_witness :
    (beginWakeLoop 101 ((handshakeTransport 500 800).delay R503_RESET_DELAY)
        ((handshakeTransport 500 800).delay R503_RESET_DELAY).millis =
      some (wakeLoopLeft 500 (okAck.map (fun b => (800, b)))) ∧
      ∃ s, begin 2002 (R503_Fingerprint.new (handshakeTransport 500 800)) 57600
          R503_DEFAULT_PASSWORD R503_DEFAULT_ADDRESS = some (true, s) ∧
        s.lastConfirmCode = 0x00 ∧
        s.serial.tx = (handshakeTransport 500 800).tx ++ handshakeFrame ∧
        s.serial.stream = [] ∧ s.password = R503_DEFAULT_PASSWORD ∧
        s.address = R503_DEFAULT_ADDRESS) ∧
    (beginWakeLoop 101 ((handshakeTransport 201 2205).delay R503_RESET_DELAY)
        ((handshakeTransport 201 2205).delay R503_RESET_DELAY).millis =
      some (wakeLoopLeft 210 (okAck.map (fun b => (2205, b)))) ∧
      ∃ s, begin 2002 (R503_Fingerprint.new (handshakeTransport 201 2205)) 57600
          R503_DEFAULT_PASSWORD R503_DEFAULT_ADDRESS = some (true, s) ∧
        s.lastConfirmCode = 0x00 ∧
        s.serial.tx = (handshakeTransport 201 2205).tx ++ handshakeFrame ∧
        s.serial.stream = [] ∧ s.password = R503_DEFAULT_PASSWORD ∧
        s.address = R503_DEFAULT_ADDRESS) ∧
    (beginWakeLoop 101 ((silentWakeTransport 1500).delay R503_RESET_DELAY)
        ((silentWakeTransport 1500).delay R503_RESET_DELAY).millis =
      some (wakeLoopLeft 1200 (okAck.map (fun b => (1500, b)))) ∧
      ∃ s, begin 2002 (R503_Fingerprint.new (silentWakeTransport 1500)) 57600
          R503_DEFAULT_PASSWORD R503_DEFAULT_ADDRESS = some (true, s) ∧
        s.lastConfirmCode = 0x00 ∧
        s.serial.tx = (silentWakeTransport 1500).tx ++ handshakeFrame ∧
        s.serial.stream = [] ∧ s.password = R503_DEFAULT_PASSWORD ∧
        s.address = R503_DEFAULT_ADDRESS) ∧
    (beginWakeLoop 101 (slowAckTransport.delay R503_RESET_DELAY)
        (slowAckTransport.delay R503_RESET_DELAY).millis =
      some (wakeLoopLeft 200 ((okAck.take 9).map (fun b => (2000, b)) ++
        (okAck.drop 9).map (fun b => (4000, b)))) ∧
      ∃ s, begin 2002 (R503_Fingerprint.new slowAckTransport) 57600
          R503_DEFAULT_PASSWORD R503_DEFAULT_ADDRESS = some (true, s) ∧
        s.lastConfirmCode = 0x00 ∧
        s.serial.tx = slowAckTransport.tx ++ handshakeFrame ∧
        s.serial.stream = [] ∧ s.password = R503_DEFAULT_PASSWORD ∧
        s.address = R503_DEFAULT_ADDRESS) :=
  have w1 : beginWakeLoop 101 ((handshakeTransport 500 800).delay R503_RESET_DELAY)
        ((handshakeTransport 500 800).delay R503_RESET_DELAY).millis =
      some (wakeLoopLeft 500 (okAck.map (fun b => (800, b)))) := by decide!
  have w2 : beginWakeLoop 101 ((handshakeTransport 201 2205).delay R503_RESET_DELAY)
        ((handshakeTransport 201 2205).delay R503_RESET_DELAY).millis =
      some (wakeLoopLeft 210 (okAck.map (fun b => (2205, b)))) := by decide!
  have w3 : beginWakeLoop 101 ((silentWakeTransport 1500).delay R503_RESET_DELAY)
        ((silentWakeTransport 1500).delay R503_RESET_DELAY).millis =
      some (wakeLoopLeft 1200 (okAck.map (fun b => (1500, b)))) := by decide!
  have w4 : beginWakeLoop 101 (slowAckTransport.delay R503_RESET_DELAY)
        (slowAckTransport.delay R503_RESET_DELAY).millis =
      some (wakeLoopLeft 200 ((okAck.take 9).map (fun b => (2000, b)) ++
        (okAck.drop 9).map (fun b => (4000, b)))) := by decide!
  ⟨⟨w1, C19_handshake_scenario 2002 57600 (handshakeTransport 500 800) _ [] w1 (by decide) (by decide)
      (by decide) (by decide)⟩,
    ⟨w2, C19_handshake_scenario 2002 57600 (handshakeTransport 201 2205) _ [] w2 (by decide) (by decide)
      (by decide) (by decide)⟩,
    ⟨w3, C19_handshake_scenario 2002 57600 (silentWakeTransport 1500) _ [] w3 (by decide) (by decide)
      (by decide) (by decide)⟩,
    ⟨w4, C19_handshake_scenario 2002 57600 slowAckTransport _ [] w4 (by decide) (by decide)
      (by decide) (by decide)⟩⟩

/-- C19, counterexamples. When the wake byte and the acknowledgement frame are both in the
receive buffer at the time `begin` is called, `begin` reads the wake byte, discards the
acknowledgement in `clearSerialBuffer`, waits for the timeout and returns `false`. When the
wake byte arrives only after the wake-byte loop has ended (at 1500 ms, the frame at 1600 ms),
the handshake reads it as the first header byte and `begin` returns `false`. When the frame
arrives 2002 ms after the handshake command was sent, the handshake has timed out and `begin`
returns `false`. -/
theorem C19_counterexample :
    begin 2002 (R503_Fingerprint.new bufferedTransport) 57600 R503_DEFAULT_PASSWORD
        R503_DEFAULT_ADDRESS = some (false, afterBegin 2201 0xFF) ∧
    (begin 2002 (R503_Fingerprint.new (handshakeTransport 1500 1600)) 57600
        R503_DEFAULT_PASSWORD R503_DEFAULT_ADDRESS).map
        (fun r => (r.1, r.2.lastConfirmCode, r.2.serial.clock, r.2.serial.stream))
      = some (false, 0xFF, 1600, okAck.drop 1) ∧
    (begin 2002 (R503_Fingerprint.new (handshakeTransport 100 2202)) 57600
        R503_DEFAULT_PASSWORD R503_DEFAULT_ADDRESS).map
        (fun r => (r.1, r.2.lastConfirmCode, r.2.serial.clock, r.2.serial.stream))
      = some (false, 0xFF, 2201, okAck) := by
  refine ⟨by decide!, by decide!, by decide!⟩

/-! ## Permuted payloads -/

theorem receivePacket_whole (fuel : Nat) (self : R503_Fingerprint) (expectedType : Nat)
    (h0 h1 a0 a1 a2 a3 pid l0 l1 : Nat) (P : List Nat) (c0 c1 : Nat) (rest : List Nat)
    (hrx : self.serial.rx =
      h0 :: h1 :: a0 :: a1 :: a2 :: a3 :: pid :: l0 :: l1 :: (P ++ c0 :: c1 :: rest))
    (hb : ∀ b ∈ [h0, h1, a0, a1, a2, a3, pid, l0, l1], b < 256)
    (hc0 : c0 < 256) (hc1 : c1 < 256) (hlen : P.length + 2 = l0 * 256 + l1) :
    ((receivePacket (fuel + 1) self expectedType).map Received.ok = some true →
      h0 * 256 + h1 = 0xEF01 ∧ a0 * 16777216 + a1 * 65536 + a2 * 256 + a3 = self.address ∧
        pid = expectedType ∧
        c0 * 256 + c1 = (pid + (l0 * 256 + l1) / 256 % 256 + (l0 * 256 + l1) % 256 + P.sum)
          % 65536) ∧
    (h0 * 256 + h1 = 0xEF01 ∧ a0 * 16777216 + a1 * 65536 + a2 * 256 + a3 = self.address ∧
        pid = expectedType ∧
        c0 * 256 + c1 = (pid + (l0 * 256 + l1) / 256 % 256 + (l0 * 256 + l1) % 256 + P.sum)
          % 65536 →
      receivePacket (fuel + 1) self expectedType =
        some ⟨true, P, P.length, withRx self rest⟩) := by
  rw [receivePacket_header fuel self expectedType h0 h1 a0 a1 a2 a3 pid l0 l1 _ hrx hb]
  have e4 : ¬ l0 * 256 + l1 < 2 := by omega
  constructor
  · intro h
    by_cases e1 : h0 * 256 + h1 = 0xEF01
    · by_cases e2 : a0 * 16777216 + a1 * 65536 + a2 * 256 + a3 = self.address
      · by_cases e3 : pid = expectedType
        · rw [if_neg (not_not.2 e1), if_neg (not_not.2 e2), if_neg (not_not.2 e3), if_neg e4,
            receivePacketBody_frame fuel self _ pid (l0 * 256 + l1) P c0 c1 rest rfl hlen
              hc0 hc1] at h
          simp only [Option.map_some', Option.some.injEq, decide_eq_true_eq] at h
          exact ⟨e1, e2, e3, h⟩
        · rw [if_neg (not_not.2 e1), if_neg (not_not.2 e2), if_pos e3] at h
          simp at h
      · rw [if_neg (not_not.2 e1), if_pos e2] at h
        simp at h
    · rw [if_pos e1] at h
      simp at h
  · rintro ⟨e1, e2, e3, e5⟩
    rw [if_neg (not_not.2 e1), if_neg (not_not.2 e2), if_neg (not_not.2 e3), if_neg e4,
      receivePacketBody_frame fuel self _ pid (l0 * 256 + l1) P c0 c1 rest rfl hlen hc0 hc1,
      decide_eq_true e5]
    rfl

/-- Order-insensitivity for a frame that is in the receive buffer as a whole: when
`receivePacket` accepts header, payload `P` and checksum bytes, it accepts the same header and
checksum bytes around any permutation `Q` of `P` and returns `Q`. -/
theorem receivePacket_permuted_frame (fuel : Nat) (self : R503_Fingerprint)
    (expectedType : Nat) (h0 h1 a0 a1 a2 a3 pid l0 l1 : Nat) (P Q : List Nat) (c0 c1 : Nat)
    (rest : List Nat)
    (hrx : self.serial.rx =
      h0 :: h1 :: a0 :: a1 :: a2 :: a3 :: pid :: l0 :: l1 :: (P ++ c0 :: c1 :: rest))
    (hb : ∀ b ∈ [h0, h1, a0, a1, a2, a3, pid, l0, l1], b < 256)
    (hc0 : c0 < 256) (hc1 : c1 < 256) (hlen : P.length + 2 = l0 * 256 + l1)
    (hacc : (receivePacket (fuel + 1) self expectedType).map Received.ok = some true)
    (hperm : Q.Perm P) :
    receivePacket (fuel + 1) self expectedType = some ⟨true, P, P.length, withRx self rest⟩ ∧
    receivePacket (fuel + 1)
        (withRx self
          (h0 :: h1 :: a0 :: a1 :: a2 :: a3 :: pid :: l0 :: l1 :: (Q ++ c0 :: c1 :: rest)))
        expectedType = some ⟨true, Q, Q.length, withRx self rest⟩ := by
  have hP := receivePacket_whole fuel self expectedType h0 h1 a0 a1 a2 a3 pid l0 l1
    P c0 c1 rest hrx hb hc0 hc1 hlen
  obtain ⟨e1, e2, e3, e5⟩ := hP.1 hacc
  refine ⟨hP.2 ⟨e1, e2, e3, e5⟩, ?_⟩
  have hQ := (receivePacket_whole fuel
    (withRx self
      (h0 :: h1 :: a0 :: a1 :: a2 :: a3 :: pid :: l0 :: l1 :: (Q ++ c0 :: c1 :: rest)))
    expectedType h0 h1 a0 a1 a2 a3 pid l0 l1 Q c0 c1 rest rfl hb hc0 hc1
    (by rw [hperm.length_eq]; exact hlen)).2
  exact hQ ⟨e1, e2, e3, by rw [hperm.sum_eq]; exact e5⟩

theorem zipWith_takeWhile (c : Nat) :
    ∀ (inc : List (Nat × Nat)) (bs : List Nat), bs.length = inc.length →
      ((List.zipWith (fun p b => (p.1, b)) inc bs).takeWhile (fun p => decide (p.1 ≤ c))).map
          Prod.snd = bs.take (inc.takeWhile (fun p => decide (p.1 ≤ c))).length ∧
      (List.zipWith (fun p b => (p.1, b)) inc bs).dropWhile (fun p => decide (p.1 ≤ c)) =
        List.zipWith (fun p b => (p.1, b)) (inc.dropWhile (fun p => decide (p.1 ≤ c)))
          (bs.drop (inc.takeWhile (fun p => decide (p.1 ≤ c))).length) := by
  intro inc
  induction inc with
  | nil => intro bs h; simp
  | cons p rest ih =>
    intro bs h
    cases bs with
    | nil => simp at h
    | cons b bs =>
      have hl : bs.length = rest.length := by simpa using h
      by_cases hp : p.1 ≤ c
      · simp [List.takeWhile, List.dropWhile, hp, ih bs hl]
      · simp [List.takeWhile, List.dropWhile, hp]

theorem relabel_delay (ser : HardwareSerial) (bytes : List Nat) (ms : Nat)
    (h : bytes.length = ser.stream.length) :
    (ser.relabel bytes).delay ms = (ser.delay ms).relabel bytes := by
  have hl : (bytes.drop ser.rx.length).length = ser.incoming.length := by
    rw [List.length_drop, h]; simp [HardwareSerial.stream]
  have hz := zipWith_takeWhile (ser.clock + ms) ser.incoming (bytes.drop ser.rx.length) hl
  have hn : ser.rx.length ≤ bytes.length := by rw [h]; simp [HardwareSerial.stream]
  unfold HardwareSerial.delay HardwareSerial.relabel
  simp only [HardwareSerial.mk.injEq, and_true, true_and]
  refine ⟨?_, ?_⟩
  · rw [hz.1, List.length_append, List.length_map, List.take_add]
  · rw [hz.2, List.length_append, List.length_map, List.drop_drop]

theorem relabel_wait (bytes : List Nat) (startTime need limit : Nat) :
    ∀ (fuel : Nat) (ser : HardwareSerial), bytes.length = ser.stream.length →
      waitAvailable fuel (ser.relabel bytes) startTime need limit =
        (waitAvailable fuel ser startTime need limit).map (fun r => (r.1, r.2.relabel bytes)) := by
  intro fuel
  induction fuel with
  | zero => intro ser _; rfl
  | succ n ih =>
    intro ser h
    have hn : ser.rx.length ≤ bytes.length := by rw [h]; simp [HardwareSerial.stream]
    have ha : (ser.relabel bytes).available = ser.available := by
      simp [HardwareSerial.available, HardwareSerial.relabel, hn]
    have hm : (ser.relabel bytes).millis = ser.millis := rfl
    rw [waitAvailable, waitAvailable, ha, hm, relabel_delay ser bytes 1 h,
      ih (ser.delay 1) (by rw [delay_stream]; exact h)]
    split_ifs <;> rfl

theorem relabel_self (ser : HardwareSerial) : ser.relabel ser.stream = ser := by
  unfold HardwareSerial.relabel HardwareSerial.stream
  have h1 : (ser.rx ++ ser.incoming.map Prod.snd).take ser.rx.length = ser.rx := by simp
  have h2 : List.zipWith (fun p b => (p.1, b)) ser.incoming
      ((ser.rx ++ ser.incoming.map Prod.snd).drop ser.rx.length) = ser.incoming := by
    simp only [List.drop_left']
    generalize ser.incoming = l
    induction l with
    | nil => rfl
    | cons p rest ih => simp [ih]
  rw [h1, h2]


theorem zipWith_times (l : List (Nat × Nat)) :
    List.zipWith (fun p b => (p.1, b)) l (l.map Prod.snd) = l := by
  induction l with
  | nil => rfl
  | cons p rest ih => simp [ih]

theorem relabel_header (ser : HardwareSerial) (H tail B : List Nat) (h : ser.rx = H ++ tail) :
    ser.relabel (H ++ B) =
      { ({ ser with rx := tail } : HardwareSerial).relabel B with rx := H ++ B.take tail.length } := by
  unfold HardwareSerial.relabel
  simp only [h, List.length_append, HardwareSerial.mk.injEq, and_true, true_and]
  constructor
  · rw [List.take_append_eq_append_take, List.take_of_length_le (by omega)]
    congr 2
    omega
  · rw [List.drop_append_eq_append_drop, List.drop_of_length_le (by omega), List.nil_append]
    congr 2
    omega

theorem relabel_payload (ser : HardwareSerial) (A R Q : List Nat) (h : ser.rx = A ++ R)
    (hq : Q.length = A.length) :
    ser.relabel (Q ++ R ++ ser.incoming.map Prod.snd) = { ser with rx := Q ++ R } := by
  unfold HardwareSerial.relabel
  have hl : ser.rx.length = (Q ++ R).length := by rw [h]; simp [hq]
  rw [hl, List.take_left' rfl, List.drop_left' rfl, zipWith_times]


theorem receivePacketBody_serial (fuel : Nat) (X : R503_Fingerprint) (s ser : HardwareSerial)
    (pid len : Nat) :
    receivePacketBody fuel { X with serial := s } ser pid len =
      receivePacketBody fuel X ser pid len := rfl

/-- What `receivePacket` does on the transport relabelled with a permuted payload, for every
accepted run. -/
theorem receivePacket_permuted (fuel : Nat) (self : R503_Fingerprint) (expectedType : Nat)
    (res : Received) (hbytes : ∀ b ∈ self.serial.stream, b < 256)
    (h : receivePacket fuel self expectedType = some res) (hok : res.ok = true)
    (Q : List Nat) (hperm : Q.Perm res.buffer) :
    receivePacket fuel
        { self with serial := self.serial.relabel (specPermutedStream self.serial.stream Q) }
        expectedType = some { res with buffer := Q } := by
  cases hw : waitAvailable fuel self.serial self.serial.millis 9 self.timeout with
  | none => simp [receivePacket, hw] at h
  | some p =>
    obtain ⟨b, ser1⟩ := p
    cases b with
    | false =>
      simp only [receivePacket, hw, Option.some.injEq] at h
      subst h
      simp at hok
    | true =>
      obtain ⟨f, hf⟩ := waitAvailable_fuel _ _ _ _ _ _ hw
      subst hf
      obtain ⟨hs1, -, h9⟩ := waitAvailable_spec _ _ _ _ _ _ _ hw
      obtain ⟨h0, h1, a0, a1, a2, a3, pid, l0, l1, tail, hrx⟩ := exists_nine ser1.rx (h9 rfl)
      have hstream : self.serial.stream = h0 :: h1 :: a0 :: a1 :: a2 :: a3 :: pid :: l0 :: l1 ::
          (tail ++ ser1.incoming.map Prod.snd) := by
        rw [← hs1, HardwareSerial.stream, hrx]; rfl
      have hb9 : ∀ x ∈ [h0, h1, a0, a1, a2, a3, pid, l0, l1], x < 256 := by
        intro x hx
        apply hbytes
        rw [hstream]
        simp only [List.mem_cons, List.mem_singleton, List.not_mem_nil, or_false] at hx
        simp only [List.mem_cons, List.mem_append]
        tauto
      rw [receivePacket_after_wait _ _ _ _ hw,
        receivePacket_header f { self with serial := ser1 } expectedType _ _ _ _ _ _ _ _ _ _
          hrx hb9] at h
      split_ifs at h with k1 k2 k3 k4
      · simp only [Option.some.injEq] at h; subst h; simp at hok
      · simp only [Option.some.injEq] at h; subst h; simp at hok
      · simp only [Option.some.injEq] at h; subst h; simp at hok
      · simp only [Option.some.injEq] at h; subst h; simp at hok
      · cases hw2 : waitAvailable (f + 1) { ser1 with rx := tail }
            ({ ser1 with rx := tail } : HardwareSerial).millis (l0 * 256 + l1 - 2 + 2)
            self.timeout with
        | none => simp [receivePacketBody, hw2] at h
        | some p2 =>
          obtain ⟨b2, ser2⟩ := p2
          cases b2 with
          | false =>
            simp only [receivePacketBody, hw2, Option.some.injEq] at h
            subst h
            simp at hok
          | true =>
            obtain ⟨hs2, -, hl2⟩ := waitAvailable_spec _ _ _ _ _ _ _ hw2
            have hl3 : l0 * 256 + l1 - 2 + 2 ≤ ser2.rx.length := hl2 rfl
            have hs2b : ser2.stream = tail ++ ser1.incoming.map Prod.snd := by
              rw [hs2]; rfl
            obtain ⟨c0, c1, hsplit⟩ := exists_payload ser2.rx (l0 * 256 + l1 - 2) hl3
            have hmem : ∀ x ∈ ser2.rx, x < 256 := by
              intro x hx
              apply hbytes
              rw [hstream, ← hs2b, HardwareSerial.stream]
              simp only [List.mem_cons, List.mem_append]
              tauto
            have hc0 : c0 < 256 := hmem _ (by rw [hsplit]; simp)
            have hc1 : c1 < 256 := hmem _ (by rw [hsplit]; simp)
            have hplen : (ser2.rx.take (l0 * 256 + l1 - 2)).length + 2 = l0 * 256 + l1 := by
              rw [List.length_take]; omega
            generalize hP : ser2.rx.take (l0 * 256 + l1 - 2) = P at hsplit hplen
            generalize hR : ser2.rx.drop (l0 * 256 + l1 - 2 + 2) = rest2 at hsplit
            dsimp only at h
            rw [receivePacketBody_after_wait (f + 1) { self with serial := ser1 } _ ser2 pid _ hw2,
              receivePacketBody_frame f _ ser2 pid _ _ c0 c1 _ hsplit hplen hc0 hc1] at h
            simp only [Option.some.injEq] at h
            subst h
            simp only [decide_eq_true_eq] at hok
            simp only at hperm
            have hq : Q.length = P.length := hperm.length_eq
            -- the relabelled stream
            have hB : specPermutedStream self.serial.stream Q =
                [h0, h1, a0, a1, a2, a3, pid, l0, l1] ++
                  (Q ++ (c0 :: c1 :: rest2) ++ ser2.incoming.map Prod.snd) := by
              have e1 : self.serial.stream.take 9 = [h0, h1, a0, a1, a2, a3, pid, l0, l1] := by
                rw [hstream]; rfl
              have e2 : self.serial.stream.drop (9 + P.length) =
                  (c0 :: c1 :: rest2) ++ ser2.incoming.map Prod.snd := by
                rw [hstream, ← hs2b, HardwareSerial.stream, hsplit, Nat.add_comm]
                simp only [List.drop_succ_cons, List.append_assoc]
                rw [List.drop_left]
              unfold specPermutedStream
              rw [hq, e1, e2]
              simp only [List.append_assoc]
            have hBlen : (specPermutedStream self.serial.stream Q).length =
                self.serial.stream.length := by
              rw [hB, hstream, ← hs2b, HardwareSerial.stream, hsplit]
              simp only [List.length_append, List.length_cons, List.length_nil, hq]
              omega
            -- first wait
            have hwR := relabel_wait (specPermutedStream self.serial.stream Q)
              self.serial.millis 9 self.timeout (f + 1) self.serial hBlen
            rw [hw] at hwR
            rw [receivePacket_after_wait (f + 1) _ expectedType
              (ser1.relabel (specPermutedStream self.serial.stream Q)) hwR]
            -- header
            have hser1 : ser1.relabel (specPermutedStream self.serial.stream Q) =
                { ({ ser1 with rx := tail } : HardwareSerial).relabel
                    (Q ++ (c0 :: c1 :: rest2) ++ ser2.incoming.map Prod.snd) with
                  rx := [h0, h1, a0, a1, a2, a3, pid, l0, l1] ++
                    (Q ++ (c0 :: c1 :: rest2) ++ ser2.incoming.map Prod.snd).take tail.length } := by
              rw [hB]
              exact relabel_header ser1 _ tail _ hrx
            rw [receivePacket_header f _ expectedType h0 h1 a0 a1 a2 a3 pid l0 l1
              ((Q ++ (c0 :: c1 :: rest2) ++ ser2.incoming.map Prod.snd).take tail.length)
              (by rw [hser1]; rfl) hb9]
            rw [if_neg k1, if_neg k2, if_neg k3, if_neg k4, hser1]
            -- second wait
            have hB2 : (Q ++ (c0 :: c1 :: rest2) ++ ser2.incoming.map Prod.snd).length =
                ({ ser1 with rx := tail } : HardwareSerial).stream.length := by
              rw [← hs2, HardwareSerial.stream, hsplit]
              simp only [List.length_append, List.length_cons, hq]
            have hw2R := relabel_wait (Q ++ (c0 :: c1 :: rest2) ++ ser2.incoming.map Prod.snd)
              ({ ser1 with rx := tail } : HardwareSerial).millis (l0 * 256 + l1 - 2 + 2)
              self.timeout (f + 1) { ser1 with rx := tail } hB2
            rw [hw2] at hw2R
            show receivePacketBody (f + 1)
              { self with serial := { ({ ser1 with rx := tail } : HardwareSerial).relabel
                  (Q ++ (c0 :: c1 :: rest2) ++ ser2.incoming.map Prod.snd) with
                rx := [h0, h1, a0, a1, a2, a3, pid, l0, l1] ++
                  (Q ++ (c0 :: c1 :: rest2) ++ ser2.incoming.map Prod.snd).take tail.length } }
              (({ ser1 with rx := tail } : HardwareSerial).relabel
                (Q ++ (c0 :: c1 :: rest2) ++ ser2.incoming.map Prod.snd)) pid (l0 * 256 + l1) = _
            rw [receivePacketBody_serial (f + 1) self,
              receivePacketBody_after_wait (f + 1) self _
                (ser2.relabel (Q ++ (c0 :: c1 :: rest2) ++ ser2.incoming.map Prod.snd)) pid _ hw2R,
              relabel_payload ser2 P (c0 :: c1 :: rest2) Q hsplit hq,
              receivePacketBody_frame f _ { ser2 with rx := Q ++ c0 :: c1 :: rest2 } pid _ Q c0 c1
                rest2 rfl (by omega) hc0 hc1,
              hperm.sum_eq, decide_eq_true hok, hq]


theorem zipWith_bytes :
    ∀ (inc : List (Nat × Nat)) (bs : List Nat), bs.length = inc.length →
      (List.zipWith (fun p b => (p.1, b)) inc bs).map Prod.snd = bs := by
  intro inc
  induction inc with
  | nil => intro bs h; simp at h; simp [h]
  | cons p rest ih =>
    intro bs h
    cases bs with
    | nil => simp at h
    | cons b bs => simp [ih bs (by simpa using h)]

theorem relabel_stream (ser : HardwareSerial) (bytes : List Nat)
    (h : bytes.length = ser.stream.length) : (ser.relabel bytes).stream = bytes := by
  have hl : (bytes.drop ser.rx.length).length = ser.incoming.length := by
    rw [List.length_drop, h]; simp [HardwareSerial.stream]
  unfold HardwareSerial.stream HardwareSerial.relabel
  simp only
  rw [zipWith_bytes _ _ hl, List.take_append_drop]

/-- C21 (the checksum is order-insensitive): whenever `receivePacket` accepts a frame, on any
transport and with any timing of the arriving bytes, it also accepts the frame whose payload
bytes are permuted, the nine header bytes, the checksum bytes and everything after them
being the same and arriving at the same times; it then returns the permuted payload, with the
same length and the same final session. -/
theorem C21_checksum_order_insensitive (fuel : Nat) (self : R503_Fingerprint)
    (expectedType : Nat) (res : Received) (hbytes : ∀ b ∈ self.serial.stream, b < 256)
    (h : receivePacket fuel self expectedType = some res) (hok : res.ok = true)
    (Q : List Nat) (hperm : Q.Perm res.buffer) :
    receivePacket fuel
        { self with serial := self.serial.relabel (specPermutedStream self.serial.stream Q) }
        expectedType = some { res with buffer := Q } ∧
    (self.serial.relabel (specPermutedStream self.serial.stream Q)).stream =
      self.serial.stream.take 9 ++ Q ++ self.serial.stream.drop (9 + res.buffer.length) ∧
    self.serial.stream =
      self.serial.stream.take 9 ++ res.buffer ++
        self.serial.stream.drop (9 + res.buffer.length) := by
  obtain ⟨h2, hlen, -, -, hbuf⟩ := receivePacket_consumes fuel self expectedType res hbytes h hok
  have hq : Q.length = res.buffer.length := hperm.length_eq
  have hbl : res.buffer.length = specDeclaredLength self.serial.stream - 2 := by
    rw [hbuf, List.length_take, List.length_drop]; omega
  have hsplit : self.serial.stream =
      self.serial.stream.take 9 ++ res.buffer ++
        self.serial.stream.drop (9 + res.buffer.length) := by
    rw [hbuf, List.length_take, List.length_drop,
      Nat.min_eq_left (by omega), List.append_assoc, ← List.drop_drop,
      List.take_append_drop, List.take_append_drop]
  refine ⟨receivePacket_permuted fuel self expectedType res hbytes h hok Q hperm, ?_, hsplit⟩
  rw [relabel_stream]
  · unfold specPermutedStream; rw [hq]
  · unfold specPermutedStream
    rw [List.length_append, List.length_append, hq]
    conv_rhs => rw [hsplit]
    rw [List.length_append, List.length_append]

/-- Instance of C21: payload `[1, 2, 3]` reordered to `[3, 1, 2]`, on a transport where most
of the frame is still in flight. -/
theorem C21_checksum_order_insensitive_witness :
    receivePacket 5
        { arrivingFrame with serial :=
            arrivingFrame.serial.relabel (specPermutedStream arrivingFrame.serial.stream [3, 1, 2]) }
        R503_ACK_PACKET = some { arrivedFrame with buffer := [3, 1, 2] } :=
  (C21_checksum_order_insensitive 5 arrivingFrame R503_ACK_PACKET arrivedFrame (by decide)
    (by decide) rfl [3, 1, 2] (by decide)).1

/-! ## Timeouts -/

theorem delay_silent (ser : HardwareSerial) (ms : Nat) (h : ser.incoming = []) :
    ser.delay ms = { ser with clock := ser.clock + ms } := by
  unfold HardwareSerial.delay
  simp [h]

theorem elapsed_step (c s : Nat) (hs : s < 2 ^ 32) :
    ((c + 1) % 2 ^ 32 + 2 ^ 32 - s) % 2 ^ 32 = ((c % 2 ^ 32 + 2 ^ 32 - s) % 2 ^ 32 + 1) % 2 ^ 32 := by
  norm_num at hs ⊢
  omega

theorem waitAvailable_silent (startTime need limit : Nat) (hs : startTime < 2 ^ 32)
    (hl : limit + 1 < 2 ^ 32) :
    ∀ (d fuel : Nat) (ser : HardwareSerial), ser.incoming = [] → ser.rx.length < need →
      (ser.millis + 2 ^ 32 - startTime) % 2 ^ 32 + d = limit + 1 →
      waitAvailable (fuel + d + 1) ser startTime need limit =
        some (false, { ser with clock := ser.clock + d }) := by
  intro d
  induction d with
  | zero =>
    intro fuel ser _ hrx he
    rw [show fuel + 0 + 1 = fuel + 1 from rfl, waitAvailable]
    simp only [HardwareSerial.available, hrx, if_true]
    rw [if_pos (by omega)]
    rfl
  | succ d ih =>
    intro fuel ser hin hrx he
    rw [show fuel + (d + 1) + 1 = (fuel + d + 1) + 1 from rfl, waitAvailable]
    simp only [HardwareSerial.available, hrx, if_true]
    rw [if_neg (by omega), delay_silent ser 1 hin]
    rw [ih fuel { ser with clock := ser.clock + 1 } hin hrx
      (by
        show ((ser.clock + 1) % 2 ^ 32 + 2 ^ 32 - startTime) % 2 ^ 32 + d = limit + 1
        rw [elapsed_step ser.clock startTime hs]
        have hm : ser.millis = ser.clock % 2 ^ 32 := rfl
        rw [hm] at he
        rw [Nat.mod_eq_of_lt (by omega)]
        omega)]
    simp only [Nat.add_assoc, Nat.add_comm 1 d]

theorem waitAvailable_polling (startTime need limit : Nat) (hs : startTime < 2 ^ 32)
    (hl : limit + 1 < 2 ^ 32) :
    ∀ (fuel : Nat) (ser : HardwareSerial), ser.incoming = [] → ser.rx.length < need →
      (ser.millis + 2 ^ 32 - startTime) % 2 ^ 32 + fuel ≤ limit + 1 →
      waitAvailable fuel ser startTime need limit = none := by
  intro fuel
  induction fuel with
  | zero => intro ser _ _ _; rfl
  | succ n ih =>
    intro ser hin hrx he
    rw [waitAvailable]
    simp only [HardwareSerial.available, hrx, if_true]
    rw [if_neg (by omega), delay_silent ser 1 hin]
    exact ih { ser with clock := ser.clock + 1 } hin hrx
      (by
        show ((ser.clock + 1) % 2 ^ 32 + 2 ^ 32 - startTime) % 2 ^ 32 + n ≤ limit + 1
        rw [elapsed_step ser.clock startTime hs]
        have hm : ser.millis = ser.clock % 2 ^ 32 := rfl
        rw [hm] at he
        rw [Nat.mod_eq_of_lt (by omega)]
        omega)

theorem waitAvailable_forever (startTime need limit : Nat) (hl : 2 ^ 32 - 1 ≤ limit) :
    ∀ (fuel : Nat) (ser : HardwareSerial), ser.incoming = [] → ser.rx.length < need →
      waitAvailable fuel ser startTime need limit = none := by
  intro fuel
  induction fuel with
  | zero => intro ser _ _; rfl
  | succ n ih =>
    intro ser hin hrx
    rw [waitAvailable]
    simp only [HardwareSerial.available, hrx, if_true]
    have hlt : (ser.millis + 2 ^ 32 - startTime) % 2 ^ 32 < 2 ^ 32 :=
      Nat.mod_lt _ (Nat.two_pow_pos 32)
    rw [if_neg (by omega), delay_silent ser 1 hin]
    exact ih { ser with clock := ser.clock + 1 } hin hrx


theorem receivePacket_silent (k : Nat) (self : R503_Fingerprint) (expectedType : Nat)
    (hin : self.serial.incoming = []) (hrx : self.serial.rx.length < 9)
    (hto : self.timeout < 0xFFFFFFFF) :
    receivePacket (self.timeout + 2 + k) self expectedType =
      some ⟨false, [], 0, timedOut self⟩ := by
  have hm : self.serial.millis < 2 ^ 32 := Nat.mod_lt _ (Nat.two_pow_pos 32)
  have h0 : (self.serial.millis + 2 ^ 32 - self.serial.millis) % 2 ^ 32 = 0 := by
    rw [Nat.add_sub_cancel_left, Nat.mod_self]
  have hw := waitAvailable_silent self.serial.millis 9 self.timeout hm
    (by norm_num at hto ⊢; omega) (self.timeout + 1) k self.serial hin hrx (by rw [h0]; omega)
  unfold receivePacket
  simp only
  rw [show self.timeout + 2 + k = k + (self.timeout + 1) + 1 by omega, hw]
  rfl

theorem receivePacket_polling (j : Nat) (self : R503_Fingerprint) (expectedType : Nat)
    (hin : self.serial.incoming = []) (hrx : self.serial.rx.length < 9)
    (hto : self.timeout < 0xFFFFFFFF) (hj : j ≤ self.timeout + 1) :
    receivePacket j self expectedType = none := by
  have hm : self.serial.millis < 2 ^ 32 := Nat.mod_lt _ (Nat.two_pow_pos 32)
  have h0 : (self.serial.millis + 2 ^ 32 - self.serial.millis) % 2 ^ 32 = 0 := by
    rw [Nat.add_sub_cancel_left, Nat.mod_self]
  have hw := waitAvailable_polling self.serial.millis 9 self.timeout hm
    (by norm_num at hto ⊢; omega) j self.serial hin hrx (by rw [h0]; omega)
  unfold receivePacket
  simp only
  rw [hw]

theorem receivePacket_forever (fuel : Nat) (self : R503_Fingerprint) (expectedType : Nat)
    (hin : self.serial.incoming = []) (hrx : self.serial.rx.length < 9)
    (hto : 0xFFFFFFFF ≤ self.timeout) :
    receivePacket fuel self expectedType = none := by
  have hw := waitAvailable_forever self.serial.millis 9 self.timeout
    (by norm_num at hto ⊢; omega) fuel self.serial hin hrx
  unfold receivePacket
  simp only
  rw [hw]

theorem simpleCommand_silent (k : Nat) (self : R503_Fingerprint) (packet : List Nat)
    (hin : self.serial.incoming = []) (hrx : self.serial.rx.length < 9)
    (hto : self.timeout < 0xFFFFFFFF) :
    receiveAck (self.timeout + 2 + k) self = some ⟨false, [], 0, timedOut self⟩ ∧
    simpleCommand (self.timeout + 2 + k) self packet =
      some (false, timedOut (commandSent self packet)) := by
  constructor
  · unfold receiveAck
    rw [receivePacket_silent k self R503_ACK_PACKET hin hrx hto]
    rfl
  · have hs : commandSent self packet = { self with serial := { self.serial with
        tx := self.serial.tx ++ specFrame self.address 0x01 packet } } := by
      unfold commandSent; rw [sendPacket_eq]; rfl
    rw [simpleCommand_eq, ← hs]
    have hr := receivePacket_silent k (commandSent self packet) R503_ACK_PACKET
      (by rw [hs]; exact hin) (by rw [hs]; exact hrx) (by rw [hs]; exact hto)
    have ht : (commandSent self packet).timeout = self.timeout := by rw [hs]
    rw [ht] at hr
    unfold receiveAck
    rw [hr]
    rfl

/-- C22 (timeout determinism, as the code has it): with a configured timeout below
0xFFFFFFFF, on a transport that holds fewer than nine bytes and never produces another,
`receivePacket` returns `false` when the clock stands `timeout + 1` ms after the start, which
is the first poll whose elapsed time exceeds the timeout; after any smaller number of polls
it is still waiting; and `receiveAck`, `handshake` and `getImage` return `false` at the same
moment. The fuel counts the tests of the loop condition, one per millisecond. -/
theorem C22_timeout_determinism (k : Nat) (self : R503_Fingerprint) (expectedType : Nat)
    (hin : self.serial.incoming = []) (hrx : self.serial.rx.length < 9)
    (hto : self.timeout < 0xFFFFFFFF) :
    receivePacket (self.timeout + 2 + k) self expectedType =
      some ⟨false, [], 0, timedOut self⟩ ∧
    (∀ j, j ≤ self.timeout + 1 → receivePacket j self expectedType = none) ∧
    receiveAck (self.timeout + 2 + k) self = some ⟨false, [], 0, timedOut self⟩ ∧
    handshake (self.timeout + 2 + k) self =
      some (false, timedOut (commandSent self [R503_HANDSHAKE])) ∧
    getImage (self.timeout + 2 + k) self =
      some (false, timedOut (commandSent self [R503_GENIMG])) :=
  ⟨receivePacket_silent k self expectedType hin hrx hto,
    fun j hj => receivePacket_polling j self expectedType hin hrx hto hj,
    (simpleCommand_silent k self [] hin hrx hto).1,
    (handshake_eq _ _).trans (simpleCommand_silent k self _ hin hrx hto).2,
    (getImage_eq _ _).trans (simpleCommand_silent k self _ hin hrx hto).2⟩

/-- Instance of C22: the default timeout of 2000 ms on a silent transport. -/
theorem C22_timeout_determinism_witness :
    receivePacket 2002 freshSession R503_ACK_PACKET =
      some ⟨false, [], 0, timedOut freshSession⟩ ∧
    (∀ j, j ≤ 2001 → receivePacket j freshSession R503_ACK_PACKET = none) :=
  have h := C22_timeout_determinism 0 freshSession R503_ACK_PACKET rfl (by decide) (by decide)
  ⟨h.1, h.2.1⟩

/-- C22, counterexample: after `setTimeout(0xFFFFFFFF)`, on a transport that never produces a
byte, `receivePacket` never returns, whatever the number of polls. -/
theorem C22_counterexample :
    ¬ ∃ fuel, (receivePacket fuel (setTimeout freshSession 0xFFFFFFFF)
      R503_ACK_PACKET).isSome = true := by
  rintro ⟨fuel, h⟩
  rw [receivePacket_forever fuel (setTimeout freshSession 0xFFFFFFFF) R503_ACK_PACKET rfl
    (by decide) (by decide)] at h
  exact absurd h (by decide)

/-! ## Capacity -/

/-- C23 (inbound transfer and capacity): on a Data frame with payload `[1, 2, 3]`,
`receiveData` with `maxLength` 2 (and with `maxLength` 0) stores all three bytes, at offsets
0, 1 and 2, and only then returns `false`. -/
theorem C23_store_before_capacity_test :
    (receiveData 1 (withRx freshSession (specFrame 0xFFFFFFFF 0x02 [1, 2, 3])) 2).map
        (fun r => (r.ok, r.buffer, r.actualLength)) = some (false, [1, 2, 3], 3) ∧
    (receiveData 1 (withRx freshSession (specFrame 0xFFFFFFFF 0x02 [1, 2, 3])) 0).map
        (fun r => (r.ok, r.buffer, r.actualLength)) = some (false, [1, 2, 3], 3) := by
  decide

/-- C24 (acknowledgement payload and the response array): on an acknowledgement frame that
declares 17 payload bytes, `receiveAck` stores all 17 bytes into the buffer it was given, and
`handshake`, whose buffer is `uint8_t response[16]`, returns `true`. -/
theorem C24_ack_overruns_response_array :
    (receiveAck 1 (withRx (commandSent freshSession [R503_HANDSHAKE]) longAck)).map
        (fun a => (a.ok, a.length, a.buffer)) =
      some (true, 17, 0x00 :: List.replicate 16 0xAA) ∧
    (handshake 1 (withRx freshSession longAck)).map Prod.fst = some true := by
  decide

/-! ## Credentials -/

theorem credential_update (fuel : Nat) (self : R503_Fingerprint) (packet : List Nat)
    (upd : R503_Fingerprint → R503_Fingerprint) (b : Bool) (s2 : R503_Fingerprint)
    (h : (match receiveAck fuel (commandSent self packet) with
      | none => none
      | some r =>
        if r.ok = false then some (false, r.self) else
        if r.self.lastConfirmCode = R503_OK then some (true, upd r.self)
        else some (false, r.self)) = some (b, s2)) :
    ∃ a, receiveAck fuel (commandSent self packet) = some a ∧
      (b = true → s2 = upd a.self) ∧ (b = false → s2 = a.self) ∧
      a.self.password = self.password ∧ a.self.address = self.address ∧
      a.self.timeout = self.timeout := by
  cases ha : receiveAck fuel (commandSent self packet) with
  | none => rw [ha] at h; simp at h
  | some a =>
    rw [ha] at h
    have hp := receiveAck_preserves fuel _ a ha
    have hs : (commandSent self packet).password = self.password ∧
        (commandSent self packet).address = self.address ∧
        (commandSent self packet).timeout = self.timeout := by
      unfold commandSent; rw [sendPacket_eq]; exact ⟨rfl, rfl, rfl⟩
    refine ⟨a, rfl, ?_, ?_, by rw [hp.2.2.1, hs.1], by rw [hp.2.1, hs.2.1],
      by rw [hp.2.2.2, hs.2.2]⟩
    · intro hb
      subst hb
      by_cases hok : a.ok = false
      · simp [hok] at h
      · by_cases hc : a.self.lastConfirmCode = R503_OK
        · simp [hok, hc] at h; exact h.symm
        · simp [hok, hc] at h
    · intro hb
      subst hb
      by_cases hok : a.ok = false
      · simp [hok] at h; exact h.symm
      · by_cases hc : a.self.lastConfirmCode = R503_OK
        · simp [hok, hc] at h
        · simp [hok, hc] at h; exact h.symm

theorem setPassword_eq (fuel : Nat) (self : R503_Fingerprint) (password : Nat) :
    setPassword fuel self password =
      match receiveAck fuel (commandSent self [R503_SETPWD, (password >>> 24) &&& 0xFF,
        (password >>> 16) &&& 0xFF, (password >>> 8) &&& 0xFF, password &&& 0xFF]) with
      | none => none
      | some r =>
        if r.ok = false then some (false, r.self) else
        if r.self.lastConfirmCode = R503_OK then some (true, { r.self with password := password })
        else some (false, r.self) := by
  have hs : sendPacket self R503_COMMAND_PACKET [R503_SETPWD, (password >>> 24) &&& 0xFF,
      (password >>> 16) &&& 0xFF, (password >>> 8) &&& 0xFF, password &&& 0xFF] 5 = _ :=
    sendPacket_eq self R503_COMMAND_PACKET _
  unfold setPassword commandSent
  simp only [hs, List.length]
  rfl

theorem setAddress_eq (fuel : Nat) (self : R503_Fingerprint) (address : Nat) :
    setAddress fuel self address =
      match receiveAck fuel (commandSent self [R503_SETADDER, (address >>> 24) &&& 0xFF,
        (address >>> 16) &&& 0xFF, (address >>> 8) &&& 0xFF, address &&& 0xFF]) with
      | none => none
      | some r =>
        if r.ok = false then some (false, r.self) else
        if r.self.lastConfirmCode = R503_OK then some (true, { r.self with address := address })
        else some (false, r.self) := by
  have hs : sendPacket self R503_COMMAND_PACKET [R503_SETADDER, (address >>> 24) &&& 0xFF,
      (address >>> 16) &&& 0xFF, (address >>> 8) &&& 0xFF, address &&& 0xFF] 5 = _ :=
    sendPacket_eq self R503_COMMAND_PACKET _
  unfold setAddress commandSent
  simp only [hs, List.length]
  rfl

/-- C25 (credential updates are atomic): when `setPassword(p)` returns `true` the session
password is `p`, when it returns `false` the password is the prior one, and address and
timeout are unchanged; when `setAddress(a)` returns `true` the session address is `a`, when it
returns `false` the address is the prior one, and password and timeout are unchanged. -/
theorem C25_credential_updates (fuel : Nat) (self : R503_Fingerprint) (p a : Nat)
    (bp ba : Bool) (sp sa : R503_Fingerprint)
    (hp : setPassword fuel self p = some (bp, sp))
    (ha : setAddress fuel self a = some (ba, sa)) :
    ((bp = true → sp.password = p) ∧ (bp = false → sp.password = self.password) ∧
      sp.address = self.address ∧ sp.timeout = self.timeout) ∧
    ((ba = true → sa.address = a) ∧ (ba = false → sa.address = self.address) ∧
      sa.password = self.password ∧ sa.timeout = self.timeout) := by
  rw [setPassword_eq] at hp
  rw [setAddress_eq] at ha
  obtain ⟨r, _, ht, hf, e1, e2, e3⟩ := credential_update fuel self _
    (fun s => { s with password := p }) bp sp hp
  obtain ⟨q, _, ht2, hf2, d1, d2, d3⟩ := credential_update fuel self _
    (fun s => { s with address := a }) ba sa ha
  refine ⟨⟨fun h => by rw [ht h], fun h => by rw [hf h, e1], ?_, ?_⟩,
    ⟨fun h => by rw [ht2 h], fun h => by rw [hf2 h, d2], ?_, ?_⟩⟩
  · cases bp with
    | true => rw [ht rfl]; exact e2
    | false => rw [hf rfl]; exact e2
  · cases bp with
    | true => rw [ht rfl]; exact e3
    | false => rw [hf rfl]; exact e3
  · cases ba with
    | true => rw [ht2 rfl]; exact d1
    | false => rw [hf2 rfl]; exact d1
  · cases ba with
    | true => rw [ht2 rfl]; exact d3
    | false => rw [hf2 rfl]; exact d3

/-- Instance of C25: both commands acknowledged with 0x00 on a fresh session. -/
theorem C25_credential_updates_witness :
    (({ afterAck [0x12, 0x12, 0x34, 0x56, 0x78] with password := 0x12345678 }
        : R503_Fingerprint).password = 0x12345678 ∧
      ({ afterAck [0x15, 0x00, 0x00, 0x00, 0x01] with address := 0x00000001 }
        : R503_Fingerprint).address = 0x00000001) ∧
    setPassword 1 ackedSession 0x12345678 =
      some (true, { afterAck [0x12, 0x12, 0x34, 0x56, 0x78] with password := 0x12345678 }) ∧
    setAddress 1 ackedSession 0x00000001 =
      some (true, { afterAck [0x15, 0x00, 0x00, 0x00, 0x01] with address := 0x00000001 }) :=
  have hp : setPassword 1 ackedSession 0x12345678 =
      some (true, { afterAck [0x12, 0x12, 0x34, 0x56, 0x78] with password := 0x12345678 }) := by
    decide
  have ha : setAddress 1 ackedSession 0x00000001 =
      some (true, { afterAck [0x15, 0x00, 0x00, 0x00, 0x01] with address := 0x00000001 }) := by
    decide
  have h := C25_credential_updates 1 ackedSession 0x12345678 0x00000001 true true _ _ hp ha
  ⟨⟨h.1.1 rfl, h.2.1 rfl⟩, hp, ha⟩

end R503
